import Mathlib

/-!
# The persisted visits queue of eftakdny and the pages that record visits

A shallow embedding of `src/utils/visitsListStorage.js`, the six functions that
keep the "to visit" queue in one `localStorage` slot, together with the parts
of the JavaScript platform they call: `JSON.parse`, `JSON.stringify`,
`Array.prototype.includes / push / filter`, `String.prototype.includes`,
`Number`, `parseInt` and the `length` property; of the visit dialog of
`src/pages/VisitsList.jsx` and `src/pages/Visitations.jsx`; of the map component
`src/components/LeafletMap.jsx` with the callbacks the pages pass to it; and of
the phone list of the form `src/pages/AddEditChild.jsx`.

Modelling decisions.

* The slot is `Option String`: `none` is an absent key (`getItem` answers
  `null`), `some text` the text stored under `eftakdny_visits_list`.
* An exception is the `error` side of `Except JsError`; a `try / catch` block is
  a `match` on the `Except` value of its body.
* Numbers are exact: an integer is an `Int`. IEEE-754 rounding is not
  modelled, so the integers meant are those a double holds exactly. A number
  whose value is not an integer is kept by its literal (`JsVal.real`).
* Strings are Lean strings (sequences of Unicode scalar values); a `\u` escape
  that names a lone surrogate is read as U+FFFD.
* An object keeps its members in the order of the text.
* A handler runs against the state of the last render: the page is rendered
  again between two events.
* The coordinates the map component checks are `JsNumber`s: `NaN`, an infinity
  or a rational. The tolerance test of `MapCenterHandler` is computed as the
  code computes it, in IEEE 754 doubles: a rational stands for the double
  nearest to it, as a numeric literal does, and the subtraction rounds.
-/

/-! ## Values -/

/-- The exceptions that can arise: a `TypeError` (a property of `null`, a call
of something that is not a function), the `SyntaxError` of `JSON.parse`, and
the exception a storage call throws (quota exceeded, access denied). -/
inductive JsError where
  | typeError
  | syntaxError
  | storageError
  deriving DecidableEq

/-- JavaScript values: what `JSON.parse` can produce, and `undefined`. -/
inductive JsVal where
  | undefined
  | null
  | bool (b : Bool)
  | num (n : Int)
  | real (lit : String)
  | str (s : String)
  | arr (xs : List JsVal)
  | obj (kvs : List (String × JsVal))

/-- The value of `Number(x)` as far as a comparison with an identifier needs
it: an integer, `NaN`, or some other number (a finite non-integer or an
infinity), which is never equal to an integer. -/
inductive JsNum where
  | int (n : Int)
  | nan
  | other
  deriving DecidableEq

/-- The identifiers the callers pass: a number (`@param {number} childId`) or
a string such as a route parameter or a form value. -/
inductive ChildId where
  | int (n : Int)
  | str (s : String)
  deriving DecidableEq

/-- The JavaScript value of an identifier. -/
def ChildId.toJs : ChildId → JsVal
  | .int n => .num n
  | .str s => .str s

/-! ## Characters and digits -/

/-- The value of a decimal digit. -/
def digitVal (c : Char) : Option Nat :=
  if '0' ≤ c ∧ c ≤ '9' then some (c.toNat - '0'.toNat) else none

/-- Whether a character is a decimal digit. -/
def isDigitChar (c : Char) : Bool := (digitVal c).isSome

/-- The value of a hexadecimal digit. -/
def hexVal (c : Char) : Option Nat :=
  if '0' ≤ c ∧ c ≤ '9' then some (c.toNat - '0'.toNat)
  else if 'a' ≤ c ∧ c ≤ 'f' then some (c.toNat - 'a'.toNat + 10)
  else if 'A' ≤ c ∧ c ≤ 'F' then some (c.toNat - 'A'.toNat + 10)
  else none

/-- The longest run of decimal digits at the head of the text, and the rest. -/
def takeDigits : List Char → List Char × List Char
  | [] => ([], [])
  | c :: cs =>
    if isDigitChar c then ((takeDigits cs).1.cons c, (takeDigits cs).2)
    else ([], c :: cs)

/-- The number a run of decimal digits denotes, most significant digit first. -/
def evalDigits (ds : List Char) : Nat :=
  ds.foldl (fun acc c => acc * 10 + (digitVal c).getD 0) 0

/-- The decimal digits of a natural number (`Number::toString` on a
non-negative integer). -/
def natChars (n : Nat) : List Char := Nat.toDigits 10 n

/-- The decimal text of an integer (`Number::toString`). -/
def intChars : Int → List Char
  | .ofNat n => natChars n
  | .negSucc n => '-' :: natChars (n + 1)

/-- The integer `mant * 10 ^ exp` when that is an integer, where `mant` is a
natural number: the value of a decimal literal with its point removed. -/
def scaleDecimal (mant : Nat) (exp : Int) : Option Nat :=
  match exp with
  | .ofNat e => some (mant * 10 ^ e)
  | .negSucc e => if mant % 10 ^ (e + 1) = 0 then some (mant / 10 ^ (e + 1)) else none

/-! ## JSON.parse -/

namespace JSON

/-- JSON white space: space, tab, line feed, carriage return. -/
def isWs (c : Char) : Bool := c = ' ' || c = '\t' || c = '\n' || c = '\r'

/-- Drops leading JSON white space. -/
def skipWs : List Char → List Char
  | [] => []
  | c :: cs => if isWs c then skipWs cs else c :: cs

/-- The optional fraction of a number literal: a point and at least one digit.
`none` is a syntax error; no fraction gives the empty digit list. -/
def parseFrac : List Char → Option (List Char × List Char)
  | [] => some ([], [])
  | c :: cs =>
    if c = '.' then
      match takeDigits cs with
      | ([], _) => none
      | (ds, rest) => some (ds, rest)
    else some ([], c :: cs)

/-- The digits of an exponent, at least one, with the sign already read. -/
def parseExpDigits (negative : Bool) (cs : List Char) : Option (Int × List Char) :=
  match takeDigits cs with
  | ([], _) => none
  | (ds, rest) =>
    some (if negative then -(Int.ofNat (evalDigits ds)) else Int.ofNat (evalDigits ds), rest)

/-- The optional exponent of a number literal; no exponent gives 0. -/
def parseExp : List Char → Option (Int × List Char)
  | [] => some (0, [])
  | c :: cs =>
    if c = 'e' ∨ c = 'E' then
      match cs with
      | '+' :: ds => parseExpDigits false ds
      | '-' :: ds => parseExpDigits true ds
      | ds => parseExpDigits false ds
    else some (0, c :: cs)

/-- After the integer part `ip` of a number literal: fraction, exponent, and
the value. `lit` is the text from the start of the literal. -/
def parseNumberTail (negative : Bool) (ip : List Char) (lit rest : List Char) :
    Option (JsVal × List Char) :=
  match parseFrac rest with
  | none => none
  | some (fp, r2) =>
    match parseExp r2 with
    | none => none
    | some (e, r3) =>
      match scaleDecimal (evalDigits (ip ++ fp)) (e - Int.ofNat fp.length) with
      | some n => some (.num (if negative then -(Int.ofNat n) else Int.ofNat n), r3)
      | none => some (.real (String.mk (lit.take (lit.length - r3.length))), r3)

/-- The unsigned part of a number literal: `0`, or a digit from 1 to 9 followed by
digits. -/
def parseUnsigned (negative : Bool) (lit : List Char) : List Char → Option (JsVal × List Char)
  | [] => none
  | c :: cs =>
    if c = '0' then parseNumberTail negative [c] lit cs
    else if isDigitChar c then
      parseNumberTail negative (c :: (takeDigits cs).1) lit (takeDigits cs).2
    else none

/-- A JSON number literal at the head of the text: an optional minus sign, then
the unsigned part. -/
def parseNumber (cs : List Char) : Option (JsVal × List Char) :=
  match cs with
  | [] => none
  | c :: rest => if c = '-' then parseUnsigned true cs rest else parseUnsigned false cs cs

/-- The four hexadecimal digits of a `\u` escape. -/
def hex4 (a b c d : Char) : Option Nat :=
  match hexVal a, hexVal b, hexVal c, hexVal d with
  | some x, some y, some z, some w => some (((x * 16 + y) * 16 + z) * 16 + w)
  | _, _, _, _ => none

/-- The character of a UTF-16 code unit that stands alone; a surrogate is
read as U+FFFD. -/
def unitChar (u : Nat) : Char :=
  if 0xD800 ≤ u ∧ u ≤ 0xDFFF then Char.ofNat 0xFFFD else Char.ofNat u

/-- The body of a string literal, after the opening quote; `acc` holds the
characters read so far, last first. The first argument bounds the number of
steps; each step consumes a character. -/
def parseStringBody : Nat → List Char → List Char → Option (String × List Char)
  | 0, _, _ => none
  | _ + 1, [], _ => none
  | fuel + 1, c :: cs, acc =>
    if c = '"' then some (String.mk acc.reverse, cs)
    else if c = '\\' then
      match cs with
      | [] => none
      | e :: cs1 =>
        if e = 'u' then
          match cs1 with
          | a :: b :: c2 :: d :: cs2 =>
            match hex4 a b c2 d with
            | none => none
            | some hi =>
              if 0xD800 ≤ hi ∧ hi ≤ 0xDBFF then
                match cs2 with
                | '\\' :: 'u' :: a2 :: b2 :: c3 :: d2 :: cs3 =>
                  match hex4 a2 b2 c3 d2 with
                  | none => none
                  | some lo =>
                    if 0xDC00 ≤ lo ∧ lo ≤ 0xDFFF then
                      parseStringBody fuel cs3
                        (Char.ofNat (0x10000 + (hi - 0xD800) * 0x400 + (lo - 0xDC00)) :: acc)
                    else parseStringBody fuel cs3 (unitChar lo :: unitChar hi :: acc)
                | _ => parseStringBody fuel cs2 (unitChar hi :: acc)
              else parseStringBody fuel cs2 (unitChar hi :: acc)
          | _ => none
        else if e = '"' then parseStringBody fuel cs1 ('"' :: acc)
        else if e = '\\' then parseStringBody fuel cs1 ('\\' :: acc)
        else if e = '/' then parseStringBody fuel cs1 ('/' :: acc)
        else if e = 'b' then parseStringBody fuel cs1 (Char.ofNat 8 :: acc)
        else if e = 'f' then parseStringBody fuel cs1 (Char.ofNat 12 :: acc)
        else if e = 'n' then parseStringBody fuel cs1 ('\n' :: acc)
        else if e = 'r' then parseStringBody fuel cs1 ('\r' :: acc)
        else if e = 't' then parseStringBody fuel cs1 ('\t' :: acc)
        else none
    else if c.toNat < 0x20 then none
    else parseStringBody fuel cs (c :: acc)

/-- A string literal after its opening quote: the string and the rest. -/
def parseString (cs : List Char) : Option (String × List Char) :=
  parseStringBody (cs.length + 1) cs []

/-- The rest of the text after the given word, when the text starts with it. -/
def expectWord (word : List Char) (cs : List Char) : Option (List Char) :=
  if word.isPrefixOf cs then some (cs.drop word.length) else none

mutual
/-- A JSON value at the head of the text, after optional white space, and the
rest of the text. The first argument bounds the number of nested calls. -/
def parseValue : Nat → List Char → Option (JsVal × List Char)
  | 0, _ => none
  | fuel + 1, cs =>
    match skipWs cs with
    | [] => none
    | c :: rest =>
      if c = '[' then
        match skipWs rest with
        | [] => none
        | d :: rest2 =>
          if d = ']' then some (.arr [], rest2)
          else
            match parseElements fuel rest with
            | none => none
            | some (xs, rest3) => some (.arr xs, rest3)
      else if c = '{' then
        match skipWs rest with
        | [] => none
        | d :: rest2 =>
          if d = '}' then some (.obj [], rest2)
          else
            match parseMembers fuel rest with
            | none => none
            | some (kvs, rest3) => some (.obj kvs, rest3)
      else if c = '"' then
        match parseString rest with
        | none => none
        | some (s, rest2) => some (.str s, rest2)
      else if c = 'n' then (expectWord ['u', 'l', 'l'] rest).map (fun r => (.null, r))
      else if c = 't' then (expectWord ['r', 'u', 'e'] rest).map (fun r => (.bool true, r))
      else if c = 'f' then (expectWord ['a', 'l', 's', 'e'] rest).map (fun r => (.bool false, r))
      else parseNumber (c :: rest)
/-- The elements of a non-empty array up to and including the closing bracket. -/
def parseElements : Nat → List Char → Option (List JsVal × List Char)
  | 0, _ => none
  | fuel + 1, cs =>
    match parseValue fuel cs with
    | none => none
    | some (v, rest) =>
      match skipWs rest with
      | [] => none
      | c :: rest2 =>
        if c = ',' then
          match parseElements fuel rest2 with
          | none => none
          | some (vs, rest3) => some (v :: vs, rest3)
        else if c = ']' then some ([v], rest2)
        else none
/-- The members of a non-empty object up to and including the closing brace. -/
def parseMembers : Nat → List Char → Option (List (String × JsVal) × List Char)
  | 0, _ => none
  | fuel + 1, cs =>
    match skipWs cs with
    | [] => none
    | q :: rest =>
      if q = '"' then
        match parseString rest with
        | none => none
        | some (k, rest2) =>
          match skipWs rest2 with
          | [] => none
          | colon :: rest3 =>
            if colon = ':' then
              match parseValue fuel rest3 with
              | none => none
              | some (v, rest4) =>
                match skipWs rest4 with
                | [] => none
                | c :: rest5 =>
                  if c = ',' then
                    match parseMembers fuel rest5 with
                    | none => none
                    | some (kvs, rest6) => some ((k, v) :: kvs, rest6)
                  else if c = '}' then some ([(k, v)], rest5)
                  else none
            else none
      else none
end

/-- The model of `JSON.parse(text)`: the value, or a `SyntaxError`. Every nested call of the
parser consumes a character at least every second call, so twice the
length of the text bounds the nesting. -/
def parse (text : String) : Except JsError JsVal :=
  match parseValue (2 * text.data.length + 2) text.data with
  | none => .error .syntaxError
  | some (v, rest) =>
    match skipWs rest with
    | [] => .ok v
    | _ => .error .syntaxError

end JSON

/-! ## JSON.stringify -/

namespace JSON

/-- A hexadecimal digit, lower case. -/
def hexDigit (n : Nat) : Char := Nat.digitChar (n % 16)

/-- The characters that write one character of a string inside quotes. -/
def quoteChar (c : Char) : List Char :=
  if c = '"' then ['\\', '"']
  else if c = '\\' then ['\\', '\\']
  else if c = Char.ofNat 8 then ['\\', 'b']
  else if c = Char.ofNat 12 then ['\\', 'f']
  else if c = '\n' then ['\\', 'n']
  else if c = '\r' then ['\\', 'r']
  else if c = '\t' then ['\\', 't']
  else if c.toNat < 0x20 then ['\\', 'u', '0', '0', hexDigit (c.toNat / 16), hexDigit c.toNat]
  else [c]

/-- A string written as a JSON string literal. -/
def quote (s : String) : List Char :=
  '"' :: (s.data.flatMap quoteChar ++ ['"'])

mutual
/-- The JSON text of a value. An `undefined` element of an array is written
`null`, as `JSON.stringify` does; a number that is not an integer is written
with the literal it was read from. -/
def stringifyChars : JsVal → List Char
  | .undefined => ['n', 'u', 'l', 'l']
  | .null => ['n', 'u', 'l', 'l']
  | .bool true => ['t', 'r', 'u', 'e']
  | .bool false => ['f', 'a', 'l', 's', 'e']
  | .num n => intChars n
  | .real lit => lit.data
  | .str s => quote s
  | .arr [] => ['[', ']']
  | .arr (x :: xs) => '[' :: (stringifyChars x ++ (stringifyRest xs ++ [']']))
  | .obj [] => ['{', '}']
  | .obj ((k, v) :: kvs) =>
    '{' :: (quote k ++ (':' :: (stringifyChars v ++ (stringifyMembers kvs ++ ['}']))))
/-- The elements of an array after the first, each after a comma. -/
def stringifyRest : List JsVal → List Char
  | [] => []
  | x :: xs => ',' :: (stringifyChars x ++ stringifyRest xs)
/-- The members of an object after the first, each after a comma. -/
def stringifyMembers : List (String × JsVal) → List Char
  | [] => []
  | (k, v) :: kvs => ',' :: (quote k ++ (':' :: (stringifyChars v ++ stringifyMembers kvs)))
end

/-- The model of `JSON.stringify(value)` for a value that is not `undefined` itself. -/
def stringify (v : JsVal) : String := String.mk (stringifyChars v)

end JSON

/-! ## Number, parseInt, includes, push, filter, length -/

/-- The white space `StringToNumber` and `parseInt` strip: `WhiteSpace` and
`LineTerminator` of ECMAScript. -/
def isStrWhiteSpace (c : Char) : Bool :=
  let n := c.toNat
  n = 0x9 || n = 0xA || n = 0xB || n = 0xC || n = 0xD || n = 0x20 || n = 0xA0 ||
  n = 0x1680 || (0x2000 ≤ n && n ≤ 0x200A) || n = 0x2028 || n = 0x2029 ||
  n = 0x202F || n = 0x205F || n = 0x3000 || n = 0xFEFF

/-- Drops the leading white space of `StringToNumber` and `parseInt`. -/
def trimStart : List Char → List Char
  | [] => []
  | c :: cs => if isStrWhiteSpace c then trimStart cs else c :: cs

/-- Drops leading and trailing white space. -/
def trimBoth (cs : List Char) : List Char :=
  (trimStart (trimStart cs).reverse).reverse

/-- The value of a non-empty run of digits of the given radix that is the whole
text, most significant digit first. -/
def evalRadix (radix : Nat) (cs : List Char) : Option Nat :=
  match cs with
  | [] => none
  | _ =>
    cs.foldl
      (fun acc c =>
        match acc, hexVal c with
        | some a, some d => if d < radix then some (a * radix + d) else none
        | _, _ => none)
      (some 0)

/-- The value of a text that is a non-empty run of decimal digits and nothing
else. -/
def wholeDigits (ds : List Char) : Option Nat :=
  if (takeDigits ds).1 ≠ [] ∧ (takeDigits ds).2 = [] then some (evalDigits ds) else none

/-- The optional exponent of a `StrDecimalLiteral` that ends the text; `none`
when the text is not an exponent. -/
def strExponent : List Char → Option Int
  | [] => some 0
  | c :: cs =>
    if c = 'e' ∨ c = 'E' then
      match cs with
      | '+' :: ds => (wholeDigits ds).map Int.ofNat
      | '-' :: ds => (wholeDigits ds).map (fun e => -(Int.ofNat e))
      | ds => (wholeDigits ds).map Int.ofNat
    else none

/-- The number a `StrUnsignedDecimalLiteral` other than `Infinity` denotes:
digits, an optional point and digits, an optional exponent, with a digit
before or after the point. -/
def strUnsignedDecimal (negative : Bool) (cs : List Char) : JsNum :=
  let ip := (takeDigits cs).1
  let afterInt := (takeDigits cs).2
  let fp := match afterInt with
    | '.' :: r => (takeDigits r).1
    | _ => []
  let afterFrac := match afterInt with
    | '.' :: r => (takeDigits r).2
    | r => r
  if ip = [] ∧ fp = [] then .nan
  else
    match strExponent afterFrac with
    | none => .nan
    | some e =>
      match scaleDecimal (evalDigits (ip ++ fp)) (e - Int.ofNat fp.length) with
      | some n => .int (if negative then -(Int.ofNat n) else Int.ofNat n)
      | none => .other

/-- A `StrDecimalLiteral` after its sign. -/
def strDecimal (negative : Bool) (cs : List Char) : JsNum :=
  if cs = "Infinity".data then .other else strUnsignedDecimal negative cs

/-- The model of `StringToNumber`, the conversion `Number(s)` applies to a string. -/
def stringToNumber (s : String) : JsNum :=
  match trimBoth s.data with
  | [] => .int 0
  | '0' :: 'x' :: ds => (evalRadix 16 ds).elim .nan (fun n => .int (Int.ofNat n))
  | '0' :: 'X' :: ds => (evalRadix 16 ds).elim .nan (fun n => .int (Int.ofNat n))
  | '0' :: 'o' :: ds => (evalRadix 8 ds).elim .nan (fun n => .int (Int.ofNat n))
  | '0' :: 'O' :: ds => (evalRadix 8 ds).elim .nan (fun n => .int (Int.ofNat n))
  | '0' :: 'b' :: ds => (evalRadix 2 ds).elim .nan (fun n => .int (Int.ofNat n))
  | '0' :: 'B' :: ds => (evalRadix 2 ds).elim .nan (fun n => .int (Int.ofNat n))
  | '+' :: ds => strDecimal false ds
  | '-' :: ds => strDecimal true ds
  | ds => strDecimal false ds

mutual
/-- The model of `Number(value)`. An array is converted through its text: the
empty array is 0, an array of one element converts as that element's text does,
and a longer array has a comma in its text and is `NaN`. -/
def Number : JsVal → JsNum
  | .undefined => .nan
  | .null => .int 0
  | .bool b => .int (if b then 1 else 0)
  | .num n => .int n
  | .real _ => .other
  | .str s => stringToNumber s
  | .arr xs => numberOfElements xs
  | .obj _ => .nan
/-- The number the text of an array's elements denotes. -/
def numberOfElements : List JsVal → JsNum
  | [] => .int 0
  | [x] =>
    match x with
    | .undefined => .int 0
    | .null => .int 0
    | .bool _ => .nan
    | .obj _ => .nan
    | .num n => .int n
    | .real _ => .other
    | .str s => stringToNumber s
    | .arr ys => numberOfElements ys
  | _ :: _ :: _ => .nan
end

/-- The model of `parseInt(s, 10)`: leading white space, an optional sign, then the
longest run of decimal digits; `NaN` when there is no digit. -/
def parseInt (s : String) : JsNum :=
  let cs := trimStart s.data
  let negative : Bool := cs.head? = some '-'
  let body := if cs.head? = some '-' ∨ cs.head? = some '+' then cs.drop 1 else cs
  match (takeDigits body).1 with
  | [] => .nan
  | ds => .int (if negative then -(Int.ofNat (evalDigits ds)) else Int.ofNat (evalDigits ds))

/-- The strict inequality `a !== b` of two numbers: `NaN` differs from
everything. Two numbers that are both non-integers are not compared by any
caller in this file: the right operand comes from `parseInt` or from an integer. -/
def strictNe (a b : JsNum) : Bool :=
  match a, b with
  | .int x, .int y => x ≠ y
  | _, _ => true

/-- The comparison `SameValueZero` that `Array.prototype.includes` applies
to an element and the identifier searched for. An array or object element is a
fresh object and is the same as no argument. -/
def sameValueZero (element : JsVal) (x : ChildId) : Bool :=
  match element, x with
  | .num n, .int m => n = m
  | .str s, .str t => s = t
  | _, _ => false

/-- The text `ToString` gives an identifier, used by `String.prototype.includes`. -/
def ChildId.toText : ChildId → List Char
  | .int n => intChars n
  | .str s => s.data

/-- Whether `pat` occurs in `text` as a contiguous run. -/
def occursIn (pat : List Char) : List Char → Bool
  | [] => pat.isEmpty
  | c :: cs => pat.isPrefixOf (c :: cs) || occursIn pat cs

/-- The model of `list.includes(x)`. On an array it is `Array.prototype.includes`, on
a string `String.prototype.includes`; `null` has no properties and on any
other value `includes` is not a function: a `TypeError`. -/
def jsIncludes (list : JsVal) (x : ChildId) : Except JsError Bool :=
  match list with
  | .arr xs => .ok (xs.any (fun e => sameValueZero e x))
  | .str s => .ok (occursIn x.toText s.data)
  | _ => .error .typeError

/-- The model of `list.push(x)`, giving the list after the call: only an array has
`push`. -/
def jsPush (list : JsVal) (x : ChildId) : Except JsError JsVal :=
  match list with
  | .arr xs => .ok (.arr (xs ++ [x.toJs]))
  | _ => .error .typeError

/-- The model of `list.filter(keep)`: only an array has `filter`. -/
def jsFilter (list : JsVal) (keep : JsVal → Bool) : Except JsError JsVal :=
  match list with
  | .arr xs => .ok (.arr (xs.filter keep))
  | _ => .error .typeError

/-- The number of UTF-16 code units of a string, its `length`. -/
def utf16Length (s : String) : Nat :=
  (s.data.map (fun c => if c.toNat < 0x10000 then 1 else 2)).sum

/-- The value of the member `key` of an object: the last one of that name. -/
def lookupMember (key : String) : List (String × JsVal) → JsVal
  | [] => .undefined
  | (k, v) :: kvs =>
    match lookupMember key kvs with
    | .undefined => if k = key then v else .undefined
    | found => found

/-- The model of `value.length`: the element count of an array, the length of a string,
a member named `length` of an object, `undefined` on a number or boolean,
and a `TypeError` on `null` and `undefined`. -/
def jsLength (v : JsVal) : Except JsError JsVal :=
  match v with
  | .arr xs => .ok (.num (Int.ofNat xs.length))
  | .str s => .ok (.num (Int.ofNat (utf16Length s)))
  | .obj kvs => .ok (lookupMember "length" kvs)
  | .null => .error .typeError
  | .undefined => .error .typeError
  | _ => .ok .undefined

/-! ## The storage slot -/

/-- The content of the slot `eftakdny_visits_list`: `none` when the key is
absent. -/
abbrev Slot := Option String

/-- What the storage does during one call: each of its three methods either works
or throws (storage disabled, access denied, quota exceeded). -/
structure StorageBehaviour where
  getItemThrows : Bool
  setItemThrows : Bool
  removeItemThrows : Bool
  deriving DecidableEq

/-- A storage whose three methods all work. -/
def working : StorageBehaviour :=
  { getItemThrows := false, setItemThrows := false, removeItemThrows := false }

/-- A storage that can be read and cleared but refuses every write, as when the
quota is exceeded. -/
def quotaExceeded : StorageBehaviour :=
  { getItemThrows := false, setItemThrows := true, removeItemThrows := false }

/-- The model of `localStorage.getItem(STORAGE_KEY)`: the stored text, `none` for `null`. -/
def getItem (env : StorageBehaviour) (slot : Slot) : Except JsError Slot :=
  if env.getItemThrows then .error .storageError else .ok slot

/-- The model of `localStorage.setItem(STORAGE_KEY, value)`: the slot afterwards. A call
that throws stores nothing. -/
def setItem (env : StorageBehaviour) (value : String) (_slot : Slot) : Except JsError Slot :=
  if env.setItemThrows then .error .storageError else .ok (some value)

/-- The model of `localStorage.removeItem(STORAGE_KEY)`: the slot afterwards. -/
def removeItem (env : StorageBehaviour) (_slot : Slot) : Except JsError Slot :=
  if env.removeItemThrows then .error .storageError else .ok none

/-! ## visitsListStorage.js -/

/-- The body of the `try` block of `getVisitsList`. -/
def getVisitsListBody (env : StorageBehaviour) (slot : Slot) : Except JsError JsVal := do
  let stored ← getItem env slot
  match stored with
  | none => pure (.arr [])
  | some text => if text = "" then pure (.arr []) else JSON.parse text

/-- The function `getVisitsList()`: the parsed content of the slot; the empty array when
the slot is absent or empty, and when reading or parsing throws. -/
def getVisitsList (env : StorageBehaviour) (slot : Slot) : JsVal :=
  match getVisitsListBody env slot with
  | .ok list => list
  | .error _ => .arr []

/-- The body of the `try` block of `addToVisitsList`: the value returned and the
slot afterwards. -/
def addToVisitsListBody (env : StorageBehaviour) (childId : ChildId) (slot : Slot) :
    Except JsError (Bool × Slot) := do
  let list := getVisitsList env slot
  if (← jsIncludes list childId) then
    pure (false, slot)
  else
    let list ← jsPush list childId
    let slot ← setItem env (JSON.stringify list) slot
    pure (true, slot)

/-- The function `addToVisitsList(childId)`: the value returned and the slot afterwards. The
`catch` block returns `false`; the only write is the last call of the body
that can throw, so the slot is then as before. -/
def addToVisitsList (env : StorageBehaviour) (childId : ChildId) (slot : Slot) : Bool × Slot :=
  match addToVisitsListBody env childId slot with
  | .ok result => result
  | .error _ => (false, slot)

/-- The number `idToRemove` of `removeFromVisitsList`:
`typeof childId === 'string' ? parseInt(childId, 10) : Number(childId)`. -/
def idToRemove : ChildId → JsNum
  | .str s => parseInt s
  | .int n => Number (.num n)

/-- The body of the `try` block of `removeFromVisitsList`. -/
def removeFromVisitsListBody (env : StorageBehaviour) (childId : ChildId) (slot : Slot) :
    Except JsError (Bool × Slot) := do
  let list := getVisitsList env slot
  let filtered ← jsFilter list (fun id => strictNe (Number id) (idToRemove childId))
  let slot ← setItem env (JSON.stringify filtered) slot
  pure (true, slot)

/-- The function `removeFromVisitsList(childId)`: the value returned and the slot afterwards. -/
def removeFromVisitsList (env : StorageBehaviour) (childId : ChildId) (slot : Slot) :
    Bool × Slot :=
  match removeFromVisitsListBody env childId slot with
  | .ok result => result
  | .error _ => (false, slot)

/-- The function `isInVisitsList(childId)`, which has no `try`: an exception of
`list.includes` reaches the caller. -/
def isInVisitsList (env : StorageBehaviour) (childId : ChildId) (slot : Slot) :
    Except JsError Bool :=
  let list := getVisitsList env slot
  jsIncludes list childId

/-- The function `clearVisitsList()`: the value returned and the slot afterwards. -/
def clearVisitsList (env : StorageBehaviour) (slot : Slot) : Bool × Slot :=
  match removeItem env slot with
  | .ok slot => (true, slot)
  | .error _ => (false, slot)

/-- The function `getVisitsListCount()`, which has no `try`: `getVisitsList().length`. -/
def getVisitsListCount (env : StorageBehaviour) (slot : Slot) : Except JsError JsVal :=
  jsLength (getVisitsList env slot)


/-! ## Vocabulary of the claims -/

/-- The decimal text of an integer, `String(n)`: the string form of an
identifier. -/
def decimalString (n : Int) : String := String.mk (intChars n)

/-- Whether a value is `null`, a boolean, an integer or a string: the values an
element of the queue takes when callers pass identifiers as numbers or as
strings, without numbers that have a fraction, arrays and objects. -/
def isScalar : JsVal → Bool
  | .null => true
  | .bool _ => true
  | .num _ => true
  | .str _ => true
  | _ => false

/-- The persisted queue is `ids`: the slot's text parses to the JSON array of
the integers `ids`, or the slot is absent and `ids` is empty. -/
def HoldsIds (slot : Slot) (ids : List Int) : Prop :=
  (slot = none ∧ ids = []) ∨
    ∃ text, slot = some text ∧ JSON.parse text = .ok (.arr (ids.map JsVal.num))

/-- The calls that change the queue, with integer identifiers. -/
inductive QueueOp where
  | add (id : Int)
  | remove (id : Int)
  | clear
  deriving DecidableEq

/-- The slot after one call made under the given storage behaviour. -/
def applyOp (env : StorageBehaviour) (op : QueueOp) (slot : Slot) : Slot :=
  match op with
  | .add id => (addToVisitsList env (.int id) slot).2
  | .remove id => (removeFromVisitsList env (.int id) slot).2
  | .clear => (clearVisitsList env slot).2

/-- The slot after a sequence of calls, each made under its own storage
behaviour. -/
def runOps : List (StorageBehaviour × QueueOp) → Slot → Slot
  | [], slot => slot
  | (env, op) :: rest, slot => runOps rest (applyOp env op slot)

/-- The text after a run of digits is either finished or goes on with a
character that is not a digit. -/
def endsDigits : List Char → Prop
  | [] => True
  | c :: _ => isDigitChar c = false

/-- What follows an element in the text of an array of integers: a comma or
the closing bracket. -/
def endsNumber : List Char → Prop
  | [] => True
  | c :: _ => c = ',' ∨ c = ']'

/-- The shapes the slot takes when only the functions of this module write
it: absent, or the text `JSON.stringify` gives a duplicate-free array of integers. -/
def CanonicalSlot (slot : Slot) : Prop :=
  slot = none ∨
    ∃ ids : List Int, ids.Nodup ∧ slot = some (JSON.stringify (.arr (ids.map JsVal.num)))

/-! ## The visit pages: shared vocabulary

The pages `VisitsList.jsx` (the visits queue) and `Visitations.jsx` (direct
visits) keep their state in `useState` cells; a page is modelled by a record
of those cells and a handler by a function on that record and the storage
slot. An asynchronous handler is cut at its `await`: the part that runs on the
click gives the request issued, the part that runs when the request settles
takes its outcome. `api` is not part of the sources; the outcome of each
request is a parameter.

Coordinates are only stored, copied and tested for truthiness, never computed
with: they are exact rationals. A field that may be `null` or missing is an
`Option`.
-/

/-- A child record as `GET /children` and `GET /children/{id}` return it, with
the fields the visit pages read. -/
structure Child where
  id : Int
  fullName : String
  latitude : Option ℚ
  longitude : Option ℚ
  deriving DecidableEq

/-- The cell `location`: `{ latitude: lat, longitude: lng }`. -/
structure Location where
  latitude : ℚ
  longitude : ℚ
  deriving DecidableEq

/-- The severities of a notification. -/
inductive Severity where
  | info
  | success
  | warning
  | error
  deriving DecidableEq

/-- The cell `snackbar`; the message is the translation key passed to `t`. -/
structure Snackbar where
  isOpen : Bool
  message : String
  severity : Severity
  deriving DecidableEq

/-- The body of `POST /visits`. A key with the value `undefined`, which the
JSON encoding of the request drops, and a key that is not written are both
`none`. -/
structure VisitBody where
  childId : Int
  notes : String
  visitLatitude : Option ℚ
  visitLongitude : Option ℚ
  saveLocationToChild : Bool
  deriving DecidableEq

/-- How `api.post('/visits', body)` settles: the promise resolves or rejects. -/
inductive PostOutcome where
  | resolved
  | rejected
  deriving DecidableEq

/-- The initial value of the cell `mapPosition`, and the centre `handleVisit`
of the queue page falls back to: `[30.0444, 31.2357]`. -/
def defaultCenter : ℚ × ℚ := (30.0444, 31.2357)

/-- Truthiness of a coordinate field of a child record: `null`, a missing
field and 0 are falsy. -/
def coordTruthy (x : Option ℚ) : Bool :=
  match x with
  | none => false
  | some q => decide (q ≠ 0)

/-- Whether `Number(s) > 0` for a string. A non-integer number or an infinity has
the sign its text starts with. -/
def strPositive (s : String) : Bool :=
  match stringToNumber s with
  | .int n => decide (0 < n)
  | .nan => false
  | .other => decide ((trimBoth s.data).head? ≠ some '-')

mutual
/-- The model of `value > 0`, the comparison `loadVisitsList` applies to `ids.length`. -/
def greaterThanZero : JsVal → Bool
  | .undefined => false
  | .null => false
  | .bool b => b
  | .num n => decide (0 < n)
  | .real lit => decide (lit.data.head? ≠ some '-')
  | .str s => strPositive s
  | .arr xs => elementsGreaterThanZero xs
  | .obj _ => false
/-- Whether the number the text of an array's elements denotes is above 0. -/
def elementsGreaterThanZero : List JsVal → Bool
  | [] => false
  | [x] =>
    match x with
    | .undefined => false
    | .null => false
    | .bool _ => false
    | .obj _ => false
    | .num n => decide (0 < n)
    | .real lit => decide (lit.data.head? ≠ some '-')
    | .str s => strPositive s
    | .arr ys => elementsGreaterThanZero ys
  | _ :: _ :: _ => false
end

/-- The events of the visit dialog, the same on both pages. -/
inductive DialogEvent where
  | visit (child : Child)
  | setSaveLocation (checked : Bool)
  | mapClick (lat lng : ℚ)
  | setNotes (text : String)
  | close
  deriving DecidableEq

/-! ## VisitsList.jsx -/

namespace VisitsList

/-- The cells of the component `VisitsList` that its visit handlers read or write. -/
structure State where
  visitsListIds : JsVal
  children : List Child
  selectedChild : Option Child
  showLocationModal : Bool
  location : Option Location
  notes : String
  saveLocation : Bool
  loading : Bool
  mapPosition : ℚ × ℚ
  snackbar : Snackbar

/-- The initial values given to `useState`. -/
def initialState : State :=
  { visitsListIds := .arr []
    children := []
    selectedChild := none
    showLocationModal := false
    location := none
    notes := ""
    saveLocation := false
    loading := false
    mapPosition := defaultCenter
    snackbar := { isOpen := false, message := "", severity := .info } }

/-- The function `showSnackbar(message, severity)`. -/
def showSnackbar (message : String) (severity : Severity) (s : State) : State :=
  { s with snackbar := { isOpen := true, message := message, severity := severity } }

/-- The function `loadVisitsList()` once its requests have settled. `fetch` gives, for an
element of the queue, the record `GET /children/{id}` answered with, or `none`
when that request failed. A `TypeError` of `ids.length` rejects the promise,
which no caller awaits; one of `ids.map` is caught. The storage is only read. -/
def loadVisitsList (env : StorageBehaviour) (fetch : JsVal → Option Child)
    (w : State × Slot) : State × Slot :=
  let ids := getVisitsList env w.2
  let s := { w.1 with visitsListIds := ids }
  match jsLength ids with
  | .error _ => (s, w.2)
  | .ok len =>
    if greaterThanZero len then
      match ids with
      | .arr xs => ({ s with children := xs.filterMap fetch }, w.2)
      | _ => (s, w.2)
    else ({ s with children := [] }, w.2)

/-- The function `handleVisit(child)`. -/
def handleVisit (child : Child) (s : State) : State :=
  let s :=
    { s with
      selectedChild := some child
      showLocationModal := true
      location := none
      notes := ""
      saveLocation := false }
  if coordTruthy child.latitude && coordTruthy child.longitude then
    match child.latitude, child.longitude with
    | some lat, some lng => { s with mapPosition := (lat, lng) }
    | _, _ => s
  else { s with mapPosition := defaultCenter }

/-- The function `handleLocationSelect(lat, lng)`; `handleLocationFound` calls it with the
same arguments. -/
def handleLocationSelect (lat lng : ℚ) (s : State) : State :=
  { s with location := some { latitude := lat, longitude := lng }, mapPosition := (lat, lng) }

/-- The body `handleSubmitVisit` posts for the selected child. -/
def submitBody (s : State) (child : Child) : VisitBody :=
  { childId := child.id
    notes := s.notes
    visitLatitude := s.location.map (fun l => l.latitude)
    visitLongitude := s.location.map (fun l => l.longitude)
    saveLocationToChild := s.saveLocation && s.location.isSome }

/-- The part of `handleSubmitVisit` up to its `await`: the request issued, if any, and
the state. -/
def handleSubmitVisitStart (s : State) : Option VisitBody × State :=
  match s.selectedChild with
  | none => (none, s)
  | some child => (some (submitBody s child), { s with loading := true })

/-- The part of `handleSubmitVisit` after its `await`, for the child selected when the
button was clicked: the `try` continuation or the `catch` block, then
`finally`. -/
def handleSubmitVisitSettle (env : StorageBehaviour) (fetch : JsVal → Option Child)
    (child : Child) (outcome : PostOutcome) (w : State × Slot) : State × Slot :=
  match outcome with
  | .resolved =>
    let slot := (removeFromVisitsList env (.int child.id) w.2).2
    let s :=
      { w.1 with
        showLocationModal := false
        selectedChild := none
        location := none
        notes := ""
        saveLocation := false }
    let loaded := loadVisitsList env fetch (s, slot)
    let s := showSnackbar "visitations.visitRecorded" .success loaded.1
    ({ s with loading := false }, loaded.2)
  | .rejected =>
    let s := showSnackbar "common.error" .error w.1
    ({ s with loading := false }, w.2)

/-- The function `handleSubmitVisit()` run to completion with no other event in between:
the request issued, if any, and the state and slot once it has settled. -/
def handleSubmitVisit (env : StorageBehaviour) (fetch : JsVal → Option Child)
    (outcome : PostOutcome) (w : State × Slot) : Option VisitBody × (State × Slot) :=
  match w.1.selectedChild with
  | none => (none, w)
  | some child =>
    ((handleSubmitVisitStart w.1).1,
      handleSubmitVisitSettle env fetch child outcome ((handleSubmitVisitStart w.1).2, w.2))

/-- The body `handleCancelVisit` posts for the selected child: no coordinate keys. -/
def cancelBody (s : State) (child : Child) : VisitBody :=
  { childId := child.id
    notes := s.notes
    visitLatitude := none
    visitLongitude := none
    saveLocationToChild := false }

/-- The part of `handleCancelVisit` that runs on the click. -/
def handleCancelVisitStart (s : State) : Option VisitBody × State :=
  match s.selectedChild with
  | none => (none, s)
  | some child => (some (cancelBody s child), { s with loading := true })

/-- The `then`, `catch` and `finally` callbacks of `handleCancelVisit`. -/
def handleCancelVisitSettle (env : StorageBehaviour) (fetch : JsVal → Option Child)
    (child : Child) (outcome : PostOutcome) (w : State × Slot) : State × Slot :=
  match outcome with
  | .resolved =>
    let slot := (removeFromVisitsList env (.int child.id) w.2).2
    let s :=
      { w.1 with
        showLocationModal := false
        selectedChild := none
        location := none
        notes := "" }
    let loaded := loadVisitsList env fetch (s, slot)
    let s := showSnackbar "visitations.visitRecorded" .success loaded.1
    ({ s with loading := false }, loaded.2)
  | .rejected =>
    let s := showSnackbar "common.error" .error w.1
    ({ s with loading := false }, w.2)

/-- The function `handleCancelVisit()` run to completion with no other event in between. -/
def handleCancelVisit (env : StorageBehaviour) (fetch : JsVal → Option Child)
    (outcome : PostOutcome) (w : State × Slot) : Option VisitBody × (State × Slot) :=
  match w.1.selectedChild with
  | none => (none, w)
  | some child =>
    ((handleCancelVisitStart w.1).1,
      handleCancelVisitSettle env fetch child outcome ((handleCancelVisitStart w.1).2, w.2))

/-- The effect of a dialog event. The map, and so a click on it, exists only
while the dialog is open with the set-location box checked. -/
def applyEvent (e : DialogEvent) (s : State) : State :=
  match e with
  | .visit child => handleVisit child s
  | .setSaveLocation checked => { s with saveLocation := checked }
  | .mapClick lat lng =>
    if s.showLocationModal && s.saveLocation then handleLocationSelect lat lng s else s
  | .setNotes text => { s with notes := text }
  | .close => { s with showLocationModal := false }

/-- The state after a sequence of dialog events. -/
def runEvents : List DialogEvent → State → State
  | [], s => s
  | e :: rest, s => runEvents rest (applyEvent e s)

end VisitsList

/-! ## Visitations.jsx -/

namespace Visitations

/-- The cells of the component `Visitations`. -/
structure State where
  children : List Child
  selectedChild : Option Child
  showLocationModal : Bool
  location : Option Location
  notes : String
  saveLocation : Bool
  mapPosition : ℚ × ℚ
  loading : Bool
  snackbar : Snackbar

/-- The initial values given to `useState`. -/
def initialState : State :=
  { children := []
    selectedChild := none
    showLocationModal := false
    location := none
    notes := ""
    saveLocation := false
    mapPosition := defaultCenter
    loading := false
    snackbar := { isOpen := false, message := "", severity := .info } }

/-- The function `showSnackbar(message, severity)`. -/
def showSnackbar (message : String) (severity : Severity) (s : State) : State :=
  { s with snackbar := { isOpen := true, message := message, severity := severity } }

/-- The function `handleVisit(child)`: its `if` has no `else`. -/
def handleVisit (child : Child) (s : State) : State :=
  let s :=
    { s with
      selectedChild := some child
      showLocationModal := true
      location := none
      notes := ""
      saveLocation := false }
  if coordTruthy child.latitude && coordTruthy child.longitude then
    match child.latitude, child.longitude with
    | some lat, some lng => { s with mapPosition := (lat, lng) }
    | _, _ => s
  else s

/-- The function `handleLocationSelect(lat, lng)`; `handleLocationFound` calls it with the
same arguments. -/
def handleLocationSelect (lat lng : ℚ) (s : State) : State :=
  { s with location := some { latitude := lat, longitude := lng }, mapPosition := (lat, lng) }

/-- The body `handleSubmitVisit` posts for the selected child. -/
def submitBody (s : State) (child : Child) : VisitBody :=
  { childId := child.id
    notes := s.notes
    visitLatitude := s.location.map (fun l => l.latitude)
    visitLongitude := s.location.map (fun l => l.longitude)
    saveLocationToChild := s.saveLocation && s.location.isSome }

/-- The part of `handleSubmitVisit` up to its `await`. -/
def handleSubmitVisitStart (s : State) : Option VisitBody × State :=
  match s.selectedChild with
  | none => (none, s)
  | some child => (some (submitBody s child), { s with loading := true })

/-- The part of `handleSubmitVisit` after its `await`. The page makes no call to the
storage: the slot is as before. -/
def handleSubmitVisitSettle (outcome : PostOutcome) (w : State × Slot) : State × Slot :=
  match outcome with
  | .resolved =>
    let s :=
      { w.1 with
        showLocationModal := false
        selectedChild := none
        location := none
        notes := ""
        saveLocation := false }
    let s := showSnackbar "visitations.visitRecorded" .success s
    ({ s with loading := false }, w.2)
  | .rejected =>
    let s := showSnackbar "common.error" .error w.1
    ({ s with loading := false }, w.2)

/-- The function `handleSubmitVisit()` run to completion with no other event in between. -/
def handleSubmitVisit (outcome : PostOutcome) (w : State × Slot) :
    Option VisitBody × (State × Slot) :=
  match w.1.selectedChild with
  | none => (none, w)
  | some _ =>
    ((handleSubmitVisitStart w.1).1,
      handleSubmitVisitSettle outcome ((handleSubmitVisitStart w.1).2, w.2))

/-- The body `handleCancelVisit` posts for the selected child: no coordinate keys. -/
def cancelBody (s : State) (child : Child) : VisitBody :=
  { childId := child.id
    notes := s.notes
    visitLatitude := none
    visitLongitude := none
    saveLocationToChild := false }

/-- The part of `handleCancelVisit` that runs on the click. -/
def handleCancelVisitStart (s : State) : Option VisitBody × State :=
  match s.selectedChild with
  | none => (none, s)
  | some child => (some (cancelBody s child), { s with loading := true })

/-- The `then`, `catch` and `finally` callbacks of `handleCancelVisit`. -/
def handleCancelVisitSettle (outcome : PostOutcome) (w : State × Slot) : State × Slot :=
  match outcome with
  | .resolved =>
    let s :=
      { w.1 with
        showLocationModal := false
        selectedChild := none
        location := none
        notes := "" }
    let s := showSnackbar "visitations.visitRecorded" .success s
    ({ s with loading := false }, w.2)
  | .rejected =>
    let s := showSnackbar "common.error" .error w.1
    ({ s with loading := false }, w.2)

/-- The function `handleCancelVisit()` run to completion with no other event in between. -/
def handleCancelVisit (outcome : PostOutcome) (w : State × Slot) :
    Option VisitBody × (State × Slot) :=
  match w.1.selectedChild with
  | none => (none, w)
  | some _ =>
    ((handleCancelVisitStart w.1).1,
      handleCancelVisitSettle outcome ((handleCancelVisitStart w.1).2, w.2))

/-- The effect of a dialog event. The map, and so a click on it, exists only
while the dialog is open with the set-location box checked. -/
def applyEvent (e : DialogEvent) (s : State) : State :=
  match e with
  | .visit child => handleVisit child s
  | .setSaveLocation checked => { s with saveLocation := checked }
  | .mapClick lat lng =>
    if s.showLocationModal && s.saveLocation then handleLocationSelect lat lng s else s
  | .setNotes text => { s with notes := text }
  | .close => { s with showLocationModal := false }

/-- The state after a sequence of dialog events. -/
def runEvents : List DialogEvent → State → State
  | [], s => s
  | e :: rest, s => runEvents rest (applyEvent e s)

end Visitations

/-! ## Sample data -/

/-- A child with no stored location. -/
def childFive : Child :=
  { id := 5, fullName := "Child five", latitude := none, longitude := none }

/-- A child with a stored location. -/
def childNine : Child :=
  { id := 9, fullName := "Child nine", latitude := some 30, longitude := some 31 }

/-- A child stored on the equator: latitude 0. -/
def childEquator : Child :=
  { id := 7, fullName := "Child seven", latitude := some 0, longitude := some 31 }

/-- The records the server holds in the example of a partly failing queue load:
the fetch of child 2 fails. -/
def fetchAllButTwo : JsVal → Option Child
  | .num 1 => some { id := 1, fullName := "One", latitude := none, longitude := none }
  | .num 3 => some { id := 3, fullName := "Three", latitude := none, longitude := none }
  | _ => none

/-! ## LeafletMap.jsx

The map component is modelled by what it does to its own cells and refs and by
the calls it makes to the callbacks its caller passed (`onMapClick`,
`onLocationFound`, `onLocationError`). A number that comes from the device or
from a map event is a `JsNumber`: `NaN`, an infinity, or a finite value, which
is a rational (every finite double is one). Comparisons with the constants
-90, 90, -180 and 180 involve no rounding; the subtraction and the comparison
with `0.0001` in `MapCenterHandler` are computed in doubles, see `beyondTolerance`.
-/

/-- A JavaScript number as the validity checks see it. -/
inductive JsNumber where
  | nan
  | negInf
  | finite (q : ℚ)
  | posInf
  deriving DecidableEq

namespace JsNumber

/-- The function `isNaN(x)` on a number. -/
def isNaN : JsNumber → Bool
  | nan => true
  | _ => false

/-- The comparison `x < c` with a finite constant. -/
def lt (x : JsNumber) (c : ℚ) : Bool :=
  match x with
  | nan => false
  | negInf => true
  | finite q => decide (q < c)
  | posInf => false

/-- The comparison `x > c` with a finite constant. -/
def gt (x : JsNumber) (c : ℚ) : Bool :=
  match x with
  | nan => false
  | negInf => false
  | finite q => decide (c < q)
  | posInf => true

/-- The comparison `x <= c` with a finite constant. -/
def le (x : JsNumber) (c : ℚ) : Bool :=
  match x with
  | nan => false
  | negInf => true
  | finite q => decide (q ≤ c)
  | posInf => false

/-- The comparison `x >= c` with a finite constant. -/
def ge (x : JsNumber) (c : ℚ) : Bool :=
  match x with
  | nan => false
  | negInf => false
  | finite q => decide (c ≤ q)
  | posInf => true

end JsNumber

/-- A valid coordinate in the sense of the specification: both values finite,
the latitude in [-90, 90] and the longitude in [-180, 180]. -/
def InRange (lat lng : JsNumber) : Prop :=
  ∃ a b : ℚ, lat = .finite a ∧ lng = .finite b ∧ -90 ≤ a ∧ a ≤ 90 ∧ -180 ≤ b ∧ b ≤ 180

/-! ### Doubles

A JavaScript number is an IEEE 754 binary64 value. Every finite double is a
whole multiple of 2^-1074 (the smallest positive one), so a double is kept as
that whole number of units. An operation gives the double nearest to the
exact result; of two equally near ones the one whose significand is even.
-/

/-- The number of binary digits of a natural number; the first argument bounds
the number of steps. -/
def bitLength : Nat → Nat → Nat
  | 0, _ => 0
  | fuel + 1, n => if n = 0 then 0 else bitLength fuel (n / 2) + 1

/-- The double nearest to `p / q` units, in units, for `q` not 0. With `s` binary
digits beyond the 53 of a significand, doubles of this size are `2 ^ s` units
apart (one unit apart for `s = 0`, the subnormal range and the binade above
it); the quotient by that spacing is rounded to a whole number, a tie to the
even one. The result is a finite double as long as it is below `2 ^ 2098` units. -/
def roundUnits (p q : Nat) : Nat :=
  let s := bitLength (p / q) (p / q) - 53
  let d := q <<< s
  let m := p / d
  let r := p % d
  (if 2 * r < d then m else if d < 2 * r then m + 1 else if m % 2 = 0 then m else m + 1) <<< s

/-- The double a rational stands for, in units of 2^-1074: the double itself
when the rational is one, and otherwise the nearest one, as for a numeric
literal. -/
def doubleUnits (x : ℚ) : Int :=
  if 0 ≤ x.num then Int.ofNat (roundUnits (x.num.natAbs <<< 1074) x.den)
  else -Int.ofNat (roundUnits (x.num.natAbs <<< 1074) x.den)

/-- The difference `a - b` of two doubles given in units: the exact difference,
rounded to a double. -/
def subUnits (a b : Int) : Int :=
  if 0 ≤ a - b then Int.ofNat (roundUnits (a - b).natAbs 1)
  else -Int.ofNat (roundUnits (a - b).natAbs 1)

/-- The double of the literal `0.0001`, which is 7378697629483821 * 2^-66, in
units of 2^-1074. -/
def toleranceUnits : Nat := 7378697629483821 <<< 1008

/-- The test `Math.abs(p - x) > 0.0001` on two numbers. -/
def beyondTolerance (p x : ℚ) : Bool :=
  decide (toleranceUnits < (subUnits (doubleUnits p) (doubleUnits x)).natAbs)

namespace LeafletMap

/-- A call the map component makes to a callback of its caller. -/
inductive MapCall where
  | onMapClick (lat lng : JsNumber)
  | onLocationFound (lat lng : JsNumber)
  | onLocationError (message : String)
  deriving DecidableEq

/-- What the caller passed and how its callbacks behave: whether each
callback prop is there, and whether `onLocationFound` and `onLocationError` throw
when called. -/
structure CallerProps where
  onMapClick : Bool
  onLocationFound : Bool
  onLocationError : Bool
  foundThrows : Bool
  errorThrows : Bool
  deriving DecidableEq

/-- The outcome of running a handler: the state after it, the calls made to
the caller in order, and whether an exception left the handler. -/
structure Ran (σ : Type) where
  state : σ
  calls : List MapCall
  threw : Bool

/-- The translation key of the message for a device without geolocation. -/
def notSupportedMessage : String := "errors.geolocationNotSupported"

/-- The translation key of the generic failure message. -/
def unableMessage : String := "errors.unableToGetLocation"

/-- The translation key of the message for a denied permission. -/
def permissionDeniedMessage : String := "errors.geolocationPermissionDenied"

/-- The translation key of the message for an unavailable position. -/
def positionUnavailableMessage : String := "errors.positionUnavailable"

/-- The translation key of the message for a timeout. -/
def timeoutMessage : String := "errors.geolocationTimeout"

/-- The check of `CurrentLocationButton` on a reported position:
`isNaN(latitude) || isNaN(longitude) || latitude < -90 || latitude > 90 ||
longitude < -180 || longitude > 180`. -/
def invalidPosition (lat lng : JsNumber) : Bool :=
  lat.isNaN || lng.isNaN || lat.lt (-90) || lat.gt 90 || lng.lt (-180) || lng.gt 180

/-- The check of the wrapper's `handleLocationFound` and of `MapCenterHandler`:
`!isNaN(lat) && !isNaN(lng) && lat >= -90 && lat <= 90 && lng >= -180 && lng <= 180`. -/
def validCoordinates (lat lng : JsNumber) : Bool :=
  !lat.isNaN && !lng.isNaN && lat.ge (-90) && lat.le 90 && lng.ge (-180) && lng.le 180

/-- The component `MapClickHandler`, mounted only when `onMapClick` was passed: a click
at `e.latlng` calls `onMapClick(e.latlng.lat, e.latlng.lng)`. -/
def mapClickHandler (props : CallerProps) (lat lng : JsNumber) : List MapCall :=
  if props.onMapClick then [.onMapClick lat lng] else []

/-- The cells `mapCenter` and `mapZoom` of the wrapper. -/
structure WrapperState where
  mapCenter : JsNumber × JsNumber
  mapZoom : ℚ

/-- The cell `loading` of `CurrentLocationButton`. -/
structure ButtonState where
  loading : Bool

/-- A call of the caller's `onLocationError`, when it was passed: the call made
and whether it threw. -/
def callLocationError (props : CallerProps) (message : String) : List MapCall × Bool :=
  if props.onLocationError then ([.onLocationError message], props.errorThrows) else ([], false)

/-- The wrapper's `handleLocationError(errorMessage)`. -/
def handleLocationError (props : CallerProps) (message : String) : List MapCall × Bool :=
  callLocationError props message

/-- The wrapper's `handleLocationFound(lat, lng)`. -/
def handleLocationFound (props : CallerProps) (lat lng : JsNumber) (w : WrapperState) :
    Ran WrapperState :=
  if validCoordinates lat lng then
    if props.onLocationFound then
      { state := { mapCenter := (lat, lng), mapZoom := 15 }
        calls := [.onLocationFound lat lng]
        threw := props.foundThrows }
    else { state := { mapCenter := (lat, lng), mapZoom := 15 }, calls := [], threw := false }
  else
    { state := w
      calls := (callLocationError props unableMessage).1
      threw := (callLocationError props unableMessage).2 }

/-- The `catch` block of the success callback of the button, entered with the
calls made so far: `setLoading(false)`, then `onLocationError`. -/
def positionCatch (props : CallerProps) (w : WrapperState) (sofar : List MapCall) :
    Ran (ButtonState × WrapperState) :=
  { state := ({ loading := false }, w)
    calls := sofar ++ (handleLocationError props unableMessage).1
    threw := (handleLocationError props unableMessage).2 }

/-- The success callback the button gives `getCurrentPosition`, for the reported
`position.coords`. -/
def onPosition (props : CallerProps) (lat lng : JsNumber) (s : ButtonState × WrapperState) :
    Ran (ButtonState × WrapperState) :=
  if invalidPosition lat lng then
    if (handleLocationError props unableMessage).2 then
      positionCatch props s.2 (handleLocationError props unableMessage).1
    else
      { state := ({ loading := false }, s.2)
        calls := (handleLocationError props unableMessage).1
        threw := false }
  else
    if (handleLocationFound props lat lng s.2).threw then
      positionCatch props (handleLocationFound props lat lng s.2).state
        (handleLocationFound props lat lng s.2).calls
    else
      { state := ({ loading := false }, (handleLocationFound props lat lng s.2).state)
        calls := (handleLocationFound props lat lng s.2).calls
        threw := false }

/-- The message the error callback of the button chooses for `error.code`:
`PERMISSION_DENIED` is 1, `POSITION_UNAVAILABLE` 2 and `TIMEOUT` 3. -/
def errorMessage (code : Nat) : String :=
  if code = 1 then permissionDeniedMessage
  else if code = 2 then positionUnavailableMessage
  else if code = 3 then timeoutMessage
  else unableMessage

/-- The error callback the button gives `getCurrentPosition`. -/
def onPositionError (props : CallerProps) (code : Nat) (s : ButtonState × WrapperState) :
    Ran (ButtonState × WrapperState) :=
  { state := ({ loading := false }, s.2)
    calls := (handleLocationError props (errorMessage code)).1
    threw := (handleLocationError props (errorMessage code)).2 }

/-- How a device location request ends. -/
inductive DeviceOutcome where
  | position (lat lng : JsNumber)
  | error (code : Nat)
  deriving DecidableEq

/-- The callback that runs when the request ends. -/
def onOutcome (props : CallerProps) (outcome : DeviceOutcome) (s : ButtonState × WrapperState) :
    Ran (ButtonState × WrapperState) :=
  match outcome with
  | .position lat lng => onPosition props lat lng s
  | .error code => onPositionError props code s

/-- The function `handleGetCurrentLocation()` up to the call of `getCurrentPosition`: whether
a request was started, and the outcome so far. `hasGeolocation` is
`navigator.geolocation`. -/
def handleGetCurrentLocation (hasGeolocation : Bool) (props : CallerProps)
    (s : ButtonState × WrapperState) : Bool × Ran (ButtonState × WrapperState) :=
  if hasGeolocation then
    (true, { state := ({ loading := true }, s.2), calls := [], threw := false })
  else
    (false,
      { state := s
        calls := (handleLocationError props notSupportedMessage).1
        threw := (handleLocationError props notSupportedMessage).2 })

/-- The refs of `MapCenterHandler`: the centre and zoom of its last `flyTo`. -/
structure CenterRefs where
  prevCenter : Option (ℚ × ℚ)
  prevZoom : Option ℚ

/-- A call `map.flyTo([lat, lng], targetZoom, ...)`. -/
structure FlyTo where
  center : ℚ × ℚ
  zoom : ℚ
  deriving DecidableEq

/-- The value `zoom || map.getZoom()`: a missing zoom and a zoom of 0 are falsy. -/
def targetZoom (zoom : Option ℚ) (engineZoom : ℚ) : ℚ :=
  match zoom with
  | none => engineZoom
  | some z => if z = 0 then engineZoom else z

/-- The value `centerChanged` for a validated centre:
`!prevCenter || Math.abs(prevCenter[0] - lat) > 0.0001 || Math.abs(prevCenter[1] - lng) > 0.0001`. -/
def centerChanged (prev : Option (ℚ × ℚ)) (lat lng : ℚ) : Bool :=
  match prev with
  | none => true
  | some p => beyondTolerance p.1 lat || beyondTolerance p.2 lng

/-- One run of the effect of `MapCenterHandler` for the props `center` and `zoom`, with
`engineZoom` the value of `map.getZoom()`: the refs afterwards and the
animated transition started, if any. -/
def centerEffect (center : Option (JsNumber × JsNumber)) (zoom : Option ℚ) (engineZoom : ℚ)
    (r : CenterRefs) : CenterRefs × Option FlyTo :=
  match center with
  | none => (r, none)
  | some (lat, lng) =>
    if validCoordinates lat lng then
      match lat, lng with
      | .finite a, .finite b =>
        if centerChanged r.prevCenter a b
            || decide (r.prevZoom ≠ some (targetZoom zoom engineZoom)) then
          ({ prevCenter := some (a, b), prevZoom := some (targetZoom zoom engineZoom) },
            some { center := (a, b), zoom := targetZoom zoom engineZoom })
        else (r, none)
      | _, _ => (r, none)
    else (r, none)

/-- The refs of the wrapper's life cycle, and the engine instances that were
created and not removed so far. -/
structure MapRefs where
  mapInstance : Option Nat
  isInitialized : Bool
  alive : List Nat
  deriving DecidableEq

/-- The refs when the wrapper is first rendered. -/
def initialRefs : MapRefs := { mapInstance := none, isInitialized := false, alive := [] }

/-- The events of the wrapper's life cycle: the callback `whenCreated(map)` for a
new engine instance, and the cleanup of the mount effect. -/
inductive LifecycleEvent where
  | created (map : Nat)
  | cleanup
  deriving DecidableEq

/-- The callback `whenCreated(map)`: the first instance is attached, one that arrives
while `isInitializedRef` is set is removed. -/
def whenCreated (map : Nat) (r : MapRefs) : MapRefs :=
  if r.isInitialized then { r with alive := (map :: r.alive).erase map }
  else { mapInstance := some map, isInitialized := true, alive := map :: r.alive }

/-- The cleanup of the mount effect. -/
def cleanup (r : MapRefs) : MapRefs :=
  match r.mapInstance with
  | none => r
  | some map =>
    if r.isInitialized then
      { mapInstance := none, isInitialized := false, alive := r.alive.erase map }
    else r

/-- One life-cycle event. -/
def lifecycleStep (e : LifecycleEvent) (r : MapRefs) : MapRefs :=
  match e with
  | .created map => whenCreated map r
  | .cleanup => cleanup r

/-- The refs after a sequence of life-cycle events. -/
def runLifecycle : List LifecycleEvent → MapRefs → MapRefs
  | [], r => r
  | e :: rest, r => runLifecycle rest (lifecycleStep e r)

end LeafletMap

/-! ## The page callbacks given to the map -/

/-- The function `handleLocationFound(lat, lng)` of `VisitsList.jsx`, passed as
`onLocationFound`: it calls `handleLocationSelect`, which is passed as `onMapClick`. -/
def VisitsList.handleLocationFound (lat lng : ℚ) (s : VisitsList.State) : VisitsList.State :=
  VisitsList.handleLocationSelect lat lng s

/-- The function `handleLocationFound(lat, lng)` of `Visitations.jsx`, passed as
`onLocationFound`: it calls `handleLocationSelect`, which is passed as `onMapClick`. -/
def Visitations.handleLocationFound (lat lng : ℚ) (s : Visitations.State) :
    Visitations.State :=
  Visitations.handleLocationSelect lat lng s

/-! ## FindByArea.jsx -/

namespace FindByArea

/-- The request `GET /children/search-by-location` with its query parameters. -/
structure LocationSearch where
  latitude : ℚ
  longitude : ℚ
  radiusKm : JsNumber
  deriving DecidableEq

/-- The cells of the component `FindByArea`. -/
structure State where
  searchAddress : String
  children : List Child
  searchLocation : Option (ℚ × ℚ)
  mapCenter : ℚ × ℚ
  radius : JsNumber
  loading : Bool
  snackbar : Snackbar

/-- The initial values given to `useState`. -/
def initialState : State :=
  { searchAddress := ""
    children := []
    searchLocation := none
    mapCenter := defaultCenter
    radius := .finite 5
    loading := false
    snackbar := { isOpen := false, message := "", severity := .info } }

/-- The part of `searchByLocation(lat, lng)` up to its `await`: the request issued and
the state. -/
def searchByLocationStart (lat lng : ℚ) (s : State) : LocationSearch × State :=
  ({ latitude := lat, longitude := lng, radiusKm := s.radius }, { s with loading := true })

/-- The part of `searchByLocation` after its `await`: `response` is the data of the
answer, or `none` when the request failed. -/
def searchByLocationSettle (response : Option (List Child)) (s : State) : State :=
  match response with
  | some data => { s with children := data, loading := false }
  | none =>
    { s with
      snackbar := { isOpen := true, message := "common.error", severity := .error }
      loading := false }

/-- The function `handleMapClick(lat, lng)`, passed as `onMapClick`: the search started and
the state. -/
def handleMapClick (lat lng : ℚ) (s : State) : LocationSearch × State :=
  searchByLocationStart lat lng { s with searchLocation := some (lat, lng), mapCenter := (lat, lng) }

/-- The function `handleLocationFound(lat, lng)`, passed as `onLocationFound`. -/
def handleLocationFound (lat lng : ℚ) (s : State) : LocationSearch × State :=
  handleMapClick lat lng s

end FindByArea

/-! ## AddEditChild.jsx -/

namespace AddEditChild

/-- An entry of `formData.parentPhones`. -/
structure Phone where
  phoneNumber : String
  relationship : String
  deriving DecidableEq

/-- The two fields of a phone entry. -/
inductive PhoneField where
  | phoneNumber
  | relationship
  deriving DecidableEq

/-- A phone of a child record as the API returns it. -/
structure ApiPhone where
  phoneNumber : String
  relationship : Option String
  deriving DecidableEq

/-- A child record as `GET /children/{id}` returns it to the form. `parentPhones` is
`none` when the field is `null` or missing. -/
structure ApiChild where
  fullName : String
  address : Option String
  latitude : Option ℚ
  longitude : Option ℚ
  classId : Option Int
  academicYearId : Option Int
  parentPhones : Option (List ApiPhone)
  imageUrl : Option String
  deriving DecidableEq

/-- The cell `formData`, without the image file. -/
structure FormData where
  fullName : String
  address : String
  latitude : Option ℚ
  longitude : Option ℚ
  classId : Option Int
  academicYearId : Option Int
  parentPhones : List Phone
  deriving DecidableEq

/-- The cells of the component `AddEditChild` that the modelled handlers read or write. -/
structure State where
  formData : FormData
  mapPosition : ℚ × ℚ
  markerPosition : Option (ℚ × ℚ)
  imagePreview : Option String
  deriving DecidableEq

/-- The empty phone entry `{ phoneNumber: '', relationship: '' }`. -/
def emptyPhone : Phone := { phoneNumber := "", relationship := "" }

/-- The initial values given to `useState`. -/
def initialState : State :=
  { formData :=
      { fullName := ""
        address := ""
        latitude := none
        longitude := none
        classId := none
        academicYearId := none
        parentPhones := [emptyPhone] }
    mapPosition := defaultCenter
    markerPosition := none
    imagePreview := none }

/-- The phones `fetchChild` puts in the form:
`child.parentPhones.length > 0 ? child.parentPhones.map(...) : [{ phoneNumber: '', relationship: '' }]`. -/
def phonesOfChild (phones : List ApiPhone) : List Phone :=
  if phones.length > 0 then
    phones.map (fun p =>
      { phoneNumber := p.phoneNumber, relationship := p.relationship.getD "" })
  else [emptyPhone]

/-- The function `fetchChild()` once its request has settled: `response` is the record,
or `none` when the request failed. A record without `parentPhones` makes
`child.parentPhones.length` throw before `setFormData` is called; the `catch` block
only logs. An empty `relationship` or `address` becomes `''` either way. -/
def fetchChild (response : Option ApiChild) (s : State) : State :=
  match response with
  | none => s
  | some child =>
    match child.parentPhones with
    | none => s
    | some phones =>
      let s :=
        { s with
          formData :=
            { fullName := child.fullName
              address := child.address.getD ""
              latitude := child.latitude
              longitude := child.longitude
              classId := child.classId
              academicYearId := child.academicYearId
              parentPhones := phonesOfChild phones } }
      let s :=
        match child.imageUrl with
        | none => s
        | some url =>
          if url = "" then s
          else { s with imagePreview := some ("http://localhost:5067" ++ url) }
      if coordTruthy child.latitude && coordTruthy child.longitude then
        match child.latitude, child.longitude with
        | some lat, some lng =>
          { s with mapPosition := (lat, lng), markerPosition := some (lat, lng) }
        | _, _ => s
      else s

/-- The assignment `phone[field] = value`. -/
def setPhoneField (field : PhoneField) (value : String) (p : Phone) : Phone :=
  match field with
  | .phoneNumber => { p with phoneNumber := value }
  | .relationship => { p with relationship := value }

/-- The function `handlePhoneChange(index, field, value)`. For an index past the end
`newPhones[index]` is `undefined` and the assignment throws before `setFormData`. -/
def handlePhoneChange (index : Nat) (field : PhoneField) (value : String) (s : State) : State :=
  if index < s.formData.parentPhones.length then
    { s with
      formData :=
        { s.formData with
          parentPhones := s.formData.parentPhones.modify (setPhoneField field value) index } }
  else s

/-- The function `addPhone()`. -/
def addPhone (s : State) : State :=
  { s with formData := { s.formData with parentPhones := s.formData.parentPhones ++ [emptyPhone] } }

/-- The entries of a list whose position is not `index`: `filter((_, i) => i !== index)`. -/
def dropIndex (index : Nat) (phones : List Phone) : List Phone :=
  phones.eraseIdx index

/-- The function `removePhone(index)`. The guard reads the rendered `formData`, which is
the current one: the form is rendered again between two events. -/
def removePhone (index : Nat) (s : State) : State :=
  if s.formData.parentPhones.length > 1 then
    { s with
      formData := { s.formData with parentPhones := dropIndex index s.formData.parentPhones } }
  else s

/-- The function `handleMapClick(lat, lng)`, passed as `onMapClick`. -/
def handleMapClick (lat lng : ℚ) (s : State) : State :=
  { s with
    markerPosition := some (lat, lng)
    mapPosition := (lat, lng)
    formData := { s.formData with latitude := some lat, longitude := some lng } }

/-- The function `handleLocationFound(lat, lng)`, passed as `onLocationFound`. -/
def handleLocationFound (lat lng : ℚ) (s : State) : State :=
  handleMapClick lat lng s

/-- The events of the form that the model covers. -/
inductive FormEvent where
  | phoneChange (index : Nat) (field : PhoneField) (value : String)
  | addPhone
  | removePhone (index : Nat)
  | childLoaded (response : Option ApiChild)
  | mapClick (lat lng : ℚ)
  | locationFound (lat lng : ℚ)
  deriving DecidableEq

/-- The effect of a form event. -/
def applyEvent (e : FormEvent) (s : State) : State :=
  match e with
  | .phoneChange index field value => handlePhoneChange index field value s
  | .addPhone => addPhone s
  | .removePhone index => removePhone index s
  | .childLoaded response => fetchChild response s
  | .mapClick lat lng => handleMapClick lat lng s
  | .locationFound lat lng => handleLocationFound lat lng s

/-- The state after a sequence of form events. -/
def runEvents : List FormEvent → State → State
  | [], s => s
  | e :: rest, s => runEvents rest (applyEvent e s)

end AddEditChild

/-! ## The visit dialog with its requests in flight -/

/-- The two buttons that post a visit. -/
inductive SubmitButton where
  | record
  | skip
  deriving DecidableEq

namespace VisitsList

/-- The queue page together with the storage slot and the `POST /visits` requests
that have been issued and have not settled, each with the child selected when
it was issued. -/
structure System where
  page : State
  slot : Slot
  inFlight : List (SubmitButton × Child)

/-- What can happen on the page: a dialog event, a click on one of the two
submit buttons, and the settling of the oldest request in flight. -/
inductive SystemEvent where
  | dialog (e : DialogEvent)
  | click (button : SubmitButton)
  | settle (env : StorageBehaviour) (fetch : JsVal → Option Child) (outcome : PostOutcome)

/-- The page at the start, with the given storage slot. -/
def initialSystem (slot : Slot) : System :=
  { page := initialState, slot := slot, inFlight := [] }

/-- A click on a submit button. Both buttons have `disabled={loading}`: while
`loading` is set the click reaches no handler. -/
def clickSubmit (button : SubmitButton) (sys : System) : System :=
  if sys.page.loading then sys
  else
    match sys.page.selectedChild with
    | none => sys
    | some child =>
      match button with
      | .record =>
        { sys with
          page := (handleSubmitVisitStart sys.page).2
          inFlight := sys.inFlight ++ [(.record, child)] }
      | .skip =>
        { sys with
          page := (handleCancelVisitStart sys.page).2
          inFlight := sys.inFlight ++ [(.skip, child)] }

/-- The settling of the oldest request in flight. -/
def settleOldest (env : StorageBehaviour) (fetch : JsVal → Option Child)
    (outcome : PostOutcome) (sys : System) : System :=
  match sys.inFlight with
  | [] => sys
  | (.record, child) :: rest =>
    { page := (handleSubmitVisitSettle env fetch child outcome (sys.page, sys.slot)).1
      slot := (handleSubmitVisitSettle env fetch child outcome (sys.page, sys.slot)).2
      inFlight := rest }
  | (.skip, child) :: rest =>
    { page := (handleCancelVisitSettle env fetch child outcome (sys.page, sys.slot)).1
      slot := (handleCancelVisitSettle env fetch child outcome (sys.page, sys.slot)).2
      inFlight := rest }

/-- One event of the system. -/
def systemStep (e : SystemEvent) (sys : System) : System :=
  match e with
  | .dialog d => { sys with page := applyEvent d sys.page }
  | .click button => clickSubmit button sys
  | .settle env fetch outcome => settleOldest env fetch outcome sys

/-- The system after a sequence of events. -/
def runSystem : List SystemEvent → System → System
  | [], sys => sys
  | e :: rest, sys => runSystem rest (systemStep e sys)

end VisitsList

namespace Visitations

/-- The Visitations page together with the storage slot and the `POST /visits`
requests that have been issued and have not settled. -/
structure System where
  page : State
  slot : Slot
  inFlight : List (SubmitButton × Child)

/-- What can happen on the page: a dialog event, a click on one of the two
submit buttons, and the settling of the oldest request in flight. -/
inductive SystemEvent where
  | dialog (e : DialogEvent)
  | click (button : SubmitButton)
  | settle (outcome : PostOutcome)

/-- The page at the start, with the given storage slot. -/
def initialSystem (slot : Slot) : System :=
  { page := initialState, slot := slot, inFlight := [] }

/-- A click on a submit button. Both buttons have `disabled={loading}`: while
`loading` is set the click reaches no handler. -/
def clickSubmit (button : SubmitButton) (sys : System) : System :=
  if sys.page.loading then sys
  else
    match sys.page.selectedChild with
    | none => sys
    | some child =>
      match button with
      | .record =>
        { sys with
          page := (handleSubmitVisitStart sys.page).2
          inFlight := sys.inFlight ++ [(.record, child)] }
      | .skip =>
        { sys with
          page := (handleCancelVisitStart sys.page).2
          inFlight := sys.inFlight ++ [(.skip, child)] }

/-- The settling of the oldest request in flight. -/
def settleOldest (outcome : PostOutcome) (sys : System) : System :=
  match sys.inFlight with
  | [] => sys
  | (.record, _) :: rest =>
    { page := (handleSubmitVisitSettle outcome (sys.page, sys.slot)).1
      slot := (handleSubmitVisitSettle outcome (sys.page, sys.slot)).2
      inFlight := rest }
  | (.skip, _) :: rest =>
    { page := (handleCancelVisitSettle outcome (sys.page, sys.slot)).1
      slot := (handleCancelVisitSettle outcome (sys.page, sys.slot)).2
      inFlight := rest }

/-- One event of the system. -/
def systemStep (e : SystemEvent) (sys : System) : System :=
  match e with
  | .dialog d => { sys with page := applyEvent d sys.page }
  | .click button => clickSubmit button sys
  | .settle outcome => settleOldest outcome sys

/-- The system after a sequence of events. -/
def runSystem : List SystemEvent → System → System
  | [], sys => sys
  | e :: rest, sys => runSystem rest (systemStep e sys)

end Visitations

/-! ## Sample data for the map component -/

/-- A caller that passed the three callbacks, none of which throws. -/
def allCallbacks : LeafletMap.CallerProps :=
  { onMapClick := true, onLocationFound := true, onLocationError := true,
    foundThrows := false, errorThrows := false }

/-- The locate-me button while its request is pending, over a map centred on (30, 31)
at zoom 13. -/
def pendingButton : LeafletMap.ButtonState × LeafletMap.WrapperState :=
  ({ loading := true }, { mapCenter := (.finite 30, .finite 31), mapZoom := 13 })

/-- The refs of `MapCenterHandler` before its first transition. -/
def noRefs : LeafletMap.CenterRefs := { prevCenter := none, prevZoom := none }

/-- The queue page with the dialog open for child 5 and the set-location box
checked. -/
def queueDialogOpen : VisitsList.State :=
  VisitsList.runEvents [.visit childFive, .setSaveLocation true] VisitsList.initialState

/-- The Visitations page with the dialog open for child 5 and the set-location box
checked. -/
def directDialogOpen : Visitations.State :=
  Visitations.runEvents [.visit childFive, .setSaveLocation true] Visitations.initialState

/-! ## Decimal digits -/

theorem digitVal_digitChar (d : Nat) (h : d < 10) : digitVal (Nat.digitChar d) = some d := by
  interval_cases d <;> rfl

theorem isDigitChar_digitChar (d : Nat) (h : d < 10) : isDigitChar (Nat.digitChar d) = true := by
  simp [isDigitChar, digitVal_digitChar d h]

theorem toDigitsCore_append (n : Nat) :
    ∀ (f g : Nat) (ds : List Char), n < f → n < g →
      Nat.toDigitsCore 10 f n ds = Nat.toDigitsCore 10 g n [] ++ ds := by
  induction n using Nat.strong_induction_on with
  | _ n ih =>
    intro f g ds hf hg
    obtain ⟨f, rfl⟩ : ∃ k, f = k + 1 := ⟨f - 1, by omega⟩
    obtain ⟨g, rfl⟩ : ∃ k, g = k + 1 := ⟨g - 1, by omega⟩
    simp only [Nat.toDigitsCore]
    by_cases h0 : n / 10 = 0
    · simp [h0]
    · have hlt : n / 10 < n := by omega
      simp only [h0, if_false]
      rw [ih (n / 10) hlt f g _ (by omega) (by omega),
        ih (n / 10) hlt g g [Nat.digitChar (n % 10)] (by omega) (by omega)]
      simp

theorem natChars_small (n : Nat) (h : n < 10) : natChars n = [Nat.digitChar n] := by
  have h0 : n / 10 = 0 := by omega
  have h1 : n % 10 = n := by omega
  simp [natChars, Nat.toDigits, Nat.toDigitsCore, h0, h1]

theorem natChars_step (n : Nat) (h : 10 ≤ n) :
    natChars n = natChars (n / 10) ++ [Nat.digitChar (n % 10)] := by
  have h0 : n / 10 ≠ 0 := by omega
  simp only [natChars, Nat.toDigits, Nat.toDigitsCore, h0, if_false]
  exact toDigitsCore_append (n / 10) n (n / 10 + 1) _ (by omega) (by omega)

theorem natChars_digits (n : Nat) : ∀ c ∈ natChars n, isDigitChar c = true := by
  induction n using Nat.strong_induction_on with
  | _ n ih =>
    by_cases h : n < 10
    · rw [natChars_small n h]
      intro c hc
      rw [List.mem_singleton.mp hc]
      exact isDigitChar_digitChar n h
    · rw [natChars_step n (by omega)]
      intro c hc
      rcases List.mem_append.mp hc with hc | hc
      · exact ih (n / 10) (by omega) c hc
      · rw [List.mem_singleton.mp hc]
        exact isDigitChar_digitChar (n % 10) (by omega)

theorem evalDigits_snoc (ds : List Char) (c : Char) :
    evalDigits (ds ++ [c]) = evalDigits ds * 10 + (digitVal c).getD 0 := by
  simp [evalDigits, List.foldl_append]

theorem evalDigits_natChars (n : Nat) : evalDigits (natChars n) = n := by
  induction n using Nat.strong_induction_on with
  | _ n ih =>
    by_cases h : n < 10
    · rw [natChars_small n h]
      simp [evalDigits, digitVal_digitChar n h]
    · rw [natChars_step n (by omega), evalDigits_snoc, ih (n / 10) (by omega),
        digitVal_digitChar (n % 10) (by omega)]
      simp only [Option.getD_some]
      omega

theorem natChars_head (n : Nat) (hn : 0 < n) :
    ∃ d cs, natChars n = Nat.digitChar d :: cs ∧ 1 ≤ d ∧ d < 10 := by
  induction n using Nat.strong_induction_on with
  | _ n ih =>
    by_cases h : n < 10
    · exact ⟨n, [], natChars_small n h, hn, h⟩
    · obtain ⟨d, cs, hcs, h1, h2⟩ := ih (n / 10) (by omega) (by omega)
      refine ⟨d, cs ++ [Nat.digitChar (n % 10)], ?_, h1, h2⟩
      rw [natChars_step n (by omega), hcs]
      rfl

theorem takeDigits_append (ds rest : List Char) (hds : ∀ c ∈ ds, isDigitChar c = true)
    (hrest : endsDigits rest) : takeDigits (ds ++ rest) = (ds, rest) := by
  induction ds with
  | nil =>
    cases rest with
    | nil => rfl
    | cons c cs => simp [takeDigits, endsDigits] at hrest ⊢; simp [hrest]
  | cons d ds ih =>
    have hd : isDigitChar d = true := hds d (List.mem_cons_self _ _)
    have := ih (fun c hc => hds c (List.mem_cons_of_mem _ hc))
    simp [takeDigits, hd, this]

/-! ## Reading back an integer -/

theorem endsDigits_of_endsNumber (rest : List Char) (h : endsNumber rest) : endsDigits rest := by
  cases rest with
  | nil => trivial
  | cons c cs =>
    rcases h with h | h <;> subst h <;> rfl

theorem parseFrac_endsNumber (rest : List Char) (h : endsNumber rest) :
    JSON.parseFrac rest = some ([], rest) := by
  cases rest with
  | nil => rfl
  | cons c cs =>
    rcases h with h | h <;> subst h <;> rfl

theorem parseExp_endsNumber (rest : List Char) (h : endsNumber rest) :
    JSON.parseExp rest = some (0, rest) := by
  cases rest with
  | nil => rfl
  | cons c cs =>
    rcases h with h | h <;> subst h <;> rfl

theorem parseNumberTail_endsNumber (negative : Bool) (ip lit rest : List Char)
    (h : endsNumber rest) :
    JSON.parseNumberTail negative ip lit rest =
      some (.num (if negative then -(Int.ofNat (evalDigits ip)) else Int.ofNat (evalDigits ip)),
        rest) := by
  simp [JSON.parseNumberTail, parseFrac_endsNumber rest h, parseExp_endsNumber rest h,
    scaleDecimal]

theorem parseUnsigned_natChars (negative : Bool) (lit : List Char) (m : Nat) (rest : List Char)
    (h : endsNumber rest) :
    JSON.parseUnsigned negative lit (natChars m ++ rest) =
      some (.num (if negative then -(Int.ofNat m) else Int.ofNat m), rest) := by
  by_cases hm : m = 0
  · subst hm
    have h0 : natChars 0 = ['0'] := natChars_small 0 (by omega)
    rw [h0]
    simp only [List.singleton_append, JSON.parseUnsigned, if_true]
    rw [parseNumberTail_endsNumber _ _ _ _ h]
    rfl
  · obtain ⟨d, cs, hcs, h1, h2⟩ := natChars_head m (by omega)
    have hdig : ∀ c ∈ cs, isDigitChar c = true := fun c hc =>
      natChars_digits m c (by rw [hcs]; exact List.mem_cons_of_mem _ hc)
    have hval : evalDigits (Nat.digitChar d :: cs) = m := by
      rw [← hcs]; exact evalDigits_natChars m
    have htake := takeDigits_append cs rest hdig (endsDigits_of_endsNumber rest h)
    have hd : isDigitChar (Nat.digitChar d) = true := isDigitChar_digitChar d h2
    have hne : Nat.digitChar d ≠ '0' := by
      interval_cases d <;> decide
    rw [hcs]
    simp only [List.cons_append, JSON.parseUnsigned, hne, if_false, hd, if_true, htake]
    rw [parseNumberTail_endsNumber _ _ _ _ h, hval]

theorem natChars_head_ne_minus (m : Nat) :
    ∃ c cs, natChars m = c :: cs ∧ c ≠ '-' ∧ JSON.isWs c = false ∧ c ≠ ']' := by
  by_cases hm : m = 0
  · subst hm
    exact ⟨'0', [], natChars_small 0 (by omega), by decide, by decide, by decide⟩
  · obtain ⟨d, cs, hcs, h1, h2⟩ := natChars_head m (by omega)
    refine ⟨_, cs, hcs, ?_, ?_, ?_⟩ <;> interval_cases d <;> decide

theorem parseNumber_intChars (n : Int) (rest : List Char) (h : endsNumber rest) :
    JSON.parseNumber (intChars n ++ rest) = some (.num n, rest) := by
  cases n with
  | ofNat m =>
    obtain ⟨c, cs, hcs, hc, -, -⟩ := natChars_head_ne_minus m
    have := parseUnsigned_natChars false (natChars m ++ rest) m rest h
    simp only [intChars]
    rw [hcs] at this ⊢
    simp only [List.cons_append, JSON.parseNumber, hc, if_false]
    simpa using this
  | negSucc m =>
    have := parseUnsigned_natChars true ('-' :: (natChars (m + 1) ++ rest)) (m + 1) rest h
    simp only [intChars, List.cons_append, JSON.parseNumber, if_true]
    rw [this]
    rfl

/-! ## Reading back an array of integers -/

theorem intChars_head (n : Int) :
    ∃ c cs, intChars n = c :: cs ∧ (c = '-' ∨ ∃ d, d < 10 ∧ c = Nat.digitChar d) := by
  cases n with
  | ofNat m =>
    by_cases hm : m = 0
    · subst hm
      exact ⟨'0', [], natChars_small 0 (by omega), Or.inr ⟨0, by omega, rfl⟩⟩
    · obtain ⟨d, cs, hcs, -, h2⟩ := natChars_head m (by omega)
      exact ⟨_, cs, hcs, Or.inr ⟨d, h2, rfl⟩⟩
  | negSucc m => exact ⟨'-', natChars (m + 1), rfl, Or.inl rfl⟩

theorem parseValue_intChars (fuel : Nat) (n : Int) (rest : List Char) (h : endsNumber rest) :
    JSON.parseValue (fuel + 1) (intChars n ++ rest) = some (.num n, rest) := by
  have hnum := parseNumber_intChars n rest h
  obtain ⟨c, cs, hcs, hc⟩ := intChars_head n
  rw [hcs] at hnum ⊢
  rcases hc with rfl | ⟨d, hd, rfl⟩
  · simpa [JSON.parseValue, JSON.skipWs, JSON.isWs] using hnum
  · interval_cases d <;> simpa [JSON.parseValue, JSON.skipWs, JSON.isWs] using hnum

theorem skipWs_intChars (n : Int) (rest : List Char) :
    ∃ c cs, JSON.skipWs (intChars n ++ rest) = c :: cs ∧ c ≠ ']' := by
  obtain ⟨c, cs, hcs, hc⟩ := intChars_head n
  rw [hcs]
  rcases hc with rfl | ⟨d, hd, rfl⟩
  · exact ⟨'-', cs ++ rest, rfl, by decide⟩
  · refine ⟨Nat.digitChar d, cs ++ rest, ?_, ?_⟩ <;> interval_cases d <;>
      first | decide | rfl

theorem stringifyRest_ints_cons (y : Int) (ys : List Int) :
    JSON.stringifyRest ((y :: ys).map JsVal.num) =
      ',' :: (intChars y ++ JSON.stringifyRest (ys.map JsVal.num)) := by
  simp [JSON.stringifyRest, JSON.stringifyChars]

theorem parseElements_succ (fuel : Nat) (cs : List Char) :
    JSON.parseElements (fuel + 1) cs =
      match JSON.parseValue fuel cs with
      | none => none
      | some (v, rest) =>
        match JSON.skipWs rest with
        | [] => none
        | c :: rest2 =>
          if c = ',' then
            match JSON.parseElements fuel rest2 with
            | none => none
            | some (vs, rest3) => some (v :: vs, rest3)
          else if c = ']' then some ([v], rest2)
          else none := by
  rw [JSON.parseElements]

theorem parseElements_ints (xs : List Int) :
    ∀ (x : Int) (fuel : Nat) (rest : List Char), xs.length + 2 ≤ fuel →
      JSON.parseElements fuel
          (intChars x ++ (JSON.stringifyRest (xs.map JsVal.num) ++ ']' :: rest)) =
        some (JsVal.num x :: xs.map JsVal.num, rest) := by
  induction xs with
  | nil =>
    intro x fuel rest hf
    obtain ⟨f, rfl⟩ : ∃ k, fuel = k + 2 := ⟨fuel - 2, by omega⟩
    simp only [List.map_nil, JSON.stringifyRest, List.nil_append]
    rw [parseElements_succ, parseValue_intChars f x (']' :: rest) (Or.inr rfl)]
    rfl
  | cons y ys ih =>
    intro x fuel rest hf
    obtain ⟨f, rfl⟩ : ∃ k, fuel = k + 2 := ⟨fuel - 2, by simp at hf; omega⟩
    have hy := ih y (f + 1) rest (by simp at hf; omega)
    rw [stringifyRest_ints_cons, parseElements_succ, List.cons_append,
      parseValue_intChars f x (',' :: _) (Or.inl rfl)]
    simp [JSON.skipWs, JSON.isWs, hy]

theorem stringifyRest_ints_length (xs : List Int) :
    xs.length ≤ (JSON.stringifyRest (xs.map JsVal.num)).length := by
  induction xs with
  | nil => simp
  | cons y ys ih =>
    rw [stringifyRest_ints_cons]
    simp only [List.length_cons, List.length_append]
    omega

theorem parseValue_ints (x : Int) (xs : List Int) (fuel : Nat) (rest : List Char)
    (hf : xs.length + 2 ≤ fuel) :
    JSON.parseValue (fuel + 1)
        ('[' :: (intChars x ++ (JSON.stringifyRest (xs.map JsVal.num) ++ ']' :: rest))) =
      some (.arr (JsVal.num x :: xs.map JsVal.num), rest) := by
  obtain ⟨c, cs, hskip, hc⟩ :=
    skipWs_intChars x (JSON.stringifyRest (xs.map JsVal.num) ++ ']' :: rest)
  rw [JSON.parseValue]
  simp only [JSON.skipWs, JSON.isWs]
  simp [hskip, hc, parseElements_ints xs x fuel rest hf]

/-- Reading back what `JSON.stringify` writes for an array of integers gives
that array. -/
theorem parse_stringify_ints (l : List Int) :
    JSON.parse (JSON.stringify (.arr (l.map JsVal.num))) = .ok (.arr (l.map JsVal.num)) := by
  cases l with
  | nil => rfl
  | cons x xs =>
    have hlen := stringifyRest_ints_length xs
    simp only [JSON.parse, JSON.stringify, List.map_cons, JSON.stringifyChars]
    generalize hF :
      2 * ('[' :: (intChars x ++ (JSON.stringifyRest (xs.map JsVal.num) ++ [']']))).length + 2
        = F
    obtain ⟨f, rfl⟩ : ∃ k, F = k + 1 := ⟨F - 1, by omega⟩
    rw [parseValue_ints x xs f [] (by
      simp only [List.length_cons, List.length_append] at hF; omega)]
    rfl

/-! ## The functions on a slot that reads as a list of integers -/

theorem parse_empty : JSON.parse "" = .error .syntaxError := rfl

theorem getVisitsList_of_holds (slot : Slot) (ids : List Int) (h : HoldsIds slot ids) :
    getVisitsList working slot = .arr (ids.map JsVal.num) := by
  rcases h with ⟨rfl, rfl⟩ | ⟨text, rfl, hparse⟩
  · rfl
  · have hne : text ≠ "" := by
      rintro rfl
      rw [parse_empty] at hparse
      cases hparse
    simp [getVisitsList, getVisitsListBody, getItem, working, hne, hparse, bind, Except.bind]

theorem holds_stringify (ids : List Int) :
    HoldsIds (some (JSON.stringify (.arr (ids.map JsVal.num)))) ids :=
  Or.inr ⟨_, rfl, parse_stringify_ints ids⟩

theorem sameValueZero_num_int (x id : Int) :
    sameValueZero (.num x) (.int id) = decide (x = id) := rfl

theorem strictNe_Number_num (x n : Int) :
    strictNe (Number (.num x)) (.int n) = decide (x ≠ n) := rfl

theorem any_sameValueZero_ints (ids : List Int) (id : Int) :
    (ids.map JsVal.num).any (fun e => sameValueZero e (.int id)) = decide (id ∈ ids) := by
  induction ids with
  | nil => simp
  | cons x xs ih =>
    rw [List.map_cons, List.any_cons, ih, sameValueZero_num_int]
    by_cases h : x = id
    · simp [h]
    · have h2 : ¬ id = x := fun e => h e.symm
      simp [h, h2]

theorem filter_strictNe_ints (ids : List Int) (n : Int) :
    (ids.map JsVal.num).filter (fun e => strictNe (Number e) (.int n)) =
      (ids.filter (fun x => decide (x ≠ n))).map JsVal.num := by
  induction ids with
  | nil => rfl
  | cons x xs ih =>
    rw [List.map_cons, List.filter_cons, List.filter_cons, strictNe_Number_num, ih]
    by_cases h : x = n <;> simp [h]

/-- The effect of `addToVisitsList` when the list read is a list of integers. -/
theorem addToVisitsList_of_reads (env : StorageBehaviour) (id : Int) (slot : Slot)
    (ids : List Int) (h : getVisitsList env slot = .arr (ids.map JsVal.num)) :
    addToVisitsList env (.int id) slot =
      if id ∈ ids then (false, slot)
      else if env.setItemThrows then (false, slot)
      else (true, some (JSON.stringify (.arr ((ids ++ [id]).map JsVal.num)))) := by
  by_cases hmem : id ∈ ids
  · simp [addToVisitsList, addToVisitsListBody, h, jsIncludes, any_sameValueZero_ints, hmem,
      bind, Except.bind, pure, Except.pure]
  · by_cases hset : env.setItemThrows = true
    · simp [addToVisitsList, addToVisitsListBody, h, jsIncludes, any_sameValueZero_ints, hmem,
        jsPush, setItem, hset, bind, Except.bind, pure, Except.pure]
    · simp [addToVisitsList, addToVisitsListBody, h, jsIncludes, any_sameValueZero_ints, hmem,
        jsPush, setItem, hset, ChildId.toJs, bind, Except.bind, pure, Except.pure]

/-- The effect of `removeFromVisitsList` when the list read is a list of integers
and the identifier converts to the integer `n`. -/
theorem removeFromVisitsList_of_reads (env : StorageBehaviour) (childId : ChildId) (n : Int)
    (slot : Slot) (ids : List Int) (h : getVisitsList env slot = .arr (ids.map JsVal.num))
    (hid : idToRemove childId = .int n) :
    removeFromVisitsList env childId slot =
      if env.setItemThrows then (false, slot)
      else (true, some (JSON.stringify
        (.arr ((ids.filter (fun x => decide (x ≠ n))).map JsVal.num)))) := by
  by_cases hset : env.setItemThrows = true
  · simp [removeFromVisitsList, removeFromVisitsListBody, h, jsFilter, setItem, hset,
      bind, Except.bind, pure, Except.pure]
  · simp only [removeFromVisitsList, removeFromVisitsListBody, h, jsFilter, hid,
      filter_strictNe_ints]
    simp [setItem, hset, bind, Except.bind, pure, Except.pure]

theorem takeDigits_natChars (m : Nat) : takeDigits (natChars m) = (natChars m, []) := by
  have := takeDigits_append (natChars m) [] (natChars_digits m) trivial
  simpa using this

theorem natChars_head_plain (m : Nat) :
    ∃ c cs, natChars m = c :: cs ∧ c ≠ '-' ∧ c ≠ '+' ∧ isStrWhiteSpace c = false := by
  by_cases hm : m = 0
  · subst hm
    exact ⟨'0', [], natChars_small 0 (by omega), by decide, by decide, by decide⟩
  · obtain ⟨d, cs, hcs, h1, h2⟩ := natChars_head m (by omega)
    refine ⟨_, cs, hcs, ?_, ?_, ?_⟩ <;> interval_cases d <;> decide

/-- The text `String(n)` of an integer converts back to it under `parseInt`. -/
theorem parseInt_decimalString (n : Int) : parseInt (decimalString n) = .int n := by
  cases n with
  | ofNat m =>
    obtain ⟨c, cs, hcs, h1, h2, h3⟩ := natChars_head_plain m
    have htake := takeDigits_natChars m
    have hval := evalDigits_natChars m
    rw [hcs] at htake hval
    simp [parseInt, decimalString, intChars, hcs, trimStart, h3, h1, h2, htake, hval]
  | negSucc m =>
    obtain ⟨c, cs, hcs, h1, h2, h3⟩ := natChars_head_plain (m + 1)
    have htake := takeDigits_natChars (m + 1)
    have hval := evalDigits_natChars (m + 1)
    rw [hcs] at htake hval
    have hws : isStrWhiteSpace '-' = false := by decide
    simp only [parseInt, decimalString, intChars, hcs, trimStart, hws]
    simp [htake, hval]
    rw [Int.negSucc_eq]
    omega

theorem idToRemove_decimalString (n : Int) : idToRemove (.str (decimalString n)) = .int n :=
  parseInt_decimalString n

theorem getVisitsList_stringify (ids : List Int) :
    getVisitsList working (some (JSON.stringify (.arr (ids.map JsVal.num)))) =
      .arr (ids.map JsVal.num) :=
  getVisitsList_of_holds _ _ (holds_stringify ids)

theorem getVisitsList_after_add (id : Int) (slot : Slot) (ids : List Int)
    (h : getVisitsList working slot = .arr (ids.map JsVal.num)) :
    getVisitsList working (addToVisitsList working (.int id) slot).2 =
      .arr ((if id ∈ ids then ids else ids ++ [id]).map JsVal.num) := by
  rw [addToVisitsList_of_reads working id slot ids h]
  by_cases hmem : id ∈ ids
  · simp only [hmem, if_true, h]
  · simp only [hmem, if_false, working, Bool.false_eq_true]
    exact getVisitsList_stringify (ids ++ [id])

theorem getVisitsList_after_remove (childId : ChildId) (n : Int) (slot : Slot) (ids : List Int)
    (h : getVisitsList working slot = .arr (ids.map JsVal.num))
    (hid : idToRemove childId = .int n) :
    getVisitsList working (removeFromVisitsList working childId slot).2 =
      .arr ((ids.filter (fun x => decide (x ≠ n))).map JsVal.num) := by
  rw [removeFromVisitsList_of_reads working childId n slot ids h hid]
  simp only [working, Bool.false_eq_true, if_false]
  exact getVisitsList_stringify _

theorem filter_ne_of_not_mem (ids : List Int) (n : Int) (hn : n ∉ ids) :
    ids.filter (fun x => decide (x ≠ n)) = ids := by
  apply List.filter_eq_self.mpr
  intro x hx
  have : x ≠ n := fun e => hn (e ▸ hx)
  simp [this]

/-! ## Reading back a string -/

theorem hex4_control (n : Nat) (h : n < 32) :
    JSON.hex4 '0' '0' (JSON.hexDigit (n / 16)) (JSON.hexDigit n) = some n := by
  interval_cases n <;> rfl

/-- Reading what `JSON.stringify` writes for one character of a string takes one step
and gives the character. -/
theorem parseStringBody_quoteChar (c : Char) (fuel : Nat) (rest acc : List Char) :
    JSON.parseStringBody (fuel + 1) (JSON.quoteChar c ++ rest) acc
      = JSON.parseStringBody fuel rest (c :: acc) := by
  unfold JSON.quoteChar
  split
  · rename_i h; subst h; rfl
  split
  · rename_i h; subst h; rfl
  split
  · rename_i h; subst h; rfl
  split
  · rename_i h; subst h; rfl
  split
  · rename_i h; subst h; rfl
  split
  · rename_i h; subst h; rfl
  split
  · rename_i h; subst h; rfl
  split
  · rename_i h1 h2 h3 h4 h5 h6 h7 h
    have hx := hex4_control c.toNat h
    have hlow : ¬ (0xD800 ≤ c.toNat ∧ c.toNat ≤ 0xDBFF) := by omega
    have hunit : JSON.unitChar c.toNat = c := by
      have : ¬ (0xD800 ≤ c.toNat ∧ c.toNat ≤ 0xDFFF) := by omega
      simp only [JSON.unitChar, this, if_false]
      exact Char.ofNat_toNat c
    show JSON.parseStringBody (fuel + 1)
        ('\\' :: 'u' :: '0' :: '0' :: JSON.hexDigit (c.toNat / 16) :: JSON.hexDigit c.toNat
          :: rest) acc = _
    rw [JSON.parseStringBody]
    simp [hx, hlow, hunit]
  · rename_i h1 h2 h3 h4 h5 h6 h7 h
    simp [JSON.parseStringBody, h1, h2, h]

theorem parseStringBody_quoted (cs : List Char) :
    ∀ (fuel : Nat) (rest acc : List Char), cs.length + 1 ≤ fuel →
      JSON.parseStringBody fuel (cs.flatMap JSON.quoteChar ++ '"' :: rest) acc
        = some (String.mk (acc.reverse ++ cs), rest) := by
  induction cs with
  | nil =>
    intro fuel rest acc hf
    obtain ⟨f, rfl⟩ : ∃ k, fuel = k + 1 := ⟨fuel - 1, by simp at hf; omega⟩
    simp [JSON.parseStringBody]
  | cons c cs ih =>
    intro fuel rest acc hf
    obtain ⟨f, rfl⟩ : ∃ k, fuel = k + 1 := ⟨fuel - 1, by simp at hf; omega⟩
    rw [List.flatMap_cons, List.append_assoc, parseStringBody_quoteChar,
      ih f rest (c :: acc) (by simp at hf; omega)]
    simp

theorem quoteChar_length (c : Char) : 1 ≤ (JSON.quoteChar c).length := by
  unfold JSON.quoteChar
  repeat' split
  all_goals simp

theorem flatMap_quoteChar_length (cs : List Char) :
    cs.length ≤ (cs.flatMap JSON.quoteChar).length := by
  induction cs with
  | nil => simp
  | cons c cs ih =>
    have := quoteChar_length c
    simp only [List.flatMap_cons, List.length_append, List.length_cons]
    omega

/-- Reading back the string literal `JSON.stringify` writes gives the string. -/
theorem parseValue_quote (fuel : Nat) (s : String) (rest : List Char) :
    JSON.parseValue (fuel + 1) (JSON.quote s ++ rest) = some (.str s, rest) := by
  have hlen := flatMap_quoteChar_length s.data
  have h := parseStringBody_quoted s.data
    ((s.data.flatMap JSON.quoteChar ++ '"' :: rest).length + 1) rest []
    (by simp only [List.length_append, List.length_cons]; omega)
  simp only [List.reverse_nil, List.nil_append] at h
  have hq : JSON.parseString (s.data.flatMap JSON.quoteChar ++ '"' :: rest) = some (s, rest) := h
  simp only [JSON.quote, List.cons_append, List.append_assoc, List.singleton_append,
    JSON.parseValue, JSON.skipWs, JSON.isWs]
  simp [hq]

/-! ## Reading back an array of scalars -/

/-- What follows an element of an array of scalars is read as for integers. -/
theorem parseValue_scalar (x : JsVal) (hx : isScalar x = true) (fuel : Nat) (rest : List Char)
    (h : endsNumber rest) :
    JSON.parseValue (fuel + 1) (JSON.stringifyChars x ++ rest) = some (x, rest) := by
  cases x with
  | undefined => simp [isScalar] at hx
  | null => simp [JSON.stringifyChars, JSON.parseValue, JSON.skipWs, JSON.isWs, JSON.expectWord]
  | bool b =>
    cases b <;>
      simp [JSON.stringifyChars, JSON.parseValue, JSON.skipWs, JSON.isWs, JSON.expectWord]
  | num n =>
    simp only [JSON.stringifyChars]
    exact parseValue_intChars fuel n rest h
  | real lit => simp [isScalar] at hx
  | str s =>
    simp only [JSON.stringifyChars]
    exact parseValue_quote fuel s rest
  | arr xs => simp [isScalar] at hx
  | obj kvs => simp [isScalar] at hx

theorem skipWs_scalar (x : JsVal) (hx : isScalar x = true) (rest : List Char) :
    ∃ c cs, JSON.skipWs (JSON.stringifyChars x ++ rest) = c :: cs ∧ c ≠ ']' := by
  cases x with
  | undefined => simp [isScalar] at hx
  | null => exact ⟨'n', _, rfl, by decide⟩
  | bool b => cases b <;> exact ⟨_, _, rfl, by decide⟩
  | num n =>
    simp only [JSON.stringifyChars]
    exact skipWs_intChars n rest
  | real lit => simp [isScalar] at hx
  | str s => exact ⟨'"', _, rfl, by decide⟩
  | arr xs => simp [isScalar] at hx
  | obj kvs => simp [isScalar] at hx

theorem parseElements_scalars (xs : List JsVal) :
    ∀ (x : JsVal) (fuel : Nat) (rest : List Char), isScalar x = true →
      (∀ y ∈ xs, isScalar y = true) → xs.length + 2 ≤ fuel →
      JSON.parseElements fuel
          (JSON.stringifyChars x ++ (JSON.stringifyRest xs ++ ']' :: rest)) =
        some (x :: xs, rest) := by
  induction xs with
  | nil =>
    intro x fuel rest hx _ hf
    obtain ⟨f, rfl⟩ : ∃ k, fuel = k + 2 := ⟨fuel - 2, by simp at hf; omega⟩
    simp only [JSON.stringifyRest, List.nil_append]
    rw [parseElements_succ, parseValue_scalar x hx f (']' :: rest) (Or.inr rfl)]
    rfl
  | cons y ys ih =>
    intro x fuel rest hx hall hf
    obtain ⟨f, rfl⟩ : ∃ k, fuel = k + 2 := ⟨fuel - 2, by simp at hf; omega⟩
    have hy := ih y (f + 1) rest (hall y (List.mem_cons_self _ _))
      (fun z hz => hall z (List.mem_cons_of_mem _ hz)) (by simp at hf; omega)
    have hrest : JSON.stringifyRest (y :: ys)
        = ',' :: (JSON.stringifyChars y ++ JSON.stringifyRest ys) := by
      simp [JSON.stringifyRest]
    rw [hrest, parseElements_succ, List.cons_append,
      parseValue_scalar x hx f (',' :: _) (Or.inl rfl)]
    simp [JSON.skipWs, JSON.isWs, hy]

theorem stringifyRest_length (xs : List JsVal) : xs.length ≤ (JSON.stringifyRest xs).length := by
  induction xs with
  | nil => simp
  | cons y ys ih =>
    have hrest : JSON.stringifyRest (y :: ys)
        = ',' :: (JSON.stringifyChars y ++ JSON.stringifyRest ys) := by
      simp [JSON.stringifyRest]
    rw [hrest]
    simp only [List.length_cons, List.length_append]
    omega

/-- Reading back what `JSON.stringify` writes for an array of scalars gives that
array. -/
theorem parse_stringify_scalars (xs : List JsVal) (hall : ∀ y ∈ xs, isScalar y = true) :
    JSON.parse (JSON.stringify (.arr xs)) = .ok (.arr xs) := by
  cases xs with
  | nil => rfl
  | cons x xs =>
    have hlen := stringifyRest_length xs
    have hx := hall x (List.mem_cons_self _ _)
    have hxs : ∀ y ∈ xs, isScalar y = true := fun z hz => hall z (List.mem_cons_of_mem _ hz)
    obtain ⟨c, cs, hskip, hc⟩ := skipWs_scalar x hx (JSON.stringifyRest xs ++ [']'])
    simp only [JSON.parse, JSON.stringify, JSON.stringifyChars]
    generalize hF :
      2 * ('[' :: (JSON.stringifyChars x ++ (JSON.stringifyRest xs ++ [']']))).length + 2 = F
    obtain ⟨f, rfl⟩ : ∃ k, F = k + 1 := ⟨F - 1, by omega⟩
    have hel := parseElements_scalars xs x f [] hx hxs (by
      simp only [List.length_cons, List.length_append] at hF; omega)
    rw [JSON.parseValue]
    simp only [JSON.skipWs, JSON.isWs]
    simp [hskip, hc, hel, JSON.skipWs]

/-- The function `getVisitsList()` on the text `JSON.stringify` writes for an array of
scalars. -/
theorem getVisitsList_stringify_scalars (xs : List JsVal)
    (hall : ∀ y ∈ xs, isScalar y = true) :
    getVisitsList working (some (JSON.stringify (.arr xs))) = .arr xs := by
  have hparse := parse_stringify_scalars xs hall
  have hne : JSON.stringify (.arr xs) ≠ "" := by
    intro h
    rw [h, parse_empty] at hparse
    cases hparse
  simp [getVisitsList, getVisitsListBody, getItem, working, hne, hparse, bind, Except.bind]

theorem strictNe_int (a : JsNum) (n : Int) : strictNe a (.int n) = decide (a ≠ .int n) := by
  cases a <;> simp [strictNe]

/-- The effect of `removeFromVisitsList` with working storage when the list read is
`xs` and the identifier converts to the integer `n`. -/
theorem removeFromVisitsList_of_list (childId : ChildId) (n : Int) (slot : Slot)
    (xs : List JsVal) (h : getVisitsList working slot = .arr xs)
    (hid : idToRemove childId = .int n) :
    removeFromVisitsList working childId slot =
      (true, some (JSON.stringify (.arr (xs.filter (fun e => decide (Number e ≠ .int n)))))) := by
  simp only [removeFromVisitsList, removeFromVisitsListBody, h, jsFilter, hid, strictNe_int]
  simp [setItem, working, bind, Except.bind, pure, Except.pure]

/-! ## The number a decimal string converts to -/

theorem isStrWhiteSpace_digit (c : Char) (h : isDigitChar c = true) :
    isStrWhiteSpace c = false := by
  have hc : '0' ≤ c ∧ c ≤ '9' := by
    by_contra hn
    simp [isDigitChar, digitVal, hn] at h
  have h1 : 48 ≤ c.toNat := hc.1
  have h2 : c.toNat ≤ 57 := hc.2
  simp only [isStrWhiteSpace]
  simp
  omega

theorem trimStart_digits (l : List Char) (hl : ∀ c ∈ l, isDigitChar c = true) :
    trimStart l = l := by
  cases l with
  | nil => rfl
  | cons c cs => simp [trimStart, isStrWhiteSpace_digit c (hl c (List.mem_cons_self _ _))]

theorem trimBoth_natChars (m : Nat) : trimBoth (natChars m) = natChars m := by
  have h1 := trimStart_digits (natChars m) (natChars_digits m)
  have h2 := trimStart_digits (natChars m).reverse
    (fun c hc => natChars_digits m c (List.mem_reverse.mp hc))
  simp [trimBoth, h1, h2]

theorem trimBoth_minus_natChars (m : Nat) :
    trimBoth ('-' :: natChars (m + 1)) = '-' :: natChars (m + 1) := by
  obtain ⟨d, cs, hcs, -, -⟩ := natChars_head (m + 1) (by omega)
  have hrev : (natChars (m + 1)).reverse ≠ [] := by simp [hcs]
  obtain ⟨c, t, hct⟩ := List.exists_cons_of_ne_nil hrev
  have hc : isDigitChar c = true :=
    natChars_digits (m + 1) c (List.mem_reverse.mp (by rw [hct]; exact List.mem_cons_self _ _))
  have hws : isStrWhiteSpace '-' = false := by decide
  have hback : trimStart ((natChars (m + 1)).reverse ++ ['-'])
      = (natChars (m + 1)).reverse ++ ['-'] := by
    rw [hct]
    simp [trimStart, isStrWhiteSpace_digit c hc]
  simp [trimBoth, trimStart, hws, hback]

theorem strDecimal_natChars (negative : Bool) (m : Nat) (hm : 0 < m) :
    strDecimal negative (natChars m)
      = .int (if negative then -(Int.ofNat m) else Int.ofNat m) := by
  obtain ⟨d, cs, hcs, h1, h2⟩ := natChars_head m hm
  have htake := takeDigits_natChars m
  have hval := evalDigits_natChars m
  have hinf : natChars m ≠ "Infinity".data := by
    rw [hcs]
    interval_cases d <;> simp [Nat.digitChar]
  have hne : natChars m ≠ [] := by simp [hcs]
  simp [strDecimal, hinf, strUnsignedDecimal, htake, hne, strExponent, scaleDecimal, hval]

/-- The text `String(n)` of an integer converts back to it under `Number`. -/
theorem stringToNumber_decimalString (n : Int) : stringToNumber (decimalString n) = .int n := by
  cases n with
  | ofNat m =>
    by_cases hm : m = 0
    · subst hm
      rfl
    · obtain ⟨d, cs, hcs, h1, h2⟩ := natChars_head m (by omega)
      have hdec := strDecimal_natChars false m (by omega)
      have htrim := trimBoth_natChars m
      rw [hcs] at hdec htrim
      simp only [stringToNumber, decimalString, intChars, hcs, htrim]
      interval_cases d <;> simpa [Nat.digitChar] using hdec
  | negSucc m =>
    have hdec := strDecimal_natChars true (m + 1) (by omega)
    have htrim := trimBoth_minus_natChars m
    simp only [stringToNumber, decimalString, intChars, htrim, hdec]
    simp [Int.negSucc_eq]

/-! ## Failed writes and reads -/

/-- A failed write makes `addToVisitsList` return `false` with the slot as it
was, whatever the slot holds. -/
theorem addToVisitsList_write_fails (env : StorageBehaviour) (childId : ChildId) (slot : Slot)
    (hw : env.setItemThrows = true) : addToVisitsList env childId slot = (false, slot) := by
  unfold addToVisitsList addToVisitsListBody
  cases hlist : getVisitsList env slot with
  | arr xs =>
    by_cases hany : (xs.any fun e => sameValueZero e childId) = true
    · simp [jsIncludes, hany, bind, Except.bind, pure, Except.pure]
    · simp [jsIncludes, hany, jsPush, setItem, hw, bind, Except.bind, pure, Except.pure]
  | str s =>
    by_cases hocc : occursIn childId.toText s.data = true
    · simp [jsIncludes, hocc, bind, Except.bind, pure, Except.pure]
    · simp [jsIncludes, hocc, jsPush, bind, Except.bind, pure, Except.pure]
  | _ => simp [jsIncludes, bind, Except.bind]

/-- A failed write makes `removeFromVisitsList` return `false` with the slot as
it was, whatever the slot holds. -/
theorem removeFromVisitsList_write_fails (env : StorageBehaviour) (childId : ChildId)
    (slot : Slot) (hw : env.setItemThrows = true) :
    removeFromVisitsList env childId slot = (false, slot) := by
  unfold removeFromVisitsList removeFromVisitsListBody
  cases hlist : getVisitsList env slot <;>
    simp [jsFilter, setItem, hw, bind, Except.bind, pure, Except.pure]

/-! ## The queue along a sequence of calls -/

theorem getVisitsList_read_fails (env : StorageBehaviour) (slot : Slot)
    (h : env.getItemThrows = true) : getVisitsList env slot = .arr [] := by
  simp [getVisitsList, getVisitsListBody, getItem, h, bind, Except.bind]

theorem getVisitsList_read_works (env : StorageBehaviour) (slot : Slot)
    (h : env.getItemThrows = false) : getVisitsList env slot = getVisitsList working slot := by
  simp [getVisitsList, getVisitsListBody, getItem, h, working]

theorem getVisitsList_absent (env : StorageBehaviour) : getVisitsList env none = .arr [] := by
  by_cases h : env.getItemThrows = true
  · exact getVisitsList_read_fails env none h
  · simp [getVisitsList, getVisitsListBody, getItem, h, bind, Except.bind, pure, Except.pure]

theorem canonical_reads (slot : Slot) (h : CanonicalSlot slot) (env : StorageBehaviour) :
    ∃ ids : List Int, ids.Nodup ∧ getVisitsList env slot = .arr (ids.map JsVal.num) := by
  by_cases hg : env.getItemThrows = true
  · exact ⟨[], List.nodup_nil, getVisitsList_read_fails env slot hg⟩
  · rcases h with rfl | ⟨ids, hnd, rfl⟩
    · exact ⟨[], List.nodup_nil, getVisitsList_absent env⟩
    · refine ⟨ids, hnd, ?_⟩
      rw [getVisitsList_read_works env _ (by simpa using hg)]
      exact getVisitsList_stringify ids

theorem canonical_applyOp (env : StorageBehaviour) (op : QueueOp) (slot : Slot)
    (h : CanonicalSlot slot) : CanonicalSlot (applyOp env op slot) := by
  obtain ⟨ids, hnd, hread⟩ := canonical_reads slot h env
  cases op with
  | add id =>
    simp only [applyOp]
    rw [addToVisitsList_of_reads env id slot ids hread]
    by_cases hmem : id ∈ ids
    · simpa [hmem] using h
    · by_cases hset : env.setItemThrows = true
      · simpa [hmem, hset] using h
      · simp only [hmem, hset, if_false]
        refine Or.inr ⟨ids ++ [id], ?_, rfl⟩
        exact List.Nodup.append hnd (List.nodup_singleton id) (by simpa using hmem)
  | remove id =>
    simp only [applyOp]
    rw [removeFromVisitsList_of_reads env (.int id) id slot ids hread rfl]
    by_cases hset : env.setItemThrows = true
    · simpa [hset] using h
    · simp only [hset, if_false]
      exact Or.inr ⟨_, hnd.filter _, rfl⟩
  | clear =>
    simp only [applyOp, clearVisitsList, removeItem]
    by_cases hrem : env.removeItemThrows = true
    · simpa [hrem] using h
    · simp only [hrem, if_false]
      exact Or.inl rfl

theorem canonical_runOps (steps : List (StorageBehaviour × QueueOp)) :
    ∀ slot : Slot, CanonicalSlot slot → CanonicalSlot (runOps steps slot) := by
  induction steps with
  | nil => intro slot h; exact h
  | cons step rest ih =>
    intro slot h
    obtain ⟨env, op⟩ := step
    exact ih _ (canonical_applyOp env op slot h)

/-! ## Supporting facts on `getVisitsList` -/

/-- The cases in which `getVisitsList` does answer the empty array: an absent
slot, an empty text, a text that is not JSON, and a read that throws. -/
theorem getVisitsList_empty_cases (env : StorageBehaviour) (text : String) :
    getVisitsList env none = .arr [] ∧
    getVisitsList env (some "") = .arr [] ∧
    (JSON.parse text = .error .syntaxError → getVisitsList env (some text) = .arr []) ∧
    (env.getItemThrows = true → getVisitsList env (some text) = .arr []) := by
  refine ⟨getVisitsList_absent env, ?_, ?_, getVisitsList_read_fails env _⟩
  · by_cases h : env.getItemThrows = true
    · exact getVisitsList_read_fails env _ h
    · simp [getVisitsList, getVisitsListBody, getItem, h, bind, Except.bind, pure, Except.pure]
  · intro hparse
    by_cases h : env.getItemThrows = true
    · exact getVisitsList_read_fails env _ h
    · by_cases he : text = ""
      · simp [getVisitsList, getVisitsListBody, getItem, h, he, bind, Except.bind, pure,
          Except.pure]
      · simp [getVisitsList, getVisitsListBody, getItem, h, he, hparse, bind, Except.bind]

/-- On a text that is well-formed JSON, `getVisitsList` answers the parsed value,
whatever its shape. -/
theorem getVisitsList_parsed (text : String) (v : JsVal) (h : JSON.parse text = .ok v) :
    getVisitsList working (some text) = v := by
  have hne : text ≠ "" := by
    rintro rfl
    rw [parse_empty] at h
    cases h
  simp [getVisitsList, getVisitsListBody, getItem, working, hne, h, bind, Except.bind]

/-! ## The claims -/

/-- Claim C1. With working storage and a slot that holds a duplicate-free JSON
array of integers, after two calls of `addToVisitsList(id)` in a row the
identifier occurs exactly once in `getVisitsList()`. -/
theorem add_twice_occurs_once (id : Int) (slot : Slot) (ids : List Int)
    (h : HoldsIds slot ids) (hnd : ids.Nodup) :
    ∃ after : List Int,
      getVisitsList working
          (addToVisitsList working (.int id) (addToVisitsList working (.int id) slot).2).2 =
        .arr (after.map JsVal.num) ∧
      after.count id = 1 := by
  have h1 := getVisitsList_after_add id slot ids (getVisitsList_of_holds slot ids h)
  have h2 := getVisitsList_after_add id _ _ h1
  refine ⟨_, h2, ?_⟩
  by_cases hmem : id ∈ ids
  · simp only [hmem, if_true]
    exact List.count_eq_one_of_mem hnd hmem
  · have hc : ids.count id = 0 := List.count_eq_zero_of_not_mem hmem
    simp [hmem, hc]

theorem add_twice_occurs_once_witness :
    HoldsIds (some "[3, 17]") [3, 17] ∧ [3, 17].Nodup ∧
    ∃ after : List Int,
      getVisitsList working
          (addToVisitsList working (.int 42)
            (addToVisitsList working (.int 42) (some "[3, 17]")).2).2 =
        .arr (after.map JsVal.num) ∧
      after.count 42 = 1 :=
  ⟨Or.inr ⟨"[3, 17]", rfl, rfl⟩, by decide,
    add_twice_occurs_once 42 (some "[3, 17]") [3, 17] (Or.inr ⟨"[3, 17]", rfl, rfl⟩)
      (by decide)⟩

/-- Claim C2. With working storage and a slot that holds a JSON array of
integers, after `addToVisitsList(n)` and then `removeFromVisitsList(s)`, where
`s` is the decimal string of `n`, `isInVisitsList(n)` returns `false`. -/
theorem remove_by_string_after_add (n : Int) (slot : Slot) (ids : List Int)
    (h : HoldsIds slot ids) :
    isInVisitsList working (.int n)
        (removeFromVisitsList working (.str (decimalString n))
          (addToVisitsList working (.int n) slot).2).2 = .ok false := by
  have h1 := getVisitsList_after_add n slot ids (getVisitsList_of_holds slot ids h)
  have h2 := getVisitsList_after_remove (.str (decimalString n)) n _ _ h1
    (idToRemove_decimalString n)
  simp only [isInVisitsList, h2, jsIncludes, any_sameValueZero_ints]
  simp

theorem remove_by_string_after_add_witness :
    HoldsIds (some "[3, 17]") [3, 17] ∧
    isInVisitsList working (.int 7)
        (removeFromVisitsList working (.str (decimalString 7))
          (addToVisitsList working (.int 7) (some "[3, 17]")).2).2 = .ok false :=
  ⟨Or.inr ⟨"[3, 17]", rfl, rfl⟩,
    remove_by_string_after_add 7 (some "[3, 17]") [3, 17] (Or.inr ⟨"[3, 17]", rfl, rfl⟩)⟩

/-- Claim C3. Starting from an absent slot, after every step of every sequence
of `addToVisitsList`, `removeFromVisitsList` and `clearVisitsList` calls with
integer identifiers, whatever the storage does at each call, `getVisitsList()`
is a list of integers in which no identifier occurs more than once. -/
theorem queue_never_has_duplicates (steps : List (StorageBehaviour × QueueOp)) (k : Nat)
    (env : StorageBehaviour) :
    ∃ ids : List Int,
      getVisitsList env (runOps (steps.take k) none) = .arr (ids.map JsVal.num) ∧
      ids.Nodup := by
  obtain ⟨ids, hnd, hread⟩ :=
    canonical_reads _ (canonical_runOps (steps.take k) none (Or.inl rfl)) env
  exact ⟨ids, hread, hnd⟩

/-- Claim C4, at the inputs where the code departs from it. On a slot whose
text is well-formed JSON of another shape, `getVisitsList()` returns the parsed
value and not the empty array: `null`, a number, an object, a string and an
array with elements that are not integers. -/
theorem getVisitsList_returns_non_arrays :
    getVisitsList working (some "null") = .null ∧
    getVisitsList working (some "7") = .num 7 ∧
    getVisitsList working (some "\x7b\"a\":1\x7d") = .obj [("a", .num 1)] ∧
    getVisitsList working (some "\"abc\"") = .str "abc" ∧
    getVisitsList working (some "[\"a\",null]") = .arr [.str "a", .null] :=
  ⟨rfl, rfl, rfl, rfl, rfl⟩

/-- Claim C5, at the inputs where the code departs from it. With the slot
holding the text `null`, `isInVisitsList` and `getVisitsListCount` raise a
`TypeError` to their caller, while `addToVisitsList` and `removeFromVisitsList`
catch it and return `false`. -/
theorem unguarded_readers_raise :
    isInVisitsList working (.int 1) (some "null") = .error .typeError ∧
    getVisitsListCount working (some "null") = .error .typeError ∧
    isInVisitsList working (.int 1) (some "\x7b\x7d") = .error .typeError ∧
    addToVisitsList working (.int 1) (some "null") = (false, some "null") ∧
    removeFromVisitsList working (.int 1) (some "null") = (false, some "null") :=
  ⟨rfl, rfl, rfl, rfl, rfl⟩

/-- Claim C6. With working storage and a slot that holds a JSON array of
integers, `addToVisitsList(id)` returns `true` exactly when `id` was not in the
list; it returns `false` when `id` was present, and `false` under every
storage behaviour in which the write fails. -/
theorem add_returns_whether_new (id : Int) (slot : Slot) (ids : List Int)
    (h : HoldsIds slot ids) :
    ((addToVisitsList working (.int id) slot).1 = true ↔ id ∉ ids) ∧
    (id ∈ ids → (addToVisitsList working (.int id) slot).1 = false) ∧
    (∀ env : StorageBehaviour, env.setItemThrows = true →
      (addToVisitsList env (.int id) slot).1 = false) := by
  have hadd := addToVisitsList_of_reads working id slot ids (getVisitsList_of_holds slot ids h)
  refine ⟨?_, ?_, ?_⟩
  · rw [hadd]
    by_cases hmem : id ∈ ids <;> simp [hmem, working]
  · intro hmem
    rw [hadd]
    simp [hmem]
  · intro env hw
    rw [addToVisitsList_write_fails env (.int id) slot hw]

theorem add_returns_whether_new_witness :
    HoldsIds (some "[3, 17]") [3, 17] ∧
    ((addToVisitsList working (.int 17) (some "[3, 17]")).1 = true ↔ (17 : Int) ∉ [3, 17]) ∧
    ((17 : Int) ∈ [3, 17] → (addToVisitsList working (.int 17) (some "[3, 17]")).1 = false) ∧
    (∀ env : StorageBehaviour, env.setItemThrows = true →
      (addToVisitsList env (.int 17) (some "[3, 17]")).1 = false) :=
  ⟨Or.inr ⟨"[3, 17]", rfl, rfl⟩,
    add_returns_whether_new 17 (some "[3, 17]") [3, 17] (Or.inr ⟨"[3, 17]", rfl, rfl⟩)⟩

/-- Claim C7. With working storage and a slot that holds the list `ids` of
integers, after `addToVisitsList(id)` with `id` not in `ids` the value of
`getVisitsList()` is `ids` followed by `id`; with `id` already in `ids` it is
`ids` unchanged. -/
theorem add_appends_at_end (id : Int) (slot : Slot) (ids : List Int)
    (h : HoldsIds slot ids) :
    (id ∉ ids →
      getVisitsList working (addToVisitsList working (.int id) slot).2 =
        .arr ((ids ++ [id]).map JsVal.num)) ∧
    (id ∈ ids →
      getVisitsList working (addToVisitsList working (.int id) slot).2 =
        .arr (ids.map JsVal.num)) := by
  have h1 := getVisitsList_after_add id slot ids (getVisitsList_of_holds slot ids h)
  constructor
  · intro hmem
    simpa [hmem] using h1
  · intro hmem
    simpa [hmem] using h1

theorem add_appends_at_end_witness :
    HoldsIds (some "[3, 17]") [3, 17] ∧
    ((42 : Int) ∉ [3, 17] →
      getVisitsList working (addToVisitsList working (.int 42) (some "[3, 17]")).2 =
        .arr (([3, 17] ++ [42]).map JsVal.num)) ∧
    ((42 : Int) ∈ [3, 17] →
      getVisitsList working (addToVisitsList working (.int 42) (some "[3, 17]")).2 =
        .arr (([3, 17] : List Int).map JsVal.num)) :=
  ⟨Or.inr ⟨"[3, 17]", rfl, rfl⟩,
    add_appends_at_end 42 (some "[3, 17]") [3, 17] (Or.inr ⟨"[3, 17]", rfl, rfl⟩)⟩

/-- Claim C8. With working storage, for every list `xs` that `getVisitsList()` returns
for the slot and every integer `n`, `removeFromVisitsList` called with `n` or with its
decimal string returns `true` and writes the text of `xs` without the elements `e`
whose number `Number(e)` is `n`, the others in their order; when the elements of
`xs` are scalars (integers, strings, booleans and `null`, mixed in any way),
`getVisitsList()` afterwards is that list. The number of an integer element `k` and
of the decimal string of `k` is `k`, so both forms of the identifier are
removed. -/
theorem remove_drops_all_equal (n : Int) (slot : Slot) (xs : List JsVal)
    (hread : getVisitsList working slot = .arr xs) :
    removeFromVisitsList working (.int n) slot
        = (true, some (JSON.stringify
            (.arr (xs.filter (fun e => decide (Number e ≠ .int n)))))) ∧
      removeFromVisitsList working (.str (decimalString n)) slot
        = (true, some (JSON.stringify
            (.arr (xs.filter (fun e => decide (Number e ≠ .int n)))))) ∧
      ((∀ x ∈ xs, isScalar x = true) →
        getVisitsList working (removeFromVisitsList working (.int n) slot).2
            = .arr (xs.filter (fun e => decide (Number e ≠ .int n))) ∧
          getVisitsList working
              (removeFromVisitsList working (.str (decimalString n)) slot).2
            = .arr (xs.filter (fun e => decide (Number e ≠ .int n)))) ∧
      (∀ k : Int, Number (.num k) = .int k ∧ Number (.str (decimalString k)) = .int k) := by
  have hint := removeFromVisitsList_of_list (.int n) n slot xs hread rfl
  have hstr := removeFromVisitsList_of_list (.str (decimalString n)) n slot xs hread
    (idToRemove_decimalString n)
  refine ⟨hint, hstr, fun hscalar => ?_, fun k => ⟨rfl, stringToNumber_decimalString k⟩⟩
  have hkept : ∀ y ∈ xs.filter (fun e => decide (Number e ≠ .int n)), isScalar y = true :=
    fun y hy => hscalar y (List.mem_of_mem_filter hy)
  rw [hint, hstr]
  exact ⟨getVisitsList_stringify_scalars _ hkept, getVisitsList_stringify_scalars _ hkept⟩

/-- The instance of claim C8 at the slot text `["7", 7, "x", 9, 7]` and the identifier
7: the string `"7"` and both numbers 7 are removed, `"x"` and 9 stay in their
order. -/
theorem remove_drops_all_equal_witness :
    getVisitsList working (some "[\"7\", 7, \"x\", 9, 7]")
        = .arr [.str "7", .num 7, .str "x", .num 9, .num 7] ∧
      (∀ x ∈ [JsVal.str "7", .num 7, .str "x", .num 9, .num 7], isScalar x = true) ∧
      removeFromVisitsList working (.int 7) (some "[\"7\", 7, \"x\", 9, 7]")
        = (true, some "[\"x\",9]") ∧
      getVisitsList working
          (removeFromVisitsList working (.int 7) (some "[\"7\", 7, \"x\", 9, 7]")).2
        = .arr [.str "x", .num 9] ∧
      getVisitsList working
          (removeFromVisitsList working (.str (decimalString 7))
            (some "[\"7\", 7, \"x\", 9, 7]")).2
        = .arr [.str "x", .num 9] := by
  have hscalar : ∀ x ∈ [JsVal.str "7", .num 7, .str "x", .num 9, .num 7],
      isScalar x = true := by
    intro x hx
    simp only [List.mem_cons, List.mem_singleton, List.not_mem_nil, or_false] at hx
    rcases hx with rfl | rfl | rfl | rfl | rfl <;> rfl
  have h := remove_drops_all_equal 7 (some "[\"7\", 7, \"x\", 9, 7]")
    [.str "7", .num 7, .str "x", .num 9, .num 7] rfl
  exact ⟨rfl, hscalar, h.1, (h.2.2.1 hscalar).1, (h.2.2.1 hscalar).2⟩

/-- Claim C9. With working storage and a slot that holds the list `ids` of
integers, `removeFromVisitsList` called with an identifier that is not in
`ids`, as an integer or as its decimal string, returns `true` and leaves
`getVisitsList()` equal to `ids`. -/
theorem remove_absent_returns_true (n : Int) (slot : Slot) (ids : List Int)
    (h : HoldsIds slot ids) (hn : n ∉ ids) :
    (removeFromVisitsList working (.int n) slot).1 = true ∧
    getVisitsList working (removeFromVisitsList working (.int n) slot).2 =
      .arr (ids.map JsVal.num) ∧
    (removeFromVisitsList working (.str (decimalString n)) slot).1 = true ∧
    getVisitsList working (removeFromVisitsList working (.str (decimalString n)) slot).2 =
      .arr (ids.map JsVal.num) := by
  have hread := getVisitsList_of_holds slot ids h
  have hi := getVisitsList_after_remove (.int n) n slot ids hread rfl
  have hs := getVisitsList_after_remove (.str (decimalString n)) n slot ids hread
    (idToRemove_decimalString n)
  rw [filter_ne_of_not_mem ids n hn] at hi hs
  refine ⟨?_, hi, ?_, hs⟩
  · rw [removeFromVisitsList_of_reads working (.int n) n slot ids hread rfl]
    simp [working]
  · rw [removeFromVisitsList_of_reads working _ n slot ids hread (idToRemove_decimalString n)]
    simp [working]

theorem remove_absent_returns_true_witness :
    HoldsIds (some "[3, 17]") [3, 17] ∧ (9 : Int) ∉ [3, 17] ∧
    (removeFromVisitsList working (.int 9) (some "[3, 17]")).1 = true ∧
    getVisitsList working (removeFromVisitsList working (.int 9) (some "[3, 17]")).2 =
      .arr (([3, 17] : List Int).map JsVal.num) ∧
    (removeFromVisitsList working (.str (decimalString 9)) (some "[3, 17]")).1 = true ∧
    getVisitsList working
        (removeFromVisitsList working (.str (decimalString 9)) (some "[3, 17]")).2 =
      .arr (([3, 17] : List Int).map JsVal.num) :=
  ⟨Or.inr ⟨"[3, 17]", rfl, rfl⟩, by decide,
    remove_absent_returns_true 9 (some "[3, 17]") [3, 17] (Or.inr ⟨"[3, 17]", rfl, rfl⟩)
      (by decide)⟩

/-- Claim C10. Under every storage behaviour in which `setItem` throws, for
every identifier and every slot content, `addToVisitsList` and
`removeFromVisitsList` return `false` without raising, the slot is as it was,
and so `getVisitsList()` returns what it returned before the call. -/
theorem failed_write_changes_nothing (env : StorageBehaviour) (childId : ChildId) (slot : Slot)
    (hw : env.setItemThrows = true) :
    addToVisitsList env childId slot = (false, slot) ∧
    removeFromVisitsList env childId slot = (false, slot) ∧
    (∀ reader : StorageBehaviour,
      getVisitsList reader (addToVisitsList env childId slot).2 = getVisitsList reader slot ∧
      getVisitsList reader (removeFromVisitsList env childId slot).2 =
        getVisitsList reader slot) := by
  have ha := addToVisitsList_write_fails env childId slot hw
  have hr := removeFromVisitsList_write_fails env childId slot hw
  refine ⟨ha, hr, fun reader => ?_⟩
  rw [ha, hr]
  exact ⟨rfl, rfl⟩

theorem failed_write_changes_nothing_witness :
    quotaExceeded.setItemThrows = true ∧
    addToVisitsList quotaExceeded (.int 42) (some "[3, 17]") = (false, some "[3, 17]") ∧
    removeFromVisitsList quotaExceeded (.int 42) (some "[3, 17]") = (false, some "[3, 17]") ∧
    (∀ reader : StorageBehaviour,
      getVisitsList reader (addToVisitsList quotaExceeded (.int 42) (some "[3, 17]")).2 =
        getVisitsList reader (some "[3, 17]") ∧
      getVisitsList reader (removeFromVisitsList quotaExceeded (.int 42) (some "[3, 17]")).2 =
        getVisitsList reader (some "[3, 17]")) :=
  ⟨rfl, failed_write_changes_nothing quotaExceeded (.int 42) (some "[3, 17]") rfl⟩

/-! ## The visit pages: supporting facts -/

theorem jsLength_ints (ids : List Int) :
    jsLength (.arr (ids.map JsVal.num)) = .ok (.num (Int.ofNat ids.length)) := by
  simp [jsLength]

theorem filterMap_fetch_ints (fetch : JsVal → Option Child) (ids : List Int) :
    (ids.map JsVal.num).filterMap fetch = ids.filterMap (fun id => fetch (.num id)) := by
  rw [List.filterMap_map]
  rfl

/-- The effect of `loadVisitsList` when the queue read is a list of integers: the
identifiers are stored, the records of the fetches that succeeded are displayed
in queue order, and the slot is as before. -/
theorem loadVisitsList_of_reads (env : StorageBehaviour) (fetch : JsVal → Option Child)
    (s : VisitsList.State) (slot : Slot) (ids : List Int)
    (h : getVisitsList env slot = .arr (ids.map JsVal.num)) :
    VisitsList.loadVisitsList env fetch (s, slot) =
      ({ s with
          visitsListIds := .arr (ids.map JsVal.num)
          children := ids.filterMap (fun id => fetch (.num id)) }, slot) := by
  cases ids with
  | nil =>
    simp [VisitsList.loadVisitsList, h, jsLength, greaterThanZero]
  | cons x xs =>
    have hlen : greaterThanZero (.num (Int.ofNat (x :: xs).length)) = true := by
      simp only [greaterThanZero, List.length_cons, decide_eq_true_eq]
      exact Int.ofNat_lt.mpr (Nat.succ_pos _)
    have hfm := filterMap_fetch_ints fetch (x :: xs)
    simp only [VisitsList.loadVisitsList, h, jsLength_ints, hlen, if_true]
    rw [hfm]

/-- The settled state of the queue page after `handleSubmitVisit` had its visit
accepted, when the queue read is a list of integers and the storage works. -/
theorem queue_page_submit_settle_resolved (fetch : JsVal → Option Child) (c : Child)
    (s : VisitsList.State) (slot : Slot) (ids : List Int) (h : HoldsIds slot ids) :
    getVisitsList working
        (VisitsList.handleSubmitVisitSettle working fetch c .resolved (s, slot)).2 =
      .arr ((ids.filter (fun x => decide (x ≠ c.id))).map JsVal.num) ∧
    (VisitsList.handleSubmitVisitSettle working fetch c .resolved (s, slot)).1.showLocationModal
      = false ∧
    (VisitsList.handleSubmitVisitSettle working fetch c .resolved (s, slot)).1.snackbar =
      { isOpen := true, message := "visitations.visitRecorded", severity := .success } := by
  have hread := getVisitsList_of_holds slot ids h
  have hrem := getVisitsList_after_remove (.int c.id) c.id slot ids hread rfl
  refine ⟨?_, ?_, ?_⟩ <;>
    simp [VisitsList.handleSubmitVisitSettle,
      loadVisitsList_of_reads working fetch _ _ _ hrem, VisitsList.showSnackbar, hrem]

/-- The settled state of the queue page after `handleCancelVisit` had its visit
accepted, when the queue read is a list of integers and the storage works. -/
theorem queue_page_cancel_settle_resolved (fetch : JsVal → Option Child) (c : Child)
    (s : VisitsList.State) (slot : Slot) (ids : List Int) (h : HoldsIds slot ids) :
    getVisitsList working
        (VisitsList.handleCancelVisitSettle working fetch c .resolved (s, slot)).2 =
      .arr ((ids.filter (fun x => decide (x ≠ c.id))).map JsVal.num) ∧
    (VisitsList.handleCancelVisitSettle working fetch c .resolved (s, slot)).1.showLocationModal
      = false ∧
    (VisitsList.handleCancelVisitSettle working fetch c .resolved (s, slot)).1.snackbar =
      { isOpen := true, message := "visitations.visitRecorded", severity := .success } := by
  have hread := getVisitsList_of_holds slot ids h
  have hrem := getVisitsList_after_remove (.int c.id) c.id slot ids hread rfl
  refine ⟨?_, ?_, ?_⟩ <;>
    simp [VisitsList.handleCancelVisitSettle,
      loadVisitsList_of_reads working fetch _ _ _ hrem, VisitsList.showSnackbar, hrem]

/-- On the queue page, opening the dialog for a child whose stored latitude and
longitude are both present and not 0 centres the map on them. -/
theorem queue_page_visit_with_location (child : Child) (s : VisitsList.State)
    (lat lng : ℚ) (hlat : child.latitude = some lat) (hlng : child.longitude = some lng)
    (h1 : lat ≠ 0) (h2 : lng ≠ 0) :
    (VisitsList.handleVisit child s).mapPosition = (lat, lng) := by
  simp [VisitsList.handleVisit, coordTruthy, hlat, hlng, h1, h2]

/-- On the Visitations page, opening the dialog for a child whose stored
latitude and longitude are both present and not 0 centres the map on them. -/
theorem direct_page_visit_with_location (child : Child) (s : Visitations.State)
    (lat lng : ℚ) (hlat : child.latitude = some lat) (hlng : child.longitude = some lng)
    (h1 : lat ≠ 0) (h2 : lng ≠ 0) :
    (Visitations.handleVisit child s).mapPosition = (lat, lng) := by
  simp [Visitations.handleVisit, coordTruthy, hlat, hlng, h1, h2]

/-- On the queue page, opening the dialog for a child with no stored location
centres the map on the default, whatever the state before. -/
theorem queue_page_visit_without_location (child : Child) (s : VisitsList.State)
    (h : child.latitude = none ∨ child.longitude = none) :
    (VisitsList.handleVisit child s).mapPosition = defaultCenter := by
  rcases h with h | h
  · simp [VisitsList.handleVisit, coordTruthy, h]
  · cases hl : child.latitude <;> simp [VisitsList.handleVisit, coordTruthy, h, hl]

/-- On the Visitations page, opening the dialog for a child with no stored
location leaves the map centre as it was. -/
theorem direct_page_visit_without_location (child : Child) (s : Visitations.State)
    (h : child.latitude = none ∨ child.longitude = none) :
    (Visitations.handleVisit child s).mapPosition = s.mapPosition := by
  rcases h with h | h
  · simp [Visitations.handleVisit, coordTruthy, h]
  · cases hl : child.latitude <;> simp [Visitations.handleVisit, coordTruthy, h, hl]

/-! ## The claims on the visit pages -/

/-- Claim C11. On the visits-queue page with working storage, for every
persisted queue `ids` and every selected child `c`, when `POST /visits`
resolves - from the record button (`handleSubmitVisit`) or from the
skip-location button (`handleCancelVisit`) - the persisted queue is `ids`
without `c.id`, the dialog is closed and the success notification is shown. -/
theorem successful_visit_dequeues (fetch : JsVal → Option Child) (c : Child)
    (s : VisitsList.State) (slot : Slot) (ids : List Int) (h : HoldsIds slot ids)
    (hc : s.selectedChild = some c) :
    getVisitsList working
        (VisitsList.handleSubmitVisit working fetch .resolved (s, slot)).2.2 =
      .arr ((ids.filter (fun x => decide (x ≠ c.id))).map JsVal.num) ∧
    (VisitsList.handleSubmitVisit working fetch .resolved (s, slot)).2.1.showLocationModal
      = false ∧
    (VisitsList.handleSubmitVisit working fetch .resolved (s, slot)).2.1.snackbar =
      { isOpen := true, message := "visitations.visitRecorded", severity := .success } ∧
    getVisitsList working
        (VisitsList.handleCancelVisit working fetch .resolved (s, slot)).2.2 =
      .arr ((ids.filter (fun x => decide (x ≠ c.id))).map JsVal.num) ∧
    (VisitsList.handleCancelVisit working fetch .resolved (s, slot)).2.1.showLocationModal
      = false ∧
    (VisitsList.handleCancelVisit working fetch .resolved (s, slot)).2.1.snackbar =
      { isOpen := true, message := "visitations.visitRecorded", severity := .success } := by
  simp only [VisitsList.handleSubmitVisit, VisitsList.handleCancelVisit, hc]
  obtain ⟨a1, a2, a3⟩ := queue_page_submit_settle_resolved fetch c
    (VisitsList.handleSubmitVisitStart s).2 slot ids h
  obtain ⟨b1, b2, b3⟩ := queue_page_cancel_settle_resolved fetch c
    (VisitsList.handleCancelVisitStart s).2 slot ids h
  exact ⟨a1, a2, a3, b1, b2, b3⟩

theorem successful_visit_dequeues_witness :
    HoldsIds (some "[5, 9]") [5, 9] ∧
    (VisitsList.handleVisit childFive VisitsList.initialState).selectedChild = some childFive ∧
    getVisitsList working
        (VisitsList.handleSubmitVisit working (fun _ => none) .resolved
          (VisitsList.handleVisit childFive VisitsList.initialState, some "[5, 9]")).2.2 =
      .arr [.num 9] ∧
    getVisitsList working
        (VisitsList.handleCancelVisit working (fun _ => none) .resolved
          (VisitsList.handleVisit childFive VisitsList.initialState, some "[5, 9]")).2.2 =
      .arr [.num 9] :=
  ⟨Or.inr ⟨"[5, 9]", rfl, rfl⟩, rfl,
    (successful_visit_dequeues (fun _ => none) childFive
      (VisitsList.handleVisit childFive VisitsList.initialState) (some "[5, 9]") [5, 9]
      (Or.inr ⟨"[5, 9]", rfl, rfl⟩) rfl).1,
    (successful_visit_dequeues (fun _ => none) childFive
      (VisitsList.handleVisit childFive VisitsList.initialState) (some "[5, 9]") [5, 9]
      (Or.inr ⟨"[5, 9]", rfl, rfl⟩) rfl).2.2.2.1⟩

/-- Claim C12. On the visits-queue page, for every open draft and every slot,
under every storage behaviour, when `POST /visits` rejects - from either
button - the dialog stays open, the notes, the captured location, the toggle
and the selected child are unchanged, the slot is unchanged, the error
notification is shown and `loading` is `false` again. -/
theorem failed_visit_keeps_draft (env : StorageBehaviour) (fetch : JsVal → Option Child)
    (c : Child) (s : VisitsList.State) (slot : Slot) (hc : s.selectedChild = some c)
    (hopen : s.showLocationModal = true) :
    (VisitsList.handleSubmitVisit env fetch .rejected (s, slot)).2 =
      ({ s with
          loading := false
          snackbar := { isOpen := true, message := "common.error", severity := .error } },
        slot) ∧
    (VisitsList.handleCancelVisit env fetch .rejected (s, slot)).2 =
      ({ s with
          loading := false
          snackbar := { isOpen := true, message := "common.error", severity := .error } },
        slot) ∧
    (VisitsList.handleSubmitVisit env fetch .rejected (s, slot)).2.1.showLocationModal = true ∧
    (VisitsList.handleSubmitVisit env fetch .rejected (s, slot)).2.1.notes = s.notes ∧
    (VisitsList.handleSubmitVisit env fetch .rejected (s, slot)).2.1.location = s.location ∧
    (VisitsList.handleSubmitVisit env fetch .rejected (s, slot)).2.1.saveLocation
      = s.saveLocation ∧
    (VisitsList.handleSubmitVisit env fetch .rejected (s, slot)).2.1.selectedChild = some c ∧
    (VisitsList.handleSubmitVisit env fetch .rejected (s, slot)).2.1.loading = false := by
  have hsub : (VisitsList.handleSubmitVisit env fetch .rejected (s, slot)).2 =
      ({ s with
          loading := false
          snackbar := { isOpen := true, message := "common.error", severity := .error } },
        slot) := by
    simp [VisitsList.handleSubmitVisit, VisitsList.handleSubmitVisitStart,
      VisitsList.handleSubmitVisitSettle, VisitsList.showSnackbar, hc]
  have hcan : (VisitsList.handleCancelVisit env fetch .rejected (s, slot)).2 =
      ({ s with
          loading := false
          snackbar := { isOpen := true, message := "common.error", severity := .error } },
        slot) := by
    simp [VisitsList.handleCancelVisit, VisitsList.handleCancelVisitStart,
      VisitsList.handleCancelVisitSettle, VisitsList.showSnackbar, hc]
  refine ⟨hsub, hcan, ?_, ?_, ?_, ?_, ?_, ?_⟩ <;> rw [hsub] <;> simp [hopen, hc]

theorem failed_visit_keeps_draft_witness :
    (VisitsList.applyEvent (.setNotes "checked in")
        (VisitsList.handleVisit childFive VisitsList.initialState)).selectedChild
      = some childFive ∧
    (VisitsList.handleSubmitVisit quotaExceeded (fun _ => none) .rejected
        (VisitsList.applyEvent (.setNotes "checked in")
          (VisitsList.handleVisit childFive VisitsList.initialState), some "[5, 9]")).2.1.notes
      = "checked in" ∧
    (VisitsList.handleSubmitVisit quotaExceeded (fun _ => none) .rejected
        (VisitsList.applyEvent (.setNotes "checked in")
          (VisitsList.handleVisit childFive VisitsList.initialState), some "[5, 9]")).2.2
      = some "[5, 9]" :=
  ⟨rfl,
    (failed_visit_keeps_draft quotaExceeded (fun _ => none) childFive
      (VisitsList.applyEvent (.setNotes "checked in")
        (VisitsList.handleVisit childFive VisitsList.initialState))
      (some "[5, 9]") rfl rfl).2.2.2.1,
    congrArg Prod.snd
      (failed_visit_keeps_draft quotaExceeded (fun _ => none) childFive
        (VisitsList.applyEvent (.setNotes "checked in")
          (VisitsList.handleVisit childFive VisitsList.initialState))
        (some "[5, 9]") rfl rfl).1⟩

/-- Claim C13. On both pages, for every draft with a selected child - whatever
the captured location and the toggle - the skip-location action
(`handleCancelVisit`) posts a body with the child's id and the notes, without
`visitLatitude`, without `visitLongitude`, and with `saveLocationToChild`
false. -/
theorem skip_location_posts_no_coordinates (s : VisitsList.State) (t : Visitations.State)
    (c d : Child) (hs : s.selectedChild = some c) (ht : t.selectedChild = some d) :
    (VisitsList.handleCancelVisitStart s).1 =
      some { childId := c.id, notes := s.notes, visitLatitude := none, visitLongitude := none,
             saveLocationToChild := false } ∧
    (Visitations.handleCancelVisitStart t).1 =
      some { childId := d.id, notes := t.notes, visitLatitude := none, visitLongitude := none,
             saveLocationToChild := false } := by
  simp [VisitsList.handleCancelVisitStart, VisitsList.cancelBody,
    Visitations.handleCancelVisitStart, Visitations.cancelBody, hs, ht]

theorem skip_location_posts_no_coordinates_witness :
    (VisitsList.runEvents [.visit childFive, .setSaveLocation true, .mapClick 30 31]
        VisitsList.initialState).location = some { latitude := 30, longitude := 31 } ∧
    (VisitsList.runEvents [.visit childFive, .setSaveLocation true, .mapClick 30 31]
        VisitsList.initialState).saveLocation = true ∧
    (VisitsList.handleCancelVisitStart
        (VisitsList.runEvents [.visit childFive, .setSaveLocation true, .mapClick 30 31]
          VisitsList.initialState)).1 =
      some { childId := 5, notes := "", visitLatitude := none, visitLongitude := none,
             saveLocationToChild := false } ∧
    (Visitations.handleCancelVisitStart
        (Visitations.runEvents [.visit childFive, .setSaveLocation true, .mapClick 30 31]
          Visitations.initialState)).1 =
      some { childId := 5, notes := "", visitLatitude := none, visitLongitude := none,
             saveLocationToChild := false } :=
  ⟨rfl, rfl,
    skip_location_posts_no_coordinates
      (VisitsList.runEvents [.visit childFive, .setSaveLocation true, .mapClick 30 31]
        VisitsList.initialState)
      (Visitations.runEvents [.visit childFive, .setSaveLocation true, .mapClick 30 31]
        Visitations.initialState)
      childFive childFive rfl rfl⟩

/-- Claim C14 fails on the code. In the state reached by opening the dialog and
checking the set-location box, with no coordinate captured, the
record-with-location action issues a `POST /visits` request on both pages. -/
theorem submit_without_coordinate_posts :
    (VisitsList.runEvents [.visit childFive, .setSaveLocation true]
        VisitsList.initialState).saveLocation = true ∧
    (VisitsList.runEvents [.visit childFive, .setSaveLocation true]
        VisitsList.initialState).location = none ∧
    (VisitsList.handleSubmitVisitStart
        (VisitsList.runEvents [.visit childFive, .setSaveLocation true]
          VisitsList.initialState)).1 ≠ none ∧
    (Visitations.handleSubmitVisitStart
        (Visitations.runEvents [.visit childFive, .setSaveLocation true]
          Visitations.initialState)).1 ≠ none :=
  ⟨rfl, rfl, by decide, by decide⟩

/-- Claim C14, amended. On both pages, with a child selected and no coordinate
captured, the record-with-location action does issue `POST /visits`, also when
the toggle is on: the body has the child's id and the notes, no
`visitLatitude`, no `visitLongitude`, and `saveLocationToChild` false. -/
theorem submit_without_coordinate_body (s : VisitsList.State) (t : Visitations.State)
    (c d : Child) (hs : s.selectedChild = some c) (ht : t.selectedChild = some d)
    (hsloc : s.location = none) (htloc : t.location = none) :
    (VisitsList.handleSubmitVisitStart s).1 =
      some { childId := c.id, notes := s.notes, visitLatitude := none, visitLongitude := none,
             saveLocationToChild := false } ∧
    (Visitations.handleSubmitVisitStart t).1 =
      some { childId := d.id, notes := t.notes, visitLatitude := none, visitLongitude := none,
             saveLocationToChild := false } := by
  simp [VisitsList.handleSubmitVisitStart, VisitsList.submitBody,
    Visitations.handleSubmitVisitStart, Visitations.submitBody, hs, ht, hsloc, htloc]

theorem submit_without_coordinate_body_witness :
    (VisitsList.runEvents [.visit childFive, .setSaveLocation true]
        VisitsList.initialState).saveLocation = true ∧
    (Visitations.runEvents [.visit childFive, .setSaveLocation true]
        Visitations.initialState).saveLocation = true ∧
    (VisitsList.handleSubmitVisitStart
        (VisitsList.runEvents [.visit childFive, .setSaveLocation true]
          VisitsList.initialState)).1 =
      some { childId := 5, notes := "", visitLatitude := none, visitLongitude := none,
             saveLocationToChild := false } ∧
    (Visitations.handleSubmitVisitStart
        (Visitations.runEvents [.visit childFive, .setSaveLocation true]
          Visitations.initialState)).1 =
      some { childId := 5, notes := "", visitLatitude := none, visitLongitude := none,
             saveLocationToChild := false } :=
  ⟨rfl, rfl,
    submit_without_coordinate_body
      (VisitsList.runEvents [.visit childFive, .setSaveLocation true] VisitsList.initialState)
      (Visitations.runEvents [.visit childFive, .setSaveLocation true]
        Visitations.initialState)
      childFive childFive rfl rfl rfl rfl⟩

/-- Claim C15 fails on the code. After opening the dialog, checking the
set-location box, clicking the map at (30, 31) and unchecking the box, the
toggle is off and the record-with-location action posts `visitLatitude` 30
and `visitLongitude` 31. -/
theorem toggle_off_still_posts_coordinate :
    (VisitsList.runEvents
        [.visit childFive, .setSaveLocation true, .mapClick 30 31, .setSaveLocation false]
        VisitsList.initialState).saveLocation = false ∧
    (VisitsList.handleSubmitVisitStart
        (VisitsList.runEvents
          [.visit childFive, .setSaveLocation true, .mapClick 30 31, .setSaveLocation false]
          VisitsList.initialState)).1 =
      some { childId := 5, notes := "", visitLatitude := some 30, visitLongitude := some 31,
             saveLocationToChild := false } :=
  ⟨rfl, rfl⟩

/-- Claim C15, amended. With a child selected and the toggle off at the moment
of submission, the record-with-location action posts `saveLocationToChild`
false and the coordinate held in `location`: `visitLatitude` and
`visitLongitude` are absent exactly when no coordinate has been captured since
the dialog was opened, and a coordinate captured while the toggle was on is
posted. -/
theorem toggle_off_posts_captured (s : VisitsList.State) (c : Child)
    (hs : s.selectedChild = some c) (hoff : s.saveLocation = false) :
    (VisitsList.handleSubmitVisitStart s).1 =
      some { childId := c.id, notes := s.notes,
             visitLatitude := s.location.map (fun l => l.latitude),
             visitLongitude := s.location.map (fun l => l.longitude),
             saveLocationToChild := false } ∧
    (∀ body, (VisitsList.handleSubmitVisitStart s).1 = some body →
      ((body.visitLatitude = none ∧ body.visitLongitude = none) ↔ s.location = none)) := by
  have hstart : (VisitsList.handleSubmitVisitStart s).1 =
      some { childId := c.id, notes := s.notes,
             visitLatitude := s.location.map (fun l => l.latitude),
             visitLongitude := s.location.map (fun l => l.longitude),
             saveLocationToChild := false } := by
    simp [VisitsList.handleSubmitVisitStart, VisitsList.submitBody, hs, hoff]
  refine ⟨hstart, ?_⟩
  intro body hbody
  rw [hstart] at hbody
  cases hbody
  cases s.location <;> simp

theorem toggle_off_posts_captured_witness :
    (VisitsList.handleSubmitVisitStart
        (VisitsList.runEvents
          [.visit childFive, .setSaveLocation true, .mapClick 30 31, .setSaveLocation false]
          VisitsList.initialState)).1 =
      some { childId := 5, notes := "", visitLatitude := some 30, visitLongitude := some 31,
             saveLocationToChild := false } :=
  (toggle_off_posts_captured
    (VisitsList.runEvents
      [.visit childFive, .setSaveLocation true, .mapClick 30 31, .setSaveLocation false]
      VisitsList.initialState)
    childFive rfl rfl).1

/-- Claim C16. On both pages, for every draft with a selected child, the body
`handleSubmitVisit` posts has `saveLocationToChild` true if and only if the
toggle is on and a coordinate has been captured. -/
theorem save_flag_iff_toggle_and_coordinate (s : VisitsList.State) (t : Visitations.State)
    (c d : Child) (hs : s.selectedChild = some c) (ht : t.selectedChild = some d) :
    (∃ body, (VisitsList.handleSubmitVisitStart s).1 = some body ∧
      (body.saveLocationToChild = true ↔ (s.saveLocation = true ∧ s.location ≠ none))) ∧
    (∃ body, (Visitations.handleSubmitVisitStart t).1 = some body ∧
      (body.saveLocationToChild = true ↔ (t.saveLocation = true ∧ t.location ≠ none))) := by
  refine ⟨⟨VisitsList.submitBody s c, ?_, ?_⟩, ⟨Visitations.submitBody t d, ?_, ?_⟩⟩
  · simp [VisitsList.handleSubmitVisitStart, hs]
  · simp [VisitsList.submitBody, Option.isSome_iff_ne_none]
  · simp [Visitations.handleSubmitVisitStart, ht]
  · simp [Visitations.submitBody, Option.isSome_iff_ne_none]

theorem save_flag_iff_toggle_and_coordinate_witness :
    (∃ body,
      (VisitsList.handleSubmitVisitStart
        (VisitsList.runEvents [.visit childFive, .setSaveLocation true]
          VisitsList.initialState)).1 = some body ∧
      (body.saveLocationToChild = true ↔
        ((VisitsList.runEvents [.visit childFive, .setSaveLocation true]
            VisitsList.initialState).saveLocation = true ∧
          (VisitsList.runEvents [.visit childFive, .setSaveLocation true]
            VisitsList.initialState).location ≠ none))) ∧
    (∃ body,
      (Visitations.handleSubmitVisitStart
        (Visitations.runEvents [.visit childFive, .setSaveLocation true, .mapClick 30 31]
          Visitations.initialState)).1 = some body ∧
      (body.saveLocationToChild = true ↔
        ((Visitations.runEvents [.visit childFive, .setSaveLocation true, .mapClick 30 31]
            Visitations.initialState).saveLocation = true ∧
          (Visitations.runEvents [.visit childFive, .setSaveLocation true, .mapClick 30 31]
            Visitations.initialState).location ≠ none))) :=
  save_flag_iff_toggle_and_coordinate
    (VisitsList.runEvents [.visit childFive, .setSaveLocation true] VisitsList.initialState)
    (Visitations.runEvents [.visit childFive, .setSaveLocation true, .mapClick 30 31]
      Visitations.initialState)
    childFive childFive rfl rfl

/-- Claim C17, at the input where the code departs from it. On the Visitations
page, with the queue [5, 9] persisted and child 5 selected, a visit accepted by
the server - from either button - leaves the slot as it was: 5 is still in
the queue. On the queue page the same visit removes it. -/
theorem direct_visit_leaves_queue :
    (Visitations.handleSubmitVisit .resolved
        (Visitations.handleVisit childFive Visitations.initialState, some "[5, 9]")).1 ≠ none ∧
    (Visitations.handleSubmitVisit .resolved
        (Visitations.handleVisit childFive Visitations.initialState, some "[5, 9]")).2.2
      = some "[5, 9]" ∧
    (Visitations.handleCancelVisit .resolved
        (Visitations.handleVisit childFive Visitations.initialState, some "[5, 9]")).2.2
      = some "[5, 9]" ∧
    isInVisitsList working (.int 5)
        (Visitations.handleSubmitVisit .resolved
          (Visitations.handleVisit childFive Visitations.initialState, some "[5, 9]")).2.2
      = .ok true ∧
    isInVisitsList working (.int 5)
        (VisitsList.handleSubmitVisit working (fun _ => none) .resolved
          (VisitsList.handleVisit childFive VisitsList.initialState, some "[5, 9]")).2.2
      = .ok false :=
  ⟨by decide, rfl, rfl, rfl, rfl⟩

/-- Claim C18. With working storage, for every persisted queue `ids` and every
assignment `fetch` of a record or a failure to the identifiers,
`loadVisitsList` displays the records of the identifiers whose fetch
succeeded, in queue order, and leaves the slot as it was. -/
theorem load_shows_fetched_children (fetch : JsVal → Option Child) (s : VisitsList.State)
    (slot : Slot) (ids : List Int) (h : HoldsIds slot ids) :
    (VisitsList.loadVisitsList working fetch (s, slot)).1.children =
      ids.filterMap (fun id => fetch (.num id)) ∧
    (VisitsList.loadVisitsList working fetch (s, slot)).1.visitsListIds =
      .arr (ids.map JsVal.num) ∧
    (VisitsList.loadVisitsList working fetch (s, slot)).2 = slot ∧
    getVisitsList working (VisitsList.loadVisitsList working fetch (s, slot)).2 =
      .arr (ids.map JsVal.num) := by
  have hread := getVisitsList_of_holds slot ids h
  rw [loadVisitsList_of_reads working fetch s slot ids hread]
  exact ⟨rfl, rfl, rfl, hread⟩

theorem load_shows_fetched_children_witness :
    HoldsIds (some "[1,2,3]") [1, 2, 3] ∧
    (VisitsList.loadVisitsList working fetchAllButTwo
        (VisitsList.initialState, some "[1,2,3]")).1.children =
      [{ id := 1, fullName := "One", latitude := none, longitude := none },
       { id := 3, fullName := "Three", latitude := none, longitude := none }] ∧
    getVisitsList working
        (VisitsList.loadVisitsList working fetchAllButTwo
          (VisitsList.initialState, some "[1,2,3]")).2 = .arr [.num 1, .num 2, .num 3] :=
  ⟨Or.inr ⟨"[1,2,3]", rfl, rfl⟩,
    (load_shows_fetched_children fetchAllButTwo VisitsList.initialState (some "[1,2,3]")
      [1, 2, 3] (Or.inr ⟨"[1,2,3]", rfl, rfl⟩)).1,
    (load_shows_fetched_children fetchAllButTwo VisitsList.initialState (some "[1,2,3]")
      [1, 2, 3] (Or.inr ⟨"[1,2,3]", rfl, rfl⟩)).2.2.2⟩

/-- Claim C19, at the input where the code departs from it. For a child stored
at latitude 0 and longitude 31, opening the dialog does not centre the map on
(0, 31): the queue page centres it on the default and the Visitations page
leaves the centre it had. -/
theorem equator_child_not_centred :
    childEquator.latitude = some 0 ∧ childEquator.longitude = some 31 ∧
    (VisitsList.handleVisit childEquator VisitsList.initialState).mapPosition
      = defaultCenter ∧
    (VisitsList.handleVisit childEquator VisitsList.initialState).mapPosition ≠ (0, 31) ∧
    (Visitations.handleVisit childEquator
        (Visitations.handleVisit childNine Visitations.initialState)).mapPosition
      = (30, 31) := by
  refine ⟨rfl, rfl, rfl, ?_, rfl⟩
  have h : (VisitsList.handleVisit childEquator VisitsList.initialState).mapPosition
      = defaultCenter := rfl
  rw [h]
  norm_num [defaultCenter]

/-- Claim C20, at the input where the code departs from it. On the Visitations
page, after a dialog for a child stored at (30, 31) has been closed, opening
the dialog for a child without a stored location leaves the map centred on
(30, 31), not on the default. The queue page resets it to the default. -/
theorem direct_page_keeps_old_centre :
    childFive.latitude = none ∧
    (Visitations.runEvents [.visit childNine, .close, .visit childFive]
        Visitations.initialState).mapPosition = (30, 31) ∧
    (Visitations.runEvents [.visit childNine, .close, .visit childFive]
        Visitations.initialState).mapPosition ≠ defaultCenter ∧
    (VisitsList.runEvents [.visit childNine, .close, .visit childFive]
        VisitsList.initialState).mapPosition = defaultCenter := by
  have h : (Visitations.runEvents [.visit childNine, .close, .visit childFive]
      Visitations.initialState).mapPosition = (30, 31) := rfl
  refine ⟨rfl, h, ?_, rfl⟩
  rw [h]
  norm_num [defaultCenter]

/-! ## The map component: supporting facts -/

open LeafletMap in
/-- The check of the button rejects exactly the coordinates that are not valid. -/
theorem invalidPosition_iff (lat lng : JsNumber) :
    invalidPosition lat lng = true ↔ ¬ InRange lat lng := by
  unfold InRange
  cases lat <;> cases lng <;>
    simp [invalidPosition, JsNumber.isNaN, JsNumber.lt, JsNumber.gt]
  rename_i a b
  by_cases h1 : -90 ≤ a <;> by_cases h2 : a ≤ 90 <;> by_cases h3 : -180 ≤ b <;>
    by_cases h4 : b ≤ 180 <;> simp [h1, h2, h3, h4, not_le.mp, not_lt.mpr]

open LeafletMap in
/-- The check of the wrapper and of `MapCenterHandler` is the negation of the check of
the button. -/
theorem validCoordinates_eq (lat lng : JsNumber) :
    validCoordinates lat lng = !invalidPosition lat lng := by
  cases lat <;> cases lng <;>
    simp [validCoordinates, invalidPosition, JsNumber.isNaN, JsNumber.lt, JsNumber.gt,
      JsNumber.le, JsNumber.ge]
  rename_i a b
  by_cases h1 : -90 ≤ a <;> by_cases h2 : a ≤ 90 <;> by_cases h3 : -180 ≤ b <;>
    by_cases h4 : b ≤ 180 <;> simp [h1, h2, h3, h4]
  exact not_le.mp h4

open LeafletMap in
/-- The calls of the caller's `onLocationError` with the generic message are never
a call of `onLocationFound`, and are there when the callback was passed. -/
theorem callLocationError_calls (props : CallerProps) (message : String) :
    (∀ c ∈ (callLocationError props message).1, c = MapCall.onLocationError message) ∧
      (props.onLocationError = true →
        (callLocationError props message).1 = [MapCall.onLocationError message]) := by
  unfold callLocationError
  cases props.onLocationError <;> simp

open LeafletMap in
/-- On a position that fails the check the success callback only calls
`onLocationError`, once or (when the first call threw) twice. -/
theorem onPosition_invalid (props : CallerProps) (lat lng : JsNumber)
    (s : ButtonState × WrapperState) (h : invalidPosition lat lng = true) :
    (onPosition props lat lng s).state.2 = s.2 ∧
      (∀ c ∈ (onPosition props lat lng s).calls, c = MapCall.onLocationError unableMessage) ∧
      (props.onLocationError = true →
        (onPosition props lat lng s).calls.head? = some (MapCall.onLocationError unableMessage)) := by
  unfold onPosition positionCatch handleLocationError callLocationError
  rw [h]
  cases props.onLocationError <;> cases props.errorThrows <;> simp

open LeafletMap in
/-- On coordinates that fail its check the wrapper's `handleLocationFound` leaves the map
where it is and only calls `onLocationError`. -/
theorem handleLocationFound_invalid (props : CallerProps) (lat lng : JsNumber)
    (w : WrapperState) (h : invalidPosition lat lng = true) :
    (handleLocationFound props lat lng w).state = w ∧
      (∀ c ∈ (handleLocationFound props lat lng w).calls,
        c = MapCall.onLocationError unableMessage) ∧
      (props.onLocationError = true →
        (handleLocationFound props lat lng w).calls = [MapCall.onLocationError unableMessage]) := by
  unfold handleLocationFound callLocationError
  rw [validCoordinates_eq, h]
  cases props.onLocationError <;> simp

/-! ## The claims on the map component -/

open LeafletMap in
/-- Claim C21. For a position reported by the device that is not a valid coordinate
(a value that is NaN or infinite, a latitude outside [-90, 90] or a longitude
outside [-180, 180]), the success callback of the locate-me button and the
wrapper's `handleLocationFound` make no call of the caller's `onLocationFound`, with
these or any other coordinates, and leave the map centre alone; every call
they make is `onLocationError` with the unable-to-get-location message, and
when the caller passed `onLocationError` that call is made. -/
theorem invalid_position_reports_failure (props : CallerProps) (lat lng : JsNumber)
    (s : ButtonState × WrapperState) (hbad : ¬ InRange lat lng) :
    (∀ a b, MapCall.onLocationFound a b ∉ (onPosition props lat lng s).calls) ∧
      (∀ a b, MapCall.onLocationFound a b ∉ (handleLocationFound props lat lng s.2).calls) ∧
      (onPosition props lat lng s).state.2 = s.2 ∧
      (handleLocationFound props lat lng s.2).state = s.2 ∧
      (props.onLocationError = true →
        (onPosition props lat lng s).calls.head?
            = some (MapCall.onLocationError unableMessage) ∧
          (handleLocationFound props lat lng s.2).calls
            = [MapCall.onLocationError unableMessage]) := by
  have h := (invalidPosition_iff lat lng).mpr hbad
  obtain ⟨h1, h2, h3⟩ := onPosition_invalid props lat lng s h
  obtain ⟨k1, k2, k3⟩ := handleLocationFound_invalid props lat lng s.2 h
  refine ⟨?_, ?_, h1, k1, fun he => ⟨h3 he, k3 he⟩⟩
  · intro a b hmem
    cases h2 _ hmem
  · intro a b hmem
    cases k2 _ hmem

open LeafletMap in
/-- The instance of claim C21 at the reported position (91, 31), for a caller
that passed both callbacks: `onLocationFound` is not called and the first call is
`onLocationError` with the unable-to-get-location message. -/
theorem invalid_position_reports_failure_witness :
    ¬ InRange (.finite 91) (.finite 31) ∧
      (∀ a b, MapCall.onLocationFound a b
        ∉ (onPosition allCallbacks (.finite 91) (.finite 31) pendingButton).calls) ∧
      (onPosition allCallbacks (.finite 91) (.finite 31) pendingButton).calls.head?
        = some (MapCall.onLocationError unableMessage) := by
  have hbad : ¬ InRange (.finite 91) (.finite 31) := by
    rintro ⟨a, b, ha, -, -, h, -⟩
    cases ha
    norm_num at h
  have h := invalid_position_reports_failure allCallbacks (.finite 91) (.finite 31)
    pendingButton hbad
  exact ⟨hbad, h.1, (h.2.2.2.2 rfl).1⟩

open LeafletMap in
/-- A tap at longitude 190, which is not a valid coordinate, is forwarded to the
registered click handler as it is; the statement of claim C22 fails at this
input. -/
theorem tap_out_of_range_is_forwarded :
    ¬ InRange (.finite 30) (.finite 190) ∧
      mapClickHandler allCallbacks (.finite 30) (.finite 190)
        = [MapCall.onMapClick (.finite 30) (.finite 190)] ∧
      ¬ InRange .nan (.finite 31) ∧
      mapClickHandler allCallbacks .nan (.finite 31) = [MapCall.onMapClick .nan (.finite 31)] := by
  refine ⟨?_, rfl, ?_, rfl⟩
  · rintro ⟨a, b, -, hb, -, -, -, h⟩
    cases hb
    norm_num at h
  · rintro ⟨a, b, ha, -⟩
    cases ha

open LeafletMap in
/-- Claim C22, amended. `MapClickHandler` does not check the coordinate of a tap: for
every tap, valid or not, it calls the registered click handler exactly once
with the latitude and longitude of the tap unchanged. -/
theorem tap_forwards_every_coordinate (props : CallerProps) (lat lng : JsNumber)
    (hreg : props.onMapClick = true) :
    mapClickHandler props lat lng = [MapCall.onMapClick lat lng] := by
  simp [mapClickHandler, hreg]

open LeafletMap in
/-- The instance of the amended claim C22 at a tap on (30, 31). -/
theorem tap_forwards_every_coordinate_witness :
    allCallbacks.onMapClick = true ∧
      mapClickHandler allCallbacks (.finite 30) (.finite 31)
        = [MapCall.onMapClick (.finite 30) (.finite 31)] :=
  ⟨rfl, tap_forwards_every_coordinate allCallbacks (.finite 30) (.finite 31) rfl⟩

open LeafletMap in
/-- Claim C23. Without `navigator.geolocation` the button starts no request and reports
the not-supported message; the error callback reports the permission-denied
message for code 1 (`PERMISSION_DENIED`), the position-unavailable message for
code 2 (`POSITION_UNAVAILABLE`), the timeout message for code 3 (`TIMEOUT`) and the
unable-to-get-location message for every other code; the messages differ from
one another. Each report is one call of `onLocationError`, for a caller that
passed it. -/
theorem geolocation_failure_mapping (props : CallerProps) (s : ButtonState × WrapperState)
    (code : Nat) (herr : props.onLocationError = true) :
    (handleGetCurrentLocation false props s).1 = false ∧
      (handleGetCurrentLocation false props s).2.calls
        = [MapCall.onLocationError notSupportedMessage] ∧
      (onPositionError props code s).calls = [MapCall.onLocationError (errorMessage code)] ∧
      errorMessage 1 = permissionDeniedMessage ∧
      errorMessage 2 = positionUnavailableMessage ∧
      errorMessage 3 = timeoutMessage ∧
      (code ≠ 1 → code ≠ 2 → code ≠ 3 → errorMessage code = unableMessage) ∧
      [notSupportedMessage, permissionDeniedMessage, positionUnavailableMessage,
        timeoutMessage, unableMessage].Nodup := by
  refine ⟨rfl, ?_, ?_, rfl, rfl, rfl, ?_, by decide⟩
  · simp [handleGetCurrentLocation, handleLocationError, callLocationError, herr]
  · simp [onPositionError, handleLocationError, callLocationError, herr]
  · intro h1 h2 h3
    simp [errorMessage, h1, h2, h3]

open LeafletMap in
/-- The instance of claim C23 at the error code 0, which is none of the three
named codes. -/
theorem geolocation_failure_mapping_witness :
    allCallbacks.onLocationError = true ∧
      (handleGetCurrentLocation false allCallbacks pendingButton).1 = false ∧
      (onPositionError allCallbacks 0 pendingButton).calls
        = [MapCall.onLocationError unableMessage] := by
  have h := geolocation_failure_mapping allCallbacks pendingButton 0 rfl
  exact ⟨rfl, h.1, h.2.2.1⟩

open LeafletMap in
/-- Claim C29. However a device location request ends (a position that passes
the check, one that fails it, a position whose handling throws because a
callback of the caller throws, or an error with any code), the cell `loading`
of the button is false after the callback; and on a device without
geolocation the button starts no request and leaves `loading` as it was, which
is false whenever the button can be clicked. -/
theorem locate_button_loading_cleared (props : CallerProps) (outcome : DeviceOutcome)
    (s : ButtonState × WrapperState) :
    (onOutcome props outcome s).state.1.loading = false ∧
      (handleGetCurrentLocation false props s).1 = false ∧
      (handleGetCurrentLocation false props s).2.state.1.loading = s.1.loading ∧
      (handleGetCurrentLocation true props s).1 = true ∧
      (handleGetCurrentLocation true props s).2.state.1.loading = true := by
  refine ⟨?_, rfl, rfl, rfl, rfl⟩
  cases outcome with
  | position lat lng =>
    simp only [onOutcome, onPosition, positionCatch]
    split <;> split <;> rfl
  | error code => rfl

open LeafletMap in
/-- A valid coordinate passes the check of the wrapper and of `MapCenterHandler`. -/
theorem validCoordinates_of_inRange (lat lng : JsNumber) (h : InRange lat lng) :
    validCoordinates lat lng = true := by
  rw [validCoordinates_eq]
  cases hi : invalidPosition lat lng
  · rfl
  · exact absurd h ((invalidPosition_iff lat lng).mp hi)

open LeafletMap in
/-- The effect of `MapCenterHandler` for a centre that passes its check. -/
theorem centerEffect_valid (a b : ℚ) (zoom : Option ℚ) (e : ℚ) (r : CenterRefs)
    (hv : validCoordinates (.finite a) (.finite b) = true) :
    centerEffect (some (.finite a, .finite b)) zoom e r =
      if centerChanged r.prevCenter a b || decide (r.prevZoom ≠ some (targetZoom zoom e)) then
        ({ prevCenter := some (a, b), prevZoom := some (targetZoom zoom e) },
          some { center := (a, b), zoom := targetZoom zoom e })
      else (r, none) := by
  simp [centerEffect, hv]

open LeafletMap in
/-- When the effect starts a transition, the refs hold its centre and zoom. -/
theorem centerEffect_refs_of_fly (center : Option (JsNumber × JsNumber)) (zoom : Option ℚ)
    (e : ℚ) (r : CenterRefs) (f : FlyTo) (h : (centerEffect center zoom e r).2 = some f) :
    (centerEffect center zoom e r).1 = { prevCenter := some f.center, prevZoom := some f.zoom } := by
  unfold centerEffect at h ⊢
  split at h
  · simp at h
  · split at h
    · split at h
      · split at h
        · simp only [Option.some.injEq] at h
          subst h
          simp_all
        · simp at h
      · simp at h
    · simp at h

open LeafletMap in
/-- The effect of `MapCenterHandler` after a transition to `(lat0, lng0)` at zoom `z`,
for a valid new centre and a zoom prop that is not 0. -/
theorem centerEffect_after_fly (lat0 lng0 lat lng z z1 e0 e : ℚ) (r0 : CenterRefs)
    (hv : InRange (.finite lat) (.finite lng)) (hz1 : z1 ≠ 0)
    (hfly : (centerEffect (some (.finite lat0, .finite lng0)) (some z) e0 r0).2
      = some { center := (lat0, lng0), zoom := z }) :
    (centerEffect (some (.finite lat, .finite lng)) (some z1) e
        (centerEffect (some (.finite lat0, .finite lng0)) (some z) e0 r0).1).2
      = if centerChanged (some (lat0, lng0)) lat lng = true ∨ z1 ≠ z then
          some { center := (lat, lng), zoom := z1 }
        else none := by
  rw [centerEffect_refs_of_fly _ _ _ _ _ hfly,
    centerEffect_valid _ _ _ _ _ (validCoordinates_of_inRange _ _ hv)]
  have ht : targetZoom (some z1) e = z1 := by simp [targetZoom, hz1]
  rw [ht]
  have hne : (some z : Option ℚ) ≠ some z1 ↔ z1 ≠ z :=
    ⟨fun h k => h (k ▸ rfl), fun h k => h (Option.some.inj k).symm⟩
  simp only [hne]
  by_cases h1 : centerChanged (some (lat0, lng0)) lat lng = true <;>
    by_cases h3 : z1 = z <;> simp [h1, h3]

/-- The constant of the tolerance test is the double of the literal `0.0001`. -/
theorem doubleUnits_tolerance : doubleUnits 0.0001 = Int.ofNat toleranceUnits := by
  decide!

/-- The tolerance test in doubles at the centres of the specification and at a
step of 0.0001 in decimals: 30.0444 to 30.04441 and 31.2357 to 31.23571 are within
the tolerance, 30.0444 to 31 is beyond it, and so is 30.0007 to 30.0008, whose
doubles differ by more than the double of 0.0001. -/
theorem beyondTolerance_examples :
    beyondTolerance 30.0444 30.04441 = false ∧ beyondTolerance 31.2357 31.23571 = false ∧
      beyondTolerance 30.0444 31 = true ∧ beyondTolerance 30.0007 30.0008 = true ∧
      beyondTolerance 30 30 = false ∧ beyondTolerance 31 31 = false := by
  decide!

open LeafletMap in
/-- The centres of the specification with the zoom prop at 13: after the
transition to (30.0444, 31.2357) the centre (30.04441, 31.23571) starts no
transition and the centre (31, 31) starts one. -/
theorem recentre_examples :
    (centerEffect (some (.finite 30.0444, .finite 31.2357)) (some 13) 13 noRefs).2
        = some { center := (30.0444, 31.2357), zoom := 13 } ∧
      (centerEffect (some (.finite 30.04441, .finite 31.23571)) (some 13) 13
        (centerEffect (some (.finite 30.0444, .finite 31.2357)) (some 13) 13 noRefs).1).2
        = none ∧
      (centerEffect (some (.finite 31, .finite 31)) (some 13) 13
        (centerEffect (some (.finite 30.0444, .finite 31.2357)) (some 13) 13 noRefs).1).2
        = some { center := (31, 31), zoom := 13 } := by
  have hv0 : validCoordinates (.finite 30.0444) (.finite 31.2357) = true := by
    simp [validCoordinates, JsNumber.isNaN, JsNumber.ge, JsNumber.le]
    norm_num
  have hfly : (centerEffect (some (.finite 30.0444, .finite 31.2357)) (some 13) 13 noRefs).2
      = some { center := (30.0444, 31.2357), zoom := 13 } := by
    rw [centerEffect_valid _ _ _ _ _ hv0]
    simp [noRefs, centerChanged, targetZoom]
  have hnear : InRange (.finite 30.04441) (.finite 31.23571) :=
    ⟨_, _, rfl, rfl, by norm_num, by norm_num, by norm_num, by norm_num⟩
  have hfar : InRange (.finite 31) (.finite 31) :=
    ⟨_, _, rfl, rfl, by norm_num, by norm_num, by norm_num, by norm_num⟩
  have h13 : (13 : ℚ) ≠ 0 := by norm_num
  obtain ⟨b1, b2, b3, -, -, -⟩ := beyondTolerance_examples
  refine ⟨hfly, ?_, ?_⟩
  · rw [centerEffect_after_fly _ _ _ _ _ _ _ _ _ hnear h13 hfly]
    simp [centerChanged, b1, b2]
  · rw [centerEffect_after_fly _ _ _ _ _ _ _ _ _ hfar h13 hfly]
    simp [centerChanged, b3]

open LeafletMap in
/-- Claim C24. After the transition to (30, 31) at zoom 13, with the engine at
zoom 13, the zoom prop changes to 0 and the centre stays: `zoom || map.getZoom()` is
13, `zoomChanged` is false and no transition starts, although the zoom prop
changed; the claim says that any change of zoom starts one. The same change
to the zoom 15 does start one. -/
theorem zoom_zero_change_starts_no_transition :
    (centerEffect (some (.finite 30, .finite 31)) (some 13) 13 noRefs).2
        = some { center := (30, 31), zoom := 13 } ∧
      (13 : ℚ) ≠ 0 ∧
      (centerEffect (some (.finite 30, .finite 31)) (some 0) 13
        (centerEffect (some (.finite 30, .finite 31)) (some 13) 13 noRefs).1).2 = none ∧
      (centerEffect (some (.finite 30, .finite 31)) (some 15) 13
        (centerEffect (some (.finite 30, .finite 31)) (some 13) 13 noRefs).1).2
        = some { center := (30, 31), zoom := 15 } := by
  have hv : validCoordinates (.finite 30) (.finite 31) = true := by
    simp [validCoordinates, JsNumber.isNaN, JsNumber.ge, JsNumber.le]
    norm_num
  have hin : InRange (.finite 30) (.finite 31) :=
    ⟨_, _, rfl, rfl, by norm_num, by norm_num, by norm_num, by norm_num⟩
  have h1 : (centerEffect (some (.finite 30, .finite 31)) (some 13) 13 noRefs).2
      = some { center := (30, 31), zoom := 13 } := by
    rw [centerEffect_valid _ _ _ _ _ hv]
    simp [noRefs, centerChanged, targetZoom]
  obtain ⟨-, -, -, -, b5, b6⟩ := beyondTolerance_examples
  refine ⟨h1, by norm_num, ?_, ?_⟩
  · rw [centerEffect_refs_of_fly _ _ _ _ _ h1, centerEffect_valid _ _ _ _ _ hv]
    simp [centerChanged, targetZoom, b5, b6]
  · rw [centerEffect_after_fly _ _ _ _ _ _ _ _ _ hin (by norm_num) h1]
    simp

open LeafletMap in
/-- The refs of the wrapper when at most one instance is alive and it is the
attached one. -/
theorem lifecycle_invariant (events : List LifecycleEvent) (r : MapRefs)
    (halive : r.alive = r.mapInstance.toList)
    (hinit : r.isInitialized = r.mapInstance.isSome) :
    (runLifecycle events r).alive = (runLifecycle events r).mapInstance.toList ∧
      (runLifecycle events r).isInitialized = (runLifecycle events r).mapInstance.isSome := by
  induction events generalizing r with
  | nil => exact ⟨halive, hinit⟩
  | cons e rest ih =>
    simp only [runLifecycle]
    apply ih
    · cases e with
      | created map =>
        obtain ⟨inst, ini, alive⟩ := r
        simp only at halive hinit
        subst halive hinit
        cases inst <;> simp [lifecycleStep, whenCreated]
      | cleanup =>
        obtain ⟨inst, ini, alive⟩ := r
        simp only at halive hinit
        subst halive hinit
        cases inst <;> simp [lifecycleStep, cleanup]
    · cases e with
      | created map =>
        obtain ⟨inst, ini, alive⟩ := r
        simp only at halive hinit
        subst halive hinit
        cases inst <;> simp [lifecycleStep, whenCreated]
      | cleanup =>
        obtain ⟨inst, ini, alive⟩ := r
        simp only at halive hinit
        subst halive hinit
        cases inst <;> simp [lifecycleStep, cleanup]

open LeafletMap in
/-- An engine-created callback that arrives after the cleanup has run is attached:
with no instance created before the cleanup, and with one that the cleanup
removed. The arriving instance stays alive; the statement of claim C25 fails
at these inputs. -/
theorem late_created_after_cleanup_attaches :
    runLifecycle [.cleanup, .created 2] initialRefs
        = { mapInstance := some 2, isInitialized := true, alive := [2] } ∧
      runLifecycle [.created 1, .cleanup, .created 2] initialRefs
        = { mapInstance := some 2, isInitialized := true, alive := [2] } := by
  constructor <;> decide

open LeafletMap in
/-- Claim C25, amended. After any sequence of engine-created callbacks and
cleanups, at most one engine instance is attached to `mapInstanceRef`, and the
instances that are alive (created and not removed) are exactly the attached
one; `isInitializedRef` is set exactly when an instance is attached. An
engine-created callback that arrives while an instance is attached removes
the arriving instance and leaves the refs as they are; one that arrives
while none is attached, before or after a cleanup, attaches the arriving
instance; the cleanup removes the attached instance and clears both refs. -/
theorem lifecycle_one_instance (events : List LifecycleEvent) (map : Nat) :
    (runLifecycle events initialRefs).alive
        = (runLifecycle events initialRefs).mapInstance.toList ∧
      (runLifecycle events initialRefs).alive.length ≤ 1 ∧
      ((runLifecycle events initialRefs).isInitialized = true
        ↔ (runLifecycle events initialRefs).mapInstance ≠ none) ∧
      ((runLifecycle events initialRefs).mapInstance ≠ none →
        runLifecycle (events ++ [.created map]) initialRefs = runLifecycle events initialRefs) ∧
      ((runLifecycle events initialRefs).mapInstance = none →
        runLifecycle (events ++ [.created map]) initialRefs
          = { mapInstance := some map, isInitialized := true, alive := [map] }) ∧
      runLifecycle (events ++ [.cleanup]) initialRefs = initialRefs := by
  have hrun : ∀ (es : List LifecycleEvent) (e : LifecycleEvent) (r : MapRefs),
      runLifecycle (es ++ [e]) r = lifecycleStep e (runLifecycle es r) := by
    intro es e
    induction es with
    | nil => intro r; rfl
    | cons x xs ih => intro r; simp only [List.cons_append, runLifecycle]; exact ih _
  obtain ⟨h1, h2⟩ := lifecycle_invariant events initialRefs rfl rfl
  rw [hrun, hrun]
  generalize runLifecycle events initialRefs = r at h1 h2 ⊢
  obtain ⟨inst, ini, alive⟩ := r
  simp only at h1 h2
  subst h1 h2
  cases inst <;> simp [lifecycleStep, whenCreated, cleanup, initialRefs]

/-! ## The claims across the map and the pages -/

open LeafletMap in
/-- Claim C26. For a valid coordinate `(a, b)` and a caller whose callbacks are
passed and do not throw, a position found by the locate-me button makes the
wrapper call `onLocationFound(a, b)` once, after re-centring the map on `(a, b)` at
zoom 15, and a tap at `(a, b)` calls `onMapClick(a, b)` once; on each of the four
pages the function passed as `onLocationFound` gives the same result as the one
passed as `onMapClick`: the queue page and the Visitations page set `location`
and `mapPosition`, the find-by-area page sets `searchLocation` and `mapCenter` and
starts the same search with its radius, and the add/edit page sets the
marker, the map position and the coordinates of the form. -/
theorem locate_me_same_as_tap (props : CallerProps) (a b : ℚ)
    (button : ButtonState × WrapperState)
    (queue : VisitsList.State) (direct : Visitations.State) (area : FindByArea.State)
    (form : AddEditChild.State)
    (hv : InRange (.finite a) (.finite b))
    (hfound : props.onLocationFound = true) (hclick : props.onMapClick = true)
    (hquiet : props.foundThrows = false) :
    (onPosition props (.finite a) (.finite b) button).calls
        = [MapCall.onLocationFound (.finite a) (.finite b)] ∧
      (onPosition props (.finite a) (.finite b) button).state.2
        = { mapCenter := (.finite a, .finite b), mapZoom := 15 } ∧
      mapClickHandler props (.finite a) (.finite b)
        = [MapCall.onMapClick (.finite a) (.finite b)] ∧
      VisitsList.handleLocationFound a b queue = VisitsList.handleLocationSelect a b queue ∧
      (VisitsList.handleLocationFound a b queue).location
        = some { latitude := a, longitude := b } ∧
      (VisitsList.handleLocationFound a b queue).mapPosition = (a, b) ∧
      Visitations.handleLocationFound a b direct = Visitations.handleLocationSelect a b direct ∧
      (Visitations.handleLocationFound a b direct).location
        = some { latitude := a, longitude := b } ∧
      (Visitations.handleLocationFound a b direct).mapPosition = (a, b) ∧
      FindByArea.handleLocationFound a b area = FindByArea.handleMapClick a b area ∧
      (FindByArea.handleLocationFound a b area).1
        = { latitude := a, longitude := b, radiusKm := area.radius } ∧
      (FindByArea.handleLocationFound a b area).2.searchLocation = some (a, b) ∧
      (FindByArea.handleLocationFound a b area).2.mapCenter = (a, b) ∧
      AddEditChild.handleLocationFound a b form = AddEditChild.handleMapClick a b form ∧
      (AddEditChild.handleLocationFound a b form).markerPosition = some (a, b) ∧
      (AddEditChild.handleLocationFound a b form).mapPosition = (a, b) ∧
      (AddEditChild.handleLocationFound a b form).formData.latitude = some a ∧
      (AddEditChild.handleLocationFound a b form).formData.longitude = some b := by
  have hvalid := validCoordinates_of_inRange _ _ hv
  have hinv : invalidPosition (.finite a) (.finite b) = false := by
    rw [validCoordinates_eq] at hvalid
    simpa using hvalid
  refine ⟨?_, ?_, ?_, rfl, rfl, rfl, rfl, rfl, rfl, rfl, rfl, rfl, rfl, rfl, rfl, rfl, rfl, rfl⟩
  · simp [onPosition, handleLocationFound, hinv, hvalid, hfound, hquiet]
  · simp [onPosition, handleLocationFound, hinv, hvalid, hfound, hquiet]
  · simp [mapClickHandler, hclick]

open LeafletMap in
/-- The instance of claim C26 at the coordinate (30, 31), on the pages in their
initial state with the visit dialog open for child 5. -/
theorem locate_me_same_as_tap_witness :
    InRange (.finite 30) (.finite 31) ∧
      (onPosition allCallbacks (.finite 30) (.finite 31) pendingButton).calls
        = [MapCall.onLocationFound (.finite 30) (.finite 31)] ∧
      mapClickHandler allCallbacks (.finite 30) (.finite 31)
        = [MapCall.onMapClick (.finite 30) (.finite 31)] ∧
      VisitsList.handleLocationFound 30 31 queueDialogOpen
        = VisitsList.handleLocationSelect 30 31 queueDialogOpen ∧
      (VisitsList.handleLocationFound 30 31 queueDialogOpen).location
        = some { latitude := 30, longitude := 31 } := by
  have hv : InRange (.finite 30) (.finite 31) :=
    ⟨_, _, rfl, rfl, by norm_num, by norm_num, by norm_num, by norm_num⟩
  have h := locate_me_same_as_tap allCallbacks 30 31 pendingButton queueDialogOpen
    directDialogOpen FindByArea.initialState AddEditChild.initialState hv rfl rfl rfl
  exact ⟨hv, h.1, h.2.2.1, h.2.2.2.1, h.2.2.2.2.1⟩

/-- A dialog event of the queue page leaves `loading` as it is. -/
theorem queue_page_event_keeps_loading (e : DialogEvent) (s : VisitsList.State) :
    (VisitsList.applyEvent e s).loading = s.loading := by
  cases e with
  | visit child =>
    simp only [VisitsList.applyEvent, VisitsList.handleVisit]
    split
    · split <;> rfl
    · rfl
  | setSaveLocation checked => rfl
  | mapClick lat lng =>
    simp only [VisitsList.applyEvent]
    split <;> rfl
  | setNotes text => rfl
  | close => rfl

/-- A dialog event of the Visitations page leaves `loading` as it is. -/
theorem direct_page_event_keeps_loading (e : DialogEvent) (s : Visitations.State) :
    (Visitations.applyEvent e s).loading = s.loading := by
  cases e with
  | visit child =>
    simp only [Visitations.applyEvent, Visitations.handleVisit]
    split
    · split <;> rfl
    · rfl
  | setSaveLocation checked => rfl
  | mapClick lat lng =>
    simp only [Visitations.applyEvent]
    split <;> rfl
  | setNotes text => rfl
  | close => rfl

/-- One event of the queue page keeps: `loading` is set exactly when a request is
in flight, and then there is one. -/
theorem queue_page_step_invariant (e : VisitsList.SystemEvent) (sys : VisitsList.System)
    (h : (sys.page.loading = true ∧ sys.inFlight.length = 1)
      ∨ (sys.page.loading = false ∧ sys.inFlight = [])) :
    ((VisitsList.systemStep e sys).page.loading = true
        ∧ (VisitsList.systemStep e sys).inFlight.length = 1)
      ∨ ((VisitsList.systemStep e sys).page.loading = false
        ∧ (VisitsList.systemStep e sys).inFlight = []) := by
  obtain ⟨page, slot, inFlight⟩ := sys
  cases e with
  | dialog d =>
    simp only [VisitsList.systemStep, queue_page_event_keeps_loading]
    exact h
  | click button =>
    simp only [VisitsList.systemStep, VisitsList.clickSubmit]
    rcases h with ⟨hl, hf⟩ | ⟨hl, hf⟩
    · simp only at hl
      rw [if_pos hl]
      exact Or.inl ⟨hl, hf⟩
    · simp only at hl hf
      subst hf
      simp only [hl]
      cases hc : page.selectedChild with
      | none => simp [hl]
      | some child =>
        cases button <;>
          simp [VisitsList.handleSubmitVisitStart, VisitsList.handleCancelVisitStart, hc]
  | settle env fetch outcome =>
    simp only [VisitsList.systemStep, VisitsList.settleOldest]
    rcases h with ⟨hl, hf⟩ | ⟨hl, hf⟩
    · simp only at hl hf
      match inFlight, hf with
      | [(b, child)], _ =>
        right
        cases b <;> cases outcome <;> exact ⟨rfl, rfl⟩
    · simp only at hl hf
      subst hf
      exact Or.inr ⟨hl, rfl⟩

/-- One event of the Visitations page keeps: `loading` is set exactly when a request
is in flight, and then there is one. -/
theorem direct_page_step_invariant (e : Visitations.SystemEvent) (sys : Visitations.System)
    (h : (sys.page.loading = true ∧ sys.inFlight.length = 1)
      ∨ (sys.page.loading = false ∧ sys.inFlight = [])) :
    ((Visitations.systemStep e sys).page.loading = true
        ∧ (Visitations.systemStep e sys).inFlight.length = 1)
      ∨ ((Visitations.systemStep e sys).page.loading = false
        ∧ (Visitations.systemStep e sys).inFlight = []) := by
  obtain ⟨page, slot, inFlight⟩ := sys
  cases e with
  | dialog d =>
    simp only [Visitations.systemStep, direct_page_event_keeps_loading]
    exact h
  | click button =>
    simp only [Visitations.systemStep, Visitations.clickSubmit]
    rcases h with ⟨hl, hf⟩ | ⟨hl, hf⟩
    · simp only at hl
      rw [if_pos hl]
      exact Or.inl ⟨hl, hf⟩
    · simp only at hl hf
      subst hf
      simp only [hl]
      cases hc : page.selectedChild with
      | none => simp [hl]
      | some child =>
        cases button <;>
          simp [Visitations.handleSubmitVisitStart, Visitations.handleCancelVisitStart, hc]
  | settle outcome =>
    simp only [Visitations.systemStep, Visitations.settleOldest]
    rcases h with ⟨hl, hf⟩ | ⟨hl, hf⟩
    · simp only at hl hf
      match inFlight, hf with
      | [(b, child)], _ =>
        right
        cases b <;> cases outcome <;> exact ⟨rfl, rfl⟩
    · simp only at hl hf
      subst hf
      exact Or.inr ⟨hl, rfl⟩

/-- The invariant of the queue page holds after every sequence of events. -/
theorem queue_page_run_invariant (events : List VisitsList.SystemEvent)
    (sys : VisitsList.System)
    (h : (sys.page.loading = true ∧ sys.inFlight.length = 1)
      ∨ (sys.page.loading = false ∧ sys.inFlight = [])) :
    ((VisitsList.runSystem events sys).page.loading = true
        ∧ (VisitsList.runSystem events sys).inFlight.length = 1)
      ∨ ((VisitsList.runSystem events sys).page.loading = false
        ∧ (VisitsList.runSystem events sys).inFlight = []) := by
  induction events generalizing sys with
  | nil => exact h
  | cons e rest ih => exact ih _ (queue_page_step_invariant e sys h)

/-- The invariant of the Visitations page holds after every sequence of events. -/
theorem direct_page_run_invariant (events : List Visitations.SystemEvent)
    (sys : Visitations.System)
    (h : (sys.page.loading = true ∧ sys.inFlight.length = 1)
      ∨ (sys.page.loading = false ∧ sys.inFlight = [])) :
    ((Visitations.runSystem events sys).page.loading = true
        ∧ (Visitations.runSystem events sys).inFlight.length = 1)
      ∨ ((Visitations.runSystem events sys).page.loading = false
        ∧ (Visitations.runSystem events sys).inFlight = []) := by
  induction events generalizing sys with
  | nil => exact h
  | cons e rest ih => exact ih _ (direct_page_step_invariant e sys h)

/-- What the invariant of the queue page gives for the two buttons and for the
settling of the request. -/
theorem queue_page_guard (sys : VisitsList.System) (button : SubmitButton)
    (env : StorageBehaviour) (fetch : JsVal → Option Child) (outcome : PostOutcome)
    (h : (sys.page.loading = true ∧ sys.inFlight.length = 1)
      ∨ (sys.page.loading = false ∧ sys.inFlight = [])) :
    sys.inFlight.length ≤ 1 ∧
      (sys.page.loading = true ↔ sys.inFlight ≠ []) ∧
      (sys.page.loading = true → VisitsList.clickSubmit button sys = sys) ∧
      (∀ child, sys.page.loading = false → sys.page.selectedChild = some child →
        (VisitsList.clickSubmit button sys).inFlight = [(button, child)] ∧
          (VisitsList.clickSubmit button sys).page.loading = true) ∧
      (VisitsList.settleOldest env fetch outcome sys).page.loading = false ∧
      (VisitsList.settleOldest env fetch outcome sys).inFlight = [] := by
  obtain ⟨page, slot, inFlight⟩ := sys
  rcases h with ⟨hl, hf⟩ | ⟨hl, hf⟩
  · simp only at hl hf
    match inFlight, hf with
    | [(b, child)], _ =>
      refine ⟨by simp, by simp [hl], ?_, ?_, ?_, ?_⟩
      · intro _
        simp [VisitsList.clickSubmit, hl]
      · intro c hc
        simp [hl] at hc
      · cases b <;> cases outcome <;> rfl
      · cases b <;> cases outcome <;> rfl
  · simp only at hl hf
    subst hf
    refine ⟨by simp, by simp [hl], ?_, ?_, ?_, ?_⟩
    · intro hc
      simp [hl] at hc
    · intro c _ hc
      simp only at hc
      cases button <;>
        simp [VisitsList.clickSubmit, hl, hc, VisitsList.handleSubmitVisitStart,
          VisitsList.handleCancelVisitStart]
    · simpa [VisitsList.settleOldest] using hl
    · simp [VisitsList.settleOldest]

/-- What the invariant of the Visitations page gives for the two buttons and for
the settling of the request. -/
theorem direct_page_guard (sys : Visitations.System) (button : SubmitButton)
    (outcome : PostOutcome)
    (h : (sys.page.loading = true ∧ sys.inFlight.length = 1)
      ∨ (sys.page.loading = false ∧ sys.inFlight = [])) :
    sys.inFlight.length ≤ 1 ∧
      (sys.page.loading = true ↔ sys.inFlight ≠ []) ∧
      (sys.page.loading = true → Visitations.clickSubmit button sys = sys) ∧
      (∀ child, sys.page.loading = false → sys.page.selectedChild = some child →
        (Visitations.clickSubmit button sys).inFlight = [(button, child)] ∧
          (Visitations.clickSubmit button sys).page.loading = true) ∧
      (Visitations.settleOldest outcome sys).page.loading = false ∧
      (Visitations.settleOldest outcome sys).inFlight = [] := by
  obtain ⟨page, slot, inFlight⟩ := sys
  rcases h with ⟨hl, hf⟩ | ⟨hl, hf⟩
  · simp only at hl hf
    match inFlight, hf with
    | [(b, child)], _ =>
      refine ⟨by simp, by simp [hl], ?_, ?_, ?_, ?_⟩
      · intro _
        simp [Visitations.clickSubmit, hl]
      · intro c hc
        simp [hl] at hc
      · cases b <;> cases outcome <;> rfl
      · cases b <;> cases outcome <;> rfl
  · simp only at hl hf
    subst hf
    refine ⟨by simp, by simp [hl], ?_, ?_, ?_, ?_⟩
    · intro hc
      simp [hl] at hc
    · intro c _ hc
      simp only at hc
      cases button <;>
        simp [Visitations.clickSubmit, hl, hc, Visitations.handleSubmitVisitStart,
          Visitations.handleCancelVisitStart]
    · simpa [Visitations.settleOldest] using hl
    · simp [Visitations.settleOldest]

/-- Claim C27. On the queue page and on the Visitations page, after every sequence
of dialog events, clicks on the two submit buttons and settlings of the
request: at most one `POST /visits` is in flight; `loading` is true exactly while
one is; while `loading` is true a click on either button changes nothing and
issues no request; a click with `loading` false and a child selected issues
exactly one request and sets `loading`; and when the request settles, resolved
or rejected, `loading` is false and no request is in flight. -/
theorem one_post_in_flight (slot : Slot) (queueEvents : List VisitsList.SystemEvent)
    (directEvents : List Visitations.SystemEvent) (button : SubmitButton)
    (env : StorageBehaviour) (fetch : JsVal → Option Child) (outcome : PostOutcome) :
    ((VisitsList.runSystem queueEvents (VisitsList.initialSystem slot)).inFlight.length ≤ 1 ∧
      ((VisitsList.runSystem queueEvents (VisitsList.initialSystem slot)).page.loading = true
        ↔ (VisitsList.runSystem queueEvents (VisitsList.initialSystem slot)).inFlight ≠ []) ∧
      ((VisitsList.runSystem queueEvents (VisitsList.initialSystem slot)).page.loading = true →
        VisitsList.clickSubmit button
            (VisitsList.runSystem queueEvents (VisitsList.initialSystem slot))
          = VisitsList.runSystem queueEvents (VisitsList.initialSystem slot)) ∧
      (∀ child,
        (VisitsList.runSystem queueEvents (VisitsList.initialSystem slot)).page.loading
          = false →
        (VisitsList.runSystem queueEvents (VisitsList.initialSystem slot)).page.selectedChild
          = some child →
        (VisitsList.clickSubmit button
            (VisitsList.runSystem queueEvents (VisitsList.initialSystem slot))).inFlight
            = [(button, child)] ∧
          (VisitsList.clickSubmit button
            (VisitsList.runSystem queueEvents (VisitsList.initialSystem slot))).page.loading
            = true) ∧
      (VisitsList.settleOldest env fetch outcome
        (VisitsList.runSystem queueEvents (VisitsList.initialSystem slot))).page.loading
        = false ∧
      (VisitsList.settleOldest env fetch outcome
        (VisitsList.runSystem queueEvents (VisitsList.initialSystem slot))).inFlight = []) ∧
    ((Visitations.runSystem directEvents (Visitations.initialSystem slot)).inFlight.length ≤ 1 ∧
      ((Visitations.runSystem directEvents (Visitations.initialSystem slot)).page.loading = true
        ↔ (Visitations.runSystem directEvents (Visitations.initialSystem slot)).inFlight ≠ []) ∧
      ((Visitations.runSystem directEvents (Visitations.initialSystem slot)).page.loading
          = true →
        Visitations.clickSubmit button
            (Visitations.runSystem directEvents (Visitations.initialSystem slot))
          = Visitations.runSystem directEvents (Visitations.initialSystem slot)) ∧
      (∀ child,
        (Visitations.runSystem directEvents (Visitations.initialSystem slot)).page.loading
          = false →
        (Visitations.runSystem directEvents (Visitations.initialSystem slot)).page.selectedChild
          = some child →
        (Visitations.clickSubmit button
            (Visitations.runSystem directEvents (Visitations.initialSystem slot))).inFlight
            = [(button, child)] ∧
          (Visitations.clickSubmit button
            (Visitations.runSystem directEvents (Visitations.initialSystem slot))).page.loading
            = true) ∧
      (Visitations.settleOldest outcome
        (Visitations.runSystem directEvents (Visitations.initialSystem slot))).page.loading
        = false ∧
      (Visitations.settleOldest outcome
        (Visitations.runSystem directEvents (Visitations.initialSystem slot))).inFlight = []) :=
  ⟨queue_page_guard _ button env fetch outcome
      (queue_page_run_invariant queueEvents _ (Or.inr ⟨rfl, rfl⟩)),
    direct_page_guard _ button outcome
      (direct_page_run_invariant directEvents _ (Or.inr ⟨rfl, rfl⟩))⟩

/-- A double click on the queue page: the dialog is opened for child 5, the
record button is clicked twice and the skip button once before the request
settles; one request is in flight. -/
theorem queue_page_double_click :
    (VisitsList.runSystem
        [.dialog (.visit childFive), .click .record, .click .record, .click .skip]
        (VisitsList.initialSystem (some "[5, 9]"))).inFlight = [(.record, childFive)] := by
  rfl

/-! ## The claims on the storage round trip and on the form -/

/-- Claim C28. With working storage, for a slot that holds the list of integers
`ids` (with or without duplicates) and an integer `id` that is not in `ids`,
`addToVisitsList(id)` followed by `removeFromVisitsList(id)` leaves a slot from which
`getVisitsList()` returns exactly `ids`. -/
theorem add_then_remove_restores (id : Int) (slot : Slot) (ids : List Int)
    (h : HoldsIds slot ids) (hid : id ∉ ids) :
    getVisitsList working
        (removeFromVisitsList working (.int id) (addToVisitsList working (.int id) slot).2).2
      = .arr (ids.map JsVal.num) := by
  have h1 := getVisitsList_after_add id slot ids (getVisitsList_of_holds slot ids h)
  have h2 := getVisitsList_after_remove (.int id) id _ _ h1 rfl
  rw [h2]
  simp only [hid, if_false]
  rw [List.filter_append, filter_ne_of_not_mem ids id hid]
  simp

/-- The instance of claim C28 at the slot text `[3, 17]` and the identifier 7. -/
theorem add_then_remove_restores_witness :
    HoldsIds (some "[3, 17]") [3, 17] ∧ (7 : Int) ∉ [3, 17] ∧
      getVisitsList working
          (removeFromVisitsList working (.int 7)
            (addToVisitsList working (.int 7) (some "[3, 17]")).2).2
        = .arr [.num 3, .num 17] :=
  ⟨Or.inr ⟨_, rfl, rfl⟩, by decide,
    add_then_remove_restores 7 (some "[3, 17]") [3, 17] (Or.inr ⟨_, rfl, rfl⟩) (by decide)⟩

/-- The phones `fetchChild` puts in the form are never an empty list. -/
theorem phonesOfChild_length (phones : List AddEditChild.ApiPhone) :
    1 ≤ (AddEditChild.phonesOfChild phones).length := by
  unfold AddEditChild.phonesOfChild
  split
  · rename_i h
    simpa using h
  · simp

/-- The phones in the form after `fetchChild` has loaded a record with the phones
`phones`. -/
theorem fetchChild_phones (child : AddEditChild.ApiChild) (phones : List AddEditChild.ApiPhone)
    (s : AddEditChild.State) (h : child.parentPhones = some phones) :
    (AddEditChild.fetchChild (some child) s).formData.parentPhones
      = AddEditChild.phonesOfChild phones := by
  simp only [AddEditChild.fetchChild, h]
  repeat' split
  all_goals rfl

/-- The function `fetchChild` keeps at least one phone entry. -/
theorem fetchChild_length (response : Option AddEditChild.ApiChild) (s : AddEditChild.State)
    (h : 1 ≤ s.formData.parentPhones.length) :
    1 ≤ (AddEditChild.fetchChild response s).formData.parentPhones.length := by
  cases response with
  | none => exact h
  | some child =>
    cases hp : child.parentPhones with
    | none =>
      simp only [AddEditChild.fetchChild, hp]
      exact h
    | some phones =>
      rw [fetchChild_phones child phones s hp]
      exact phonesOfChild_length phones

/-- Every event of the form keeps at least one phone entry. -/
theorem applyEvent_length (e : AddEditChild.FormEvent) (s : AddEditChild.State)
    (h : 1 ≤ s.formData.parentPhones.length) :
    1 ≤ (AddEditChild.applyEvent e s).formData.parentPhones.length := by
  cases e with
  | phoneChange index field value =>
    simp only [AddEditChild.applyEvent, AddEditChild.handlePhoneChange]
    split
    · simpa using h
    · exact h
  | addPhone =>
    simp [AddEditChild.applyEvent, AddEditChild.addPhone]
  | removePhone index =>
    simp only [AddEditChild.applyEvent, AddEditChild.removePhone]
    split
    · rename_i hgt
      simp only [AddEditChild.dropIndex, List.length_eraseIdx]
      split <;> omega
    · exact h
  | childLoaded response => exact fetchChild_length response s h
  | mapClick lat lng => exact h
  | locationFound lat lng => exact h

/-- Every sequence of events of the form keeps at least one phone entry. -/
theorem runEvents_length (events : List AddEditChild.FormEvent) (s : AddEditChild.State)
    (h : 1 ≤ s.formData.parentPhones.length) :
    1 ≤ (AddEditChild.runEvents events s).formData.parentPhones.length := by
  induction events generalizing s with
  | nil => exact h
  | cons e rest ih => exact ih _ (applyEvent_length e s h)

/-- Claim C30. In the add/edit form `parentPhones` starts with one entry, and after
every sequence of `handlePhoneChange`, `addPhone`, `removePhone` (with any index),
loaded child records and map events it has at least one entry; each of
`addPhone`, `removePhone`, `handlePhoneChange` and `fetchChild` applied to such a state gives
at least one entry again, and a loaded child with no phones gives the one
empty entry. -/
theorem parent_phones_never_empty (events : List AddEditChild.FormEvent) (index : Nat)
    (field : AddEditChild.PhoneField) (value : String) (child : AddEditChild.ApiChild) :
    AddEditChild.initialState.formData.parentPhones = [AddEditChild.emptyPhone] ∧
      1 ≤ (AddEditChild.runEvents events
        AddEditChild.initialState).formData.parentPhones.length ∧
      1 ≤ (AddEditChild.addPhone (AddEditChild.runEvents events
        AddEditChild.initialState)).formData.parentPhones.length ∧
      1 ≤ (AddEditChild.removePhone index (AddEditChild.runEvents events
        AddEditChild.initialState)).formData.parentPhones.length ∧
      1 ≤ (AddEditChild.handlePhoneChange index field value (AddEditChild.runEvents events
        AddEditChild.initialState)).formData.parentPhones.length ∧
      1 ≤ (AddEditChild.fetchChild (some child) (AddEditChild.runEvents events
        AddEditChild.initialState)).formData.parentPhones.length ∧
      (AddEditChild.fetchChild (some { child with parentPhones := some [] })
        (AddEditChild.runEvents events AddEditChild.initialState)).formData.parentPhones
        = [AddEditChild.emptyPhone] := by
  have h := runEvents_length events AddEditChild.initialState (by decide)
  refine ⟨rfl, h, applyEvent_length .addPhone _ h, applyEvent_length (.removePhone index) _ h,
    applyEvent_length (.phoneChange index field value) _ h,
    applyEvent_length (.childLoaded (some child)) _ h, ?_⟩
  exact fetchChild_phones _ [] _ rfl

/-- A form with two phone entries from which both are removed: the second
removal is refused and one entry stays. -/
theorem remove_last_phone_refused :
    (AddEditChild.runEvents [.addPhone, .removePhone 0, .removePhone 0]
      AddEditChild.initialState).formData.parentPhones = [AddEditChild.emptyPhone] := by
  decide
